import Mathlib

/-!
Verification of the `trust-model` reference implementation
(`src/trust_spec/_reference_model.py` and `src/trust_spec/violations.py`).

The Python code works over JSON-shaped dictionaries (events, receipts,
evaluator state).  We embed those values as the inductive type `Value`
(dictionary keys are strings, as in the JSON event/receipt logs the spec
fixes as the external artifact format).  Fallible Python operations
(`d[k]`, `int(x)`, iteration, ordering comparisons, hashing of
unhashable keys, attribute access) are embedded in `Except PyErr`, so a
Python exception corresponds to an `Except.error` value; operations that
cannot raise are plain functions.

Modelling notes, applied consistently below:
- SHA-256 (Python `hashlib`, an external dependency) is modelled by a
  deterministic digest function `sha256Hex`; every theorem below depends
  only on determinism and on the chaining structure, never on concrete
  digest values.
- CPython object identity, `id(event)`, which appears only in the
  fallback branch of `_event_id`, is modelled as a fixed placeholder
  string; it only ever reaches evidence strings, never labels, receipts
  or state.
- Python dict iteration order is insertion order; dictionaries are
  embedded as association lists in insertion order with unique keys.
-/

namespace TrustSpec

/-- Embeds the JSON-shaped dynamic values the Python reference model
computes with: `None`, booleans, integers, strings, lists and
string-keyed dictionaries. -/
inductive Value where
  | none
  | bool (b : Bool)
  | int (n : Int)
  | str (s : String)
  | list (xs : List Value)
  | dict (kvs : List (String × Value))

/-- Association list embedding a Python dictionary with string keys. -/
abbrev Dict := List (String × Value)

/-- Embeds the Python exception kinds that the reference model can
actually raise for dict-shaped domain input. -/
inductive PyErr where
  | keyError (key : String)
  | typeError
  | valueError
  | attributeError
deriving DecidableEq

/-- Embeds `event.get(key)` returning `Option`: `some` when the key is
present (membership test `key in event`), `none` otherwise. -/
def vGetDOpt (d : Dict) (k : String) : Option Value :=
  (d.find? (fun p => p.1 == k)).map (fun p => p.2)

/-- Embeds `d.get(k)` on a dictionary: the stored value, or `None` when
the key is absent. -/
def vGetD (d : Dict) (k : String) : Value :=
  (vGetDOpt d k).getD Value.none

/-- Embeds `d.get(k, dflt)` with an explicit default. -/
def vGetDDef (d : Dict) (k : String) (dflt : Value) : Value :=
  (vGetDOpt d k).getD dflt

/-- Embeds direct indexing `d[k]`, which raises `KeyError` when the key
is absent. -/
def dictIndexE (d : Dict) (k : String) : Except PyErr Value :=
  match vGetDOpt d k with
  | Option.some v => Except.ok v
  | Option.none => Except.error (PyErr.keyError k)

/-- Embeds `d[k] = v`: replace the value in place if the key is present
(keeping its position, as CPython dicts do), else append. -/
def dictSet (d : Dict) (k : String) (v : Value) : Dict :=
  match d with
  | [] => [(k, v)]
  | (k1, v1) :: rest =>
      if k1 == k then (k, v) :: rest else (k1, v1) :: dictSet rest k v

/-- Embeds `d.pop(k, None)` (also used for `_strip_hash_fields`): drop
the key if present. -/
def dictPop (d : Dict) (k : String) : Dict :=
  d.filter (fun p => !(p.1 == k))

/-- Embeds Python truthiness `bool(x)` for the embedded value kinds. -/
def pyTruthy : Value → Bool
  | Value.none => false
  | Value.bool b => b
  | Value.int n => !(n == 0)
  | Value.str s => !(s == "")
  | Value.list xs => !xs.isEmpty
  | Value.dict kvs => !kvs.isEmpty

/-- Embeds the identity test `x is None` (the key-absent default of
`.get` is also `None`, as in Python). -/
def isNoneV : Value → Bool
  | Value.none => true
  | _ => false

/-- Embeds the identity test `x is False`. -/
def isFalseV : Value → Bool
  | Value.bool b => !b
  | _ => false

/-- Embeds the identity test `x is True`. -/
def isTrueV : Value → Bool
  | Value.bool b => b
  | _ => false

/-- Tests whether a value is the given string literal (used for the
`event_type == "..."` dispatch comparisons, whose left side is always a
value from a dictionary). -/
def isStrV (v : Value) (s : String) : Bool :=
  match v with
  | Value.str t => t == s
  | _ => false

/-- Embeds `x or y` (Python returns the first truthy operand, else the
second operand). -/
def pyOr (a b : Value) : Value :=
  if pyTruthy a then a else b

/-- Embeds Python hashability: lists and dicts are unhashable, all other
embedded values are hashable. -/
def hashableV : Value → Bool
  | Value.list _ => false
  | Value.dict _ => false
  | _ => true

mutual
/-- Embeds `repr(x)` to the extent the reference model can observe it
(through f-string interpolation of containers); string escaping inside
`repr` is not modelled beyond quoting, which no claim observes. -/
def pyRepr : Value → String
  | Value.none => "None"
  | Value.bool true => "True"
  | Value.bool false => "False"
  | Value.int n => toString n
  | Value.str s => "\x27" ++ s ++ "\x27"
  | Value.list xs => "[" ++ String.intercalate ", " (pyReprList xs) ++ "]"
  | Value.dict kvs => "\x7b" ++ String.intercalate ", " (pyReprPairs kvs) ++ "\x7d"

/-- Renders the elements of a list for `pyRepr`. -/
def pyReprList : List Value → List String
  | [] => []
  | x :: xs => pyRepr x :: pyReprList xs

/-- Renders the key/value pairs of a dict for `pyRepr`. -/
def pyReprPairs : List (String × Value) → List String
  | [] => []
  | (k, v) :: xs => ("\x27" ++ k ++ "\x27: " ++ pyRepr v) :: pyReprPairs xs
end

/-- Embeds `str(x)` as used by f-string interpolation. -/
def pyStr : Value → String
  | Value.str s => s
  | v => pyRepr v

mutual
/-- Embeds Python equality `==` on embedded values, with fuel making the
recursion structural (the fuel chosen by `pyEq` always suffices).
Booleans compare equal to the corresponding integers, as in Python;
dictionaries compare by key lookup, which for the unique-key
dictionaries the model builds agrees with Python dict equality. -/
def pyEqFuel : Nat → Value → Value → Bool
  | 0, _, _ => false
  | fuel + 1, a, b =>
    match a, b with
    | Value.none, Value.none => true
    | Value.bool x, Value.bool y => x == y
    | Value.bool x, Value.int y => (if x then (1 : Int) else 0) == y
    | Value.int x, Value.bool y => x == (if y then (1 : Int) else 0)
    | Value.int x, Value.int y => x == y
    | Value.str x, Value.str y => x == y
    | Value.list xs, Value.list ys => pyEqListFuel fuel xs ys
    | Value.dict xs, Value.dict ys =>
        xs.length == ys.length && pyEqDictSubFuel fuel xs ys
    | _, _ => false

/-- Elementwise Python `==` on lists, fuelled. -/
def pyEqListFuel : Nat → List Value → List Value → Bool
  | 0, _, _ => false
  | fuel + 1, xs, ys =>
    match xs, ys with
    | [], [] => true
    | x :: xs1, y :: ys1 => pyEqFuel fuel x y && pyEqListFuel fuel xs1 ys1
    | _, _ => false

/-- One-sided dictionary inclusion for Python `==`, fuelled. -/
def pyEqDictSubFuel : Nat → List (String × Value) → List (String × Value) → Bool
  | 0, _, _ => false
  | fuel + 1, xs, other =>
    match xs with
    | [] => true
    | (k, v) :: rest =>
      (match other.find? (fun p => p.1 == k) with
       | Option.some p => pyEqFuel fuel v p.2
       | Option.none => false) && pyEqDictSubFuel fuel rest other
end

mutual
/-- Fuel bound for `pyEq`: an upper bound on the recursion depth of
`pyEqFuel` starting from the given value. -/
def pyFuelOf : Value → Nat
  | Value.none => 1
  | Value.bool _ => 1
  | Value.int _ => 1
  | Value.str _ => 1
  | Value.list xs => 1 + pyFuelOfList xs
  | Value.dict kvs => 1 + pyFuelOfPairs kvs

/-- Fuel bound for lists of values. -/
def pyFuelOfList : List Value → Nat
  | [] => 1
  | x :: xs => 1 + pyFuelOf x + pyFuelOfList xs

/-- Fuel bound for dictionary pair lists. -/
def pyFuelOfPairs : List (String × Value) → Nat
  | [] => 1
  | (_, v) :: xs => 1 + pyFuelOf v + pyFuelOfPairs xs
end

/-- Embeds Python equality `x == y` on embedded values. -/
def pyEq (a b : Value) : Bool :=
  pyEqFuel (pyFuelOf a + pyFuelOf b) a b

/-- Parses a decimal digit character. -/
def digitOf (c : Char) : Option Int :=
  if c.isDigit then Option.some (Int.ofNat (c.toNat - 48)) else Option.none

/-- Parses exactly the characters of a nonnegative decimal numeral. -/
def parseNat (cs : List Char) : Option Int :=
  cs.foldlM (fun acc c => (digitOf c).map (fun d => acc * 10 + d)) 0

/-- Embeds `int(x)` on a string argument: optional surrounding spaces,
optional sign, then decimal digits; anything else raises `ValueError`
(digit-group underscores are not modelled; no claim uses them). -/
def parseIntPyE (s : String) : Except PyErr Int :=
  let sp := Char.ofNat 32
  let cs1 := s.data.dropWhile (fun c => c == sp)
  let cs := (cs1.reverse.dropWhile (fun c => c == sp)).reverse
  match cs with
  | [] => Except.error PyErr.valueError
  | c :: rest =>
    let signedDigits :=
      if c == Char.ofNat 45 then (true, rest)
      else if c == Char.ofNat 43 then (false, rest)
      else (false, c :: rest)
    match signedDigits with
    | (neg, digits) =>
      if digits.isEmpty then Except.error PyErr.valueError
      else
        match parseNat digits with
        | Option.some n => Except.ok (if neg then -n else n)
        | Option.none => Except.error PyErr.valueError

/-- Embeds `int(x)`: integers and booleans convert, numeric strings
parse (`ValueError` otherwise), and other values raise `TypeError`. -/
def pyIntE : Value → Except PyErr Int
  | Value.int n => Except.ok n
  | Value.bool b => Except.ok (if b then 1 else 0)
  | Value.str s => parseIntPyE s
  | _ => Except.error PyErr.typeError

/-- Embeds the comparison `n < v` where the left side is a Python int:
numeric against ints and bools, `TypeError` otherwise. -/
def pyLtIntE (n : Int) (v : Value) : Except PyErr Bool :=
  match v with
  | Value.int m => Except.ok (decide (n < m))
  | Value.bool b => Except.ok (decide (n < (if b then 1 else 0)))
  | _ => Except.error PyErr.typeError

/-- Embeds the comparison `n >= v` where the left side is a Python int. -/
def pyGeIntE (n : Int) (v : Value) : Except PyErr Bool :=
  match v with
  | Value.int m => Except.ok (decide (n >= m))
  | Value.bool b => Except.ok (decide (n >= (if b then 1 else 0)))
  | _ => Except.error PyErr.typeError

/-- Lexicographic comparison of character lists by code point. -/
def charsLt : List Char → List Char → Bool
  | [], [] => false
  | [], _ :: _ => true
  | _ :: _, [] => false
  | a :: as1, b :: bs1 =>
      if a.toNat < b.toNat then true
      else if b.toNat < a.toNat then false
      else charsLt as1 bs1

/-- Embeds Python `a < b` on strings (code-point lexicographic order). -/
def pyStrLt (a b : String) : Bool := charsLt a.data b.data

/-- Embeds the comparison `a > b` between two embedded values: numeric
for int/bool pairs, lexicographic for string pairs, `TypeError`
otherwise. -/
def pyGtE (a b : Value) : Except PyErr Bool :=
  match a, b with
  | Value.int x, Value.int y => Except.ok (decide (x > y))
  | Value.int x, Value.bool y => Except.ok (decide (x > (if y then 1 else 0)))
  | Value.bool x, Value.int y => Except.ok (decide ((if x then (1 : Int) else 0) > y))
  | Value.bool x, Value.bool y => Except.ok (decide ((if x then (1 : Int) else 0) > (if y then 1 else 0)))
  | Value.str x, Value.str y => Except.ok (pyStrLt y x)
  | _, _ => Except.error PyErr.typeError

/-- Embeds iteration `for x in v`: lists yield elements, strings yield
their characters as one-character strings, dicts yield their keys, and
other values raise `TypeError`. -/
def pyIterE : Value → Except PyErr (List Value)
  | Value.list xs => Except.ok xs
  | Value.str s => Except.ok (s.data.map (fun c => Value.str (String.singleton c)))
  | Value.dict kvs => Except.ok (kvs.map (fun p => Value.str p.1))
  | _ => Except.error PyErr.typeError

/-- Substring test used by Python `a in s` on strings. -/
def strContainsSub (hay pat : String) : Bool :=
  (List.range (hay.data.length + 1)).any
    (fun i => pat.data.isPrefixOf (hay.data.drop i))

/-- Embeds membership `x in container` for list, string and dict
containers; other containers raise `TypeError`, as does a non-string
member tested against a string. -/
def pyInE (x container : Value) : Except PyErr Bool :=
  match container with
  | Value.list xs => Except.ok (xs.any (fun e => pyEq x e))
  | Value.str s =>
      match x with
      | Value.str t => Except.ok (strContainsSub s t)
      | _ => Except.error PyErr.typeError
  | Value.dict kvs =>
      if hashableV x then
        Except.ok (kvs.any (fun p => pyEq (Value.str p.1) x))
      else Except.error PyErr.typeError
  | _ => Except.error PyErr.typeError

/-- Embeds membership of `x` in a Python set literal of strings (such
as `{"mutual", "federated"}`): unhashable members raise `TypeError`. -/
def pySetMemE (x : Value) (elems : List String) : Except PyErr Bool :=
  if hashableV x then
    Except.ok (elems.any (fun s => pyEq x (Value.str s)))
  else Except.error PyErr.typeError

/-- Embeds `len(x)` for strings, lists and dicts; `TypeError`
otherwise. -/
def pyLenE : Value → Except PyErr Int
  | Value.str s => Except.ok (Int.ofNat s.length)
  | Value.list xs => Except.ok (Int.ofNat xs.length)
  | Value.dict kvs => Except.ok (Int.ofNat kvs.length)
  | _ => Except.error PyErr.typeError

/-- Embeds attribute-style `v.get(k)` on a value of unknown shape (for
`scope.get("duration")` where `scope` came from event data): non-dicts
raise `AttributeError`. -/
def vGetAttrE (v : Value) (k : String) : Except PyErr Value :=
  match v with
  | Value.dict d => Except.ok (vGetD d k)
  | _ => Except.error PyErr.attributeError

/-- Embeds `n + v` where the left side is a Python int (used for
`event_time + duration`). -/
def pyAddIntE (n : Int) (v : Value) : Except PyErr Value :=
  match v with
  | Value.int m => Except.ok (Value.int (n + m))
  | Value.bool b => Except.ok (Value.int (n + (if b then 1 else 0)))
  | _ => Except.error PyErr.typeError

/-- Association list embedding a Python dictionary whose keys are
arbitrary hashable values and whose stored values are dictionaries
(`State.delegations`, `State.consents`, `State.telemetry`,
`State.boundaries`, `State.entry_conditions`). -/
abbrev VDict := List (Value × Dict)

/-- Lookup in a value-keyed dictionary; keys compare with Python `==`,
matching CPython hash-and-compare lookup.  Unhashable keys raise
`TypeError`, as `d.get(k)` / `k in d` do in Python. -/
def vdictGetE (m : VDict) (k : Value) : Except PyErr (Option Dict) :=
  if hashableV k then
    Except.ok ((m.find? (fun p => pyEq p.1 k)).map (fun p => p.2))
  else Except.error PyErr.typeError

/-- Keyed update preserving insertion order: replace the first matching
key in place, else append. -/
def vdictSet (m : VDict) (k : Value) (v : Dict) : VDict :=
  match m with
  | [] => [(k, v)]
  | (k1, v1) :: rest =>
      if pyEq k1 k then (k, v) :: rest else (k1, v1) :: vdictSet rest k v

/-- Embeds `m[k] = v` on a value-keyed dictionary: unhashable keys raise
`TypeError`. -/
def vdictSetE (m : VDict) (k : Value) (v : Dict) : Except PyErr VDict :=
  if hashableV k then Except.ok (vdictSet m k v)
  else Except.error PyErr.typeError

/-- Embeds `k in m` on a value-keyed dictionary. -/
def vdictContainsE (m : VDict) (k : Value) : Except PyErr Bool :=
  if hashableV k then Except.ok (m.any (fun p => pyEq p.1 k))
  else Except.error PyErr.typeError

/-- Counter lookup for `State.telemetry_exposure` (`.get(k, 0)`). -/
def countGetE (m : List (Value × Int)) (k : Value) : Except PyErr Int :=
  if hashableV k then
    Except.ok ((m.find? (fun p => pyEq p.1 k)).map (fun p => p.2) |>.getD 0)
  else Except.error PyErr.typeError

/-- Counter update for `State.telemetry_exposure`. -/
def countSet (m : List (Value × Int)) (k : Value) (v : Int) : List (Value × Int) :=
  match m with
  | [] => [(k, v)]
  | (k1, v1) :: rest =>
      if pyEq k1 k then (k, v) :: rest else (k1, v1) :: countSet rest k v

/-- Embeds `s.add(x)` on a Python set, kept as an insertion-ordered
deduplicated list (the model never iterates these sets, so internal
order is unobservable); unhashable elements raise `TypeError`. -/
def pySetAddE (s : List Value) (x : Value) : Except PyErr (List Value) :=
  if hashableV x then
    Except.ok (if s.any (fun y => pyEq y x) then s else s ++ [x])
  else Except.error PyErr.typeError

/-- Embeds the set constructor `set(v)`. -/
def pySetOfE (v : Value) : Except PyErr (List Value) := do
  let xs ← pyIterE v
  xs.foldlM pySetAddE []

/-- Embeds `s.update(extra)` with already-hashable string elements. -/
def pySetUpdateStrs (s : List Value) (extra : List String) : List Value :=
  extra.foldl
    (fun acc t =>
      if acc.any (fun y => pyEq y (Value.str t)) then acc else acc ++ [Value.str t])
    s

/-- Insertion step of the string insertion sort. -/
def insertStr (x : String) : List String → List String
  | [] => [x]
  | y :: rest => if pyStrLt x y || x == y then x :: y :: rest else y :: insertStr x rest

/-- Sorts a list of strings (Python `sorted` on strings). -/
def sortStrs : List String → List String
  | [] => []
  | x :: rest => insertStr x (sortStrs rest)

/-- Insertion step of the integer insertion sort. -/
def insertInt (x : Int) : List Int → List Int
  | [] => [x]
  | y :: rest => if decide (x ≤ y) then x :: y :: rest else y :: insertInt x rest

/-- Sorts a list of integers (Python `sorted` on ints). -/
def sortInts : List Int → List Int
  | [] => []
  | x :: rest => insertInt x (sortInts rest)

/-- Embeds `sorted(xs)` as the reference model uses it (on the redacted
field-name set): homogeneous strings or ints sort, a single element of
any kind sorts trivially, and mixed kinds raise `TypeError` as Python
order comparison does.  Python additionally orders bools among ints;
no claim touches that case. -/
def pySortedE (xs : List Value) : Except PyErr (List Value) :=
  if xs.length ≤ 1 then Except.ok xs
  else if xs.all (fun v => match v with | Value.str _ => true | _ => false) then
    Except.ok ((sortStrs (xs.filterMap
      (fun v => match v with | Value.str s => Option.some s | _ => Option.none))).map Value.str)
  else if xs.all (fun v => match v with | Value.int _ => true | _ => false) then
    Except.ok ((sortInts (xs.filterMap
      (fun v => match v with | Value.int n => Option.some n | _ => Option.none))).map Value.int)
  else Except.error PyErr.typeError

/-- Escapes one character for the canonical JSON rendering (quote and
backslash; further `ensure_ascii` escaping is not modelled, which no
claim observes since only determinism and structure of the digest
matter). -/
def jsonEscapeChar (c : Char) : String :=
  if c == Char.ofNat 34 then "\\\""
  else if c == Char.ofNat 92 then "\\\\"
  else String.singleton c

/-- Escapes a string for the canonical JSON rendering. -/
def jsonEscape (s : String) : String :=
  String.join (s.data.map jsonEscapeChar)

/-- Insertion step for sorting rendered dictionary entries by raw key. -/
def insertPairByKey (p : String × String) : List (String × String) → List (String × String)
  | [] => [p]
  | q :: rest =>
      if pyStrLt p.1 q.1 || p.1 == q.1 then p :: q :: rest
      else q :: insertPairByKey p rest

/-- Sorts rendered dictionary entries by raw key (the `sort_keys=True`
of `json.dumps`). -/
def sortPairsByKey : List (String × String) → List (String × String)
  | [] => []
  | p :: rest => insertPairByKey p (sortPairsByKey rest)

mutual
/-- Embeds `_canonical_json`: JSON serialization with sorted keys and
compact separators, byte-stable for identical logical content. -/
def canonical_json : Value → String
  | Value.none => "null"
  | Value.bool true => "true"
  | Value.bool false => "false"
  | Value.int n => toString n
  | Value.str s => "\"" ++ jsonEscape s ++ "\""
  | Value.list xs => "[" ++ String.intercalate "," (canonJsonList xs) ++ "]"
  | Value.dict kvs =>
      "\x7b" ++
        String.intercalate "," ((sortPairsByKey (canonJsonPairs kvs)).map (fun p => p.2)) ++
      "\x7d"

/-- Renders list elements for `canonical_json`. -/
def canonJsonList : List Value → List String
  | [] => []
  | x :: xs => canonical_json x :: canonJsonList xs

/-- Renders dictionary entries for `canonical_json`, keeping the raw key
for sorting. -/
def canonJsonPairs : List (String × Value) → List (String × String)
  | [] => []
  | (k, v) :: xs =>
      (k, "\"" ++ jsonEscape k ++ "\":" ++ canonical_json v) :: canonJsonPairs xs
end

/-- Modelled from the spec: SHA-256 over the canonical JSON bytes (the
`hashlib` dependency lives outside `src/`); modelled as a deterministic
digest of the serialized string.  All theorems below depend only on
determinism and on the chaining structure, never on digest values. -/
def sha256Hex (s : String) : String :=
  toString (s.data.foldl (fun h c => (h * 131 + c.toNat) % 1000000007) 7)

/-- Converts an optional chain tail to the embedded value stored in the
`..._hash_prev` fields. -/
def optValue : Option String → Value
  | Option.some s => Value.str s
  | Option.none => Value.none

/-- Embeds `_hash_chain`: digest of the canonical JSON of
`prev_hash, payload`. -/
def hash_chain (payload : Dict) (prev : Option String) : String :=
  sha256Hex (canonical_json (Value.dict
    [("payload", Value.dict payload), ("prev_hash", optValue prev)]))

/-- Embeds `_strip_hash_fields`. -/
def strip_hash_fields (entry : Dict) (keys : List String) : Dict :=
  keys.foldl dictPop entry

/-- Days since the civil epoch 1970-01-01 for a Gregorian date
(standard civil-calendar conversion). -/
def daysFromCivil (y : Int) (m d : Int) : Int :=
  let y1 := if m <= 2 then y - 1 else y
  let era := (if y1 >= 0 then y1 else y1 - 399) / 400
  let yoe := y1 - era * 400
  let mp := (m + 9) % 12
  let doy := (153 * mp + 2) / 5 + d - 1
  let doe := yoe * 365 + yoe / 4 - yoe / 100 + doy
  era * 146097 + doe - 719468

/-- Gregorian date from days since 1970-01-01. -/
def civilFromDays (z0 : Int) : Int × Int × Int :=
  let z := z0 + 719468
  let era := (if z >= 0 then z else z - 146096) / 146097
  let doe := z - era * 146097
  let yoe := (doe - doe / 1460 + doe / 36524 - doe / 146096) / 365
  let y := yoe + era * 400
  let doy := doe - (365 * yoe + yoe / 4 - yoe / 100)
  let mp := (5 * doy + 2) / 153
  let d := doy - (153 * mp + 2) / 5 + 1
  let m := if mp < 10 then mp + 3 else mp - 9
  ((if m <= 2 then y + 1 else y), m, d)

/-- Zero-pads a nonnegative integer to two digits. -/
def pad2 (n : Int) : String :=
  if n < 10 then "0" ++ toString n else toString n

/-- Zero-pads a nonnegative integer to four digits. -/
def pad4 (n : Int) : String :=
  if n < 10 then "000" ++ toString n
  else if n < 100 then "00" ++ toString n
  else if n < 1000 then "0" ++ toString n
  else toString n

/-- Formats epoch seconds as an RFC-3339 UTC timestamp with a `Z`
suffix, matching `isoformat(timespec="seconds")` plus the `Z`
replacement.  Python would overflow past year 9999; that boundary is not
modelled and no claim reaches it. -/
def formatUtc (secs : Int) : String :=
  let days := secs / 86400
  let rem := secs % 86400
  let hh := rem / 3600
  let mm := (rem % 3600) / 60
  let ss := rem % 60
  match civilFromDays days with
  | (y, m, d) =>
      pad4 y ++ "-" ++ pad2 m ++ "-" ++ pad2 d ++ "T" ++
        pad2 hh ++ ":" ++ pad2 mm ++ ":" ++ pad2 ss ++ "Z"

/-- Embeds `_parse_rfc3339` composed with `.timestamp` extraction: maps
the canonical `YYYY-MM-DDTHH:MM:SS` UTC form (with `Z` or `+00:00`
suffix) to epoch seconds; other forms raise `ValueError`.  Python
`fromisoformat` accepts further variants the model does not; the
default base time is canonical and no claim supplies another form. -/
def parseRfc3339E (s : String) : Except PyErr Int :=
  let cs0 := s.data
  let body :=
    if [Char.ofNat 90].isSuffixOf cs0 then
      Option.some (cs0.take (cs0.length - 1))
    else if ((("+00:00" : String).data).isSuffixOf cs0) then
      Option.some (cs0.take (cs0.length - 6))
    else Option.none
  match body with
  | Option.none => Except.error PyErr.valueError
  | Option.some cs =>
    if cs.length == 19 then
      match parseNat (cs.take 4), parseNat (cs.drop 5 |>.take 2),
            parseNat (cs.drop 8 |>.take 2), parseNat (cs.drop 11 |>.take 2),
            parseNat (cs.drop 14 |>.take 2), parseNat (cs.drop 17 |>.take 2) with
      | Option.some y, Option.some mo, Option.some d,
        Option.some h, Option.some mi, Option.some se =>
          if (cs.get? 4 == Option.some (Char.ofNat 45)) &&
             (cs.get? 7 == Option.some (Char.ofNat 45)) &&
             (cs.get? 10 == Option.some (Char.ofNat 84)) &&
             (cs.get? 13 == Option.some (Char.ofNat 58)) &&
             (cs.get? 16 == Option.some (Char.ofNat 58)) &&
             (1 <= mo && mo <= 12) && (1 <= d && d <= 31) &&
             (0 <= h && h < 24) && (0 <= mi && mi < 60) && (0 <= se && se < 60) then
            Except.ok (daysFromCivil y mo d * 86400 + h * 3600 + mi * 60 + se)
          else Except.error PyErr.valueError
      | _, _, _, _, _, _ => Except.error PyErr.valueError
    else Except.error PyErr.valueError

/-- Embeds `_event_time_utc`: translate a logical clock tick to an
RFC-3339 UTC timestamp relative to the base time. -/
def event_time_utc_E (base : String) (t : Int) : Except PyErr String := do
  let b ← parseRfc3339E base
  Except.ok (formatUtc (b + t))

namespace TRUST_VIOLATION

/-- Wire value of `TRUST_VIOLATION.SUSER_UNIDENTIFIED`. -/
def SUSER_UNIDENTIFIED : String := "TRUST_VIOLATION.SUSER_UNIDENTIFIED"

/-- Wire value of `TRUST_VIOLATION.SOVEREIGNTY_ASSUMED`. -/
def SOVEREIGNTY_ASSUMED : String := "TRUST_VIOLATION.SOVEREIGNTY_ASSUMED"

/-- Wire value of `TRUST_VIOLATION.AUTHORITY_UNTRACEABLE`. -/
def AUTHORITY_UNTRACEABLE : String := "TRUST_VIOLATION.AUTHORITY_UNTRACEABLE"

/-- Wire value of `TRUST_VIOLATION.DELEGATION_INVALID`. -/
def DELEGATION_INVALID : String := "TRUST_VIOLATION.DELEGATION_INVALID"

/-- Wire value of `TRUST_VIOLATION.SOVEREIGNTY_DISPLACED`. -/
def SOVEREIGNTY_DISPLACED : String := "TRUST_VIOLATION.SOVEREIGNTY_DISPLACED"

/-- Wire value of `TRUST_VIOLATION.AUTONOMY_OVERREACH`. -/
def AUTONOMY_OVERREACH : String := "TRUST_VIOLATION.AUTONOMY_OVERREACH"

/-- Wire value of `TRUST_VIOLATION.ACCOUNTABILITY_BREAK`. -/
def ACCOUNTABILITY_BREAK : String := "TRUST_VIOLATION.ACCOUNTABILITY_BREAK"

/-- Wire value of `TRUST_VIOLATION.DIRECTIONALITY_BREACH`. -/
def DIRECTIONALITY_BREACH : String := "TRUST_VIOLATION.DIRECTIONALITY_BREACH"

/-- Wire value of `TRUST_VIOLATION.ORDERING_INVERTED`. -/
def ORDERING_INVERTED : String := "TRUST_VIOLATION.ORDERING_INVERTED"

end TRUST_VIOLATION

namespace CONSENT_VIOLATION

/-- Wire value of `CONSENT_VIOLATION.IMPLICIT_DELEGATION`. -/
def IMPLICIT_DELEGATION : String := "CONSENT_VIOLATION.IMPLICIT_DELEGATION"

/-- Wire value of `CONSENT_VIOLATION.INVALID_CONSENT`. -/
def INVALID_CONSENT : String := "CONSENT_VIOLATION.INVALID_CONSENT"

/-- Wire value of `CONSENT_VIOLATION.COERCED_OR_OPAQUE`. -/
def COERCED_OR_OPAQUE : String := "CONSENT_VIOLATION.COERCED_OR_OPAQUE"

end CONSENT_VIOLATION

namespace TELEMETRY_VIOLATION

/-- Wire value of `TELEMETRY_VIOLATION.PRESCRIPTIVE_USE`. -/
def PRESCRIPTIVE_USE : String := "TELEMETRY_VIOLATION.PRESCRIPTIVE_USE"

/-- Wire value of `TELEMETRY_VIOLATION.OPAQUE_INFLUENCE`. -/
def OPAQUE_INFLUENCE : String := "TELEMETRY_VIOLATION.OPAQUE_INFLUENCE"

end TELEMETRY_VIOLATION

namespace SERVICE_VIOLATION

/-- Wire value of `SERVICE_VIOLATION.SOVEREIGN_SUBSTITUTION`. -/
def SOVEREIGN_SUBSTITUTION : String := "SERVICE_VIOLATION.SOVEREIGN_SUBSTITUTION"

end SERVICE_VIOLATION

namespace ACCOUNTABILITY_VIOLATION

/-- Wire value of `ACCOUNTABILITY_VIOLATION.ILLEGIBLE_REPORTING`. -/
def ILLEGIBLE_REPORTING : String := "ACCOUNTABILITY_VIOLATION.ILLEGIBLE_REPORTING"

/-- Wire value of `ACCOUNTABILITY_VIOLATION.NON_LEGIBLE_EXPLANATION`. -/
def NON_LEGIBLE_EXPLANATION : String := "ACCOUNTABILITY_VIOLATION.NON_LEGIBLE_EXPLANATION"

/-- Wire value of `ACCOUNTABILITY_VIOLATION.NON_ACCOUNTABLE_OUTCOME`. -/
def NON_ACCOUNTABLE_OUTCOME : String := "ACCOUNTABILITY_VIOLATION.NON_ACCOUNTABLE_OUTCOME"

/-- Wire value of `ACCOUNTABILITY_VIOLATION.MISSING_REPORTING`. -/
def MISSING_REPORTING : String := "ACCOUNTABILITY_VIOLATION.MISSING_REPORTING"

/-- Wire value of `ACCOUNTABILITY_VIOLATION.DIAGNOSTIC_GAP`. -/
def DIAGNOSTIC_GAP : String := "ACCOUNTABILITY_VIOLATION.DIAGNOSTIC_GAP"

/-- Wire value of `ACCOUNTABILITY_VIOLATION.NON_ACTIONABLE_DISCLOSURE`. -/
def NON_ACTIONABLE_DISCLOSURE : String := "ACCOUNTABILITY_VIOLATION.NON_ACTIONABLE_DISCLOSURE"

/-- Wire value of `ACCOUNTABILITY_VIOLATION.LIMITS_UNDISCLOSED`. -/
def LIMITS_UNDISCLOSED : String := "ACCOUNTABILITY_VIOLATION.LIMITS_UNDISCLOSED"

end ACCOUNTABILITY_VIOLATION

namespace STRUCTURAL_VIOLATION

/-- Wire value of `STRUCTURAL_VIOLATION.INVALID_STATE`. -/
def INVALID_STATE : String := "STRUCTURAL_VIOLATION.INVALID_STATE"

/-- Wire value of `STRUCTURAL_VIOLATION.JUSTIFIED_INVALIDITY`. -/
def JUSTIFIED_INVALIDITY : String := "STRUCTURAL_VIOLATION.JUSTIFIED_INVALIDITY"

end STRUCTURAL_VIOLATION

namespace RESPECT_VIOLATION

/-- Wire value of `RESPECT_VIOLATION.UNILATERAL_IMPACT`. -/
def UNILATERAL_IMPACT : String := "RESPECT_VIOLATION.UNILATERAL_IMPACT"

/-- Wire value of `RESPECT_VIOLATION.BOUNDARY_IGNORED`. -/
def BOUNDARY_IGNORED : String := "RESPECT_VIOLATION.BOUNDARY_IGNORED"

/-- Wire value of `RESPECT_VIOLATION.CONTEXT_LEAK`. -/
def CONTEXT_LEAK : String := "RESPECT_VIOLATION.CONTEXT_LEAK"

/-- Wire value of `RESPECT_VIOLATION.NON_INTERFERENCE_BREACH`. -/
def NON_INTERFERENCE_BREACH : String := "RESPECT_VIOLATION.NON_INTERFERENCE_BREACH"

/-- Wire value of `RESPECT_VIOLATION.MUTUAL_CONSENT_MISSING`. -/
def MUTUAL_CONSENT_MISSING : String := "RESPECT_VIOLATION.MUTUAL_CONSENT_MISSING"

/-- Wire value of `RESPECT_VIOLATION.UNILATERAL_CONSENT_BASIS`. -/
def UNILATERAL_CONSENT_BASIS : String := "RESPECT_VIOLATION.UNILATERAL_CONSENT_BASIS"

/-- Wire value of `RESPECT_VIOLATION.COERCIVE_DEFAULT`. -/
def COERCIVE_DEFAULT : String := "RESPECT_VIOLATION.COERCIVE_DEFAULT"

/-- Wire value of `RESPECT_VIOLATION.PRINCIPLE_BREACH`. -/
def PRINCIPLE_BREACH : String := "RESPECT_VIOLATION.PRINCIPLE_BREACH"

/-- Wire value of `RESPECT_VIOLATION.IMPLICIT_BOUNDARIES`. -/
def IMPLICIT_BOUNDARIES : String := "RESPECT_VIOLATION.IMPLICIT_BOUNDARIES"

/-- Wire value of `RESPECT_VIOLATION.OPAQUE_ENFORCEMENT`. -/
def OPAQUE_ENFORCEMENT : String := "RESPECT_VIOLATION.OPAQUE_ENFORCEMENT"

/-- Wire value of `RESPECT_VIOLATION.DIAGNOSTIC_GAP`. -/
def DIAGNOSTIC_GAP : String := "RESPECT_VIOLATION.DIAGNOSTIC_GAP"

end RESPECT_VIOLATION

namespace GOVERNANCE_VIOLATION

/-- Wire value of `GOVERNANCE_VIOLATION.INTERFACE_GAP`. -/
def INTERFACE_GAP : String := "GOVERNANCE_VIOLATION.INTERFACE_GAP"

/-- Wire value of `GOVERNANCE_VIOLATION.MISSING_ENTRY_CONDITIONS`. -/
def MISSING_ENTRY_CONDITIONS : String := "GOVERNANCE_VIOLATION.MISSING_ENTRY_CONDITIONS"

/-- Wire value of `GOVERNANCE_VIOLATION.REVOCATION_DEFECT`. -/
def REVOCATION_DEFECT : String := "GOVERNANCE_VIOLATION.REVOCATION_DEFECT"

/-- Wire value of `GOVERNANCE_VIOLATION.FEDERATED_GAP`. -/
def FEDERATED_GAP : String := "GOVERNANCE_VIOLATION.FEDERATED_GAP"

/-- Wire value of `GOVERNANCE_VIOLATION.FAILURE_MODE_IGNORED`. -/
def FAILURE_MODE_IGNORED : String := "GOVERNANCE_VIOLATION.FAILURE_MODE_IGNORED"

end GOVERNANCE_VIOLATION

namespace EVALUATION_VIOLATION

/-- Wire value of `EVALUATION_VIOLATION.UNDETERMINABLE_PASS`. -/
def UNDETERMINABLE_PASS : String := "EVALUATION_VIOLATION.UNDETERMINABLE_PASS"

/-- Wire value of `EVALUATION_VIOLATION.REDUCTIONISM`. -/
def REDUCTIONISM : String := "EVALUATION_VIOLATION.REDUCTIONISM"

end EVALUATION_VIOLATION

namespace AUDIT_VIOLATION

/-- Wire value of `AUDIT_VIOLATION.TRUST_MINIMUM_MISSING`. -/
def TRUST_MINIMUM_MISSING : String := "AUDIT_VIOLATION.TRUST_MINIMUM_MISSING"

/-- Wire value of `AUDIT_VIOLATION.RESPECT_MINIMUM_MISSING`. -/
def RESPECT_MINIMUM_MISSING : String := "AUDIT_VIOLATION.RESPECT_MINIMUM_MISSING"

end AUDIT_VIOLATION

namespace ENFORCEMENT_VIOLATION

/-- Wire value of `ENFORCEMENT_VIOLATION.SOVEREIGNTY_INCOMPATIBLE`. -/
def SOVEREIGNTY_INCOMPATIBLE : String := "ENFORCEMENT_VIOLATION.SOVEREIGNTY_INCOMPATIBLE"

/-- Wire value of `ENFORCEMENT_VIOLATION.NO_ATTRIBUTION`. -/
def NO_ATTRIBUTION : String := "ENFORCEMENT_VIOLATION.NO_ATTRIBUTION"

end ENFORCEMENT_VIOLATION

/-- Embeds `ViolationRecord` from `violations.py`. -/
structure ViolationRecord where
  label : String
  evidence_ids : List String
  details : String

/-- Embeds `Report` from `violations.py`.  The `debug` dictionary is not
modelled: it only carries diagnostic context (events, receipts,
evaluator errors) and is explicitly not a stability contract; no claim
refers to it.  The `score` field starts as `None` and may be assigned
any event-provided value. -/
structure Report where
  kind : String
  violations : List ViolationRecord
  score : Value

/-- Embeds `Report.add_violation` (always appends; `details` defaults
to the empty string). -/
def Report.add_violation (r : Report) (label : String) (evidence : List String) : Report :=
  { r with violations :=
      r.violations ++ [{ label := label, evidence_ids := evidence, details := "" }] }

/-- Embeds `Report.labels`. -/
def Report.labels (r : Report) : List String :=
  r.violations.map (fun v => v.label)

/-- Fresh report of the given kind. -/
def Report.fresh (kind : String) : Report :=
  { kind := kind, violations := [], score := Value.none }

/-- Embeds `_KNOWN_EVENT_TYPES`. -/
def knownEventTypes : List String :=
  ["delegation", "revoke_delegation", "consent", "withdraw_consent",
   "telemetry", "service_action", "shared_action", "time_advance",
   "boundary_declaration", "entry_condition", "entry_request",
   "boundary_rule", "revocation_policy", "default_setting",
   "federated_governance", "boundary_failure_modes", "respect_principles",
   "participation_declaration", "trust_audit", "respect_audit",
   "enforcement", "disclosure", "limitation_disclosure",
   "reductionist_metric"]

/-- Membership of an event `type` value in the closed set of known
types (non-strings are never members). -/
def knownEventType (v : Value) : Bool :=
  match v with
  | Value.str s => knownEventTypes.contains s
  | _ => false

/-- Embeds the dispatch test `event_type is None or event_type not in
_KNOWN_EVENT_TYPES` (as the "known" Boolean): the set membership hashes
its argument, so an unhashable `type` value (a list or dict) raises
`TypeError` exactly as the source does; every hashable value is simply
tested for membership (`None` and other non-strings are never
members). -/
def knownEventTypeE (v : Value) : Except PyErr Bool :=
  if hashableV v then Except.ok (knownEventType v)
  else Except.error PyErr.typeError

/-- String-keyed lookup for `State.audits`. -/
def sdictGet (m : List (String × Dict)) (k : String) : Option Dict :=
  (m.find? (fun p => p.1 == k)).map (fun p => p.2)

/-- String-keyed update for `State.audits`. -/
def sdictSet (m : List (String × Dict)) (k : String) (v : Dict) : List (String × Dict) :=
  match m with
  | [] => [(k, v)]
  | (k1, v1) :: rest =>
      if k1 == k then (k, v) :: rest else (k1, v1) :: sdictSet rest k v

/-- Embeds `dict.update(other)` used by the `boundary_rule` and
`federated_governance` handlers. -/
def dictUpdate (base upd : Dict) : Dict :=
  upd.foldl (fun d p => dictSet d p.1 p.2) base

/-- Embeds the `State` dataclass.  Python set fields (`susers`,
`services`, `telemetry_sources`) are kept as insertion-ordered
deduplicated lists; they are written but never read by the evaluators,
so internal set order is unobservable.  Value-keyed mappings keep
insertion order like CPython dicts. -/
structure State where
  susers : List Value := []
  services : List Value := []
  telemetry_sources : List Value := []
  delegations : VDict := []
  consents : VDict := []
  telemetry : VDict := []
  decisions : List Dict := []
  boundaries : VDict := []
  entry_conditions : VDict := []
  shared_actions : List Dict := []
  defaults : List Dict := []
  enforcement : List Dict := []
  audits : List (String × Dict) := []
  disclosures : List Dict := []
  limitation_disclosures : List Dict := []
  event_log : List Dict := []
  receipt_log : List Dict := []
  next_receipt_id : Int := 1
  clock : Int := 0
  telemetry_exposure : List (Value × Int) := []
  base_time_utc : String := "2026-01-01T00:00:00Z"
  event_hash_prev : Option String := Option.none
  receipt_hash_prev : Option String := Option.none

/-- Embeds `State()` with the dataclass defaults (`_clone_state` needs
no counterpart: the embedding is persistent, so every snapshot is
already independent). -/
def freshState : State := {}

/-- Embeds `_event_id`: identifier keys probed in order; the CPython
`id(event)` fallback is modelled as a fixed placeholder (it can only
reach evidence strings).  Accessing `event["type"]` raises `KeyError`
when the key is absent, exactly as each return path of the source
does. -/
def eventIdE (event : Dict) : Except PyErr String := do
  let t ← dictIndexE event "type"
  let keyHit := ["delegation_id", "consent_id", "telemetry_id", "decision_id",
      "environment_id", "enforcement_id", "default_id", "audit_id",
      "disclosure_id", "limitation_id"].find?
    (fun k =>
      match vGetDOpt event k with
      | Option.some v => !(isNoneV v)
      | Option.none => false)
  match keyHit with
  | Option.some k => Except.ok (pyStr t ++ ":" ++ pyStr (vGetD event k))
  | Option.none => Except.ok (pyStr t ++ ":event-" ++ "objectid")

/-- Embeds the shared receipt finalizer `_add_receipt` (the inline
`_add_error_receipt` of the error branch performs the identical
steps): assign `receipt_id`, `time`, `time_utc`, chain the receipt hash
to the previous one, advance the chain tail and the id counter, and
append to the receipt buffer. -/
def addReceipt (st : State) (t : Int) (tUtc : String) (receipts : List Dict)
    (data : Dict) : State × List Dict :=
  let d1 := dictSet data "receipt_id" (Value.int st.next_receipt_id)
  let d2 := dictSet d1 "time" (Value.int t)
  let d3 := dictSet d2 "time_utc" (Value.str tUtc)
  let rhash := hash_chain (strip_hash_fields d3 ["receipt_hash", "receipt_hash_prev"])
    st.receipt_hash_prev
  let d4 := dictSet d3 "receipt_hash_prev" (optValue st.receipt_hash_prev)
  let d5 := dictSet d4 "receipt_hash" (Value.str rhash)
  ({ st with receipt_hash_prev := Option.some rhash,
             next_receipt_id := st.next_receipt_id + 1 },
   receipts ++ [d5])

/-- The digest `_add_receipt` assigns to a receipt finalized against the
given state (named for the proofs below; definitionally the `rhash` of
`addReceipt`). -/
def receiptHashOf (st : State) (t : Int) (tUtc : String) (data : Dict) : String :=
  hash_chain
    (strip_hash_fields
      (dictSet (dictSet (dictSet data "receipt_id" (Value.int st.next_receipt_id))
        "time" (Value.int t)) "time_utc" (Value.str tUtc))
      ["receipt_hash", "receipt_hash_prev"])
    st.receipt_hash_prev

/-- The finalized receipt `_add_receipt` appends (named for the proofs
below; definitionally the `d5` of `addReceipt`). -/
def finalizeReceipt (st : State) (t : Int) (tUtc : String) (data : Dict) : Dict :=
  dictSet
    (dictSet
      (dictSet (dictSet (dictSet data "receipt_id" (Value.int st.next_receipt_id))
        "time" (Value.int t)) "time_utc" (Value.str tUtc))
      "receipt_hash_prev" (optValue st.receipt_hash_prev))
    "receipt_hash" (Value.str (receiptHashOf st t tUtc data))

/-- The common handler tail: finalize the receipt against the updated
state and return the `(logged event, state, receipts)` triple
(definitionally the trailing `_add_receipt` call of each branch). -/
def finishReceipt (ev : Dict) (st1 : State) (t : Int) (tUtc : String) (receipt : Dict) :
    Except PyErr (Dict × State × List Dict) :=
  match addReceipt st1 t tUtc [] receipt with
  | (st2, rs) => Except.ok (ev, st2, rs)

/-- Embeds the `expires_at` computation shared by the `delegation` and
`default_setting` handlers: explicit `expires_at` wins, else
`event_time + duration` when a duration is given. -/
def computeExpiresAt (t : Int) (expires0 duration : Value) : Except PyErr Value :=
  if isNoneV expires0 && !(isNoneV duration) then pyAddIntE t duration
  else Except.ok expires0

/-- Embeds the in-place revocation marking of `revoke_delegation`:
record request/effective times on the stored delegation and set
`revoked` for a zero delay. -/
def revokeMarkDelegation (st : State) (delegation_id : Value) (t effective_at delay : Int) :
    Except PyErr State := do
  let contains ← vdictContainsE st.delegations delegation_id
  if contains then do
    let delegOpt ← vdictGetE st.delegations delegation_id
    match delegOpt with
    | Option.some g =>
      let g1 := dictSet g "revocation_requested_at" (Value.int t)
      let g2 := dictSet g1 "revocation_effective_at" (Value.int effective_at)
      let g3 := if delay == 0 then dictSet g2 "revoked" (Value.bool true) else g2
      let ds ← vdictSetE st.delegations delegation_id g3
      Except.ok { st with delegations := ds }
    | Option.none => Except.ok st
  else Except.ok st

/-- Embeds the in-place `withdrawn` marking of `withdraw_consent`. -/
def withdrawMarkConsent (st : State) (consent_id : Value) : Except PyErr State := do
  let contains ← vdictContainsE st.consents consent_id
  if contains then do
    let cOpt ← vdictGetE st.consents consent_id
    match cOpt with
    | Option.some c =>
      let cs ← vdictSetE st.consents consent_id (dictSet c "withdrawn" (Value.bool true))
      Except.ok { st with consents := cs }
    | Option.none => Except.ok st
  else Except.ok st

/-- Embeds the `authority_chain` computation of `service_action`: the
explicit override as a list, else `[delegation_id, delegation.suser_id]`
when the delegation is known, else the empty chain. -/
def computeAuthorityChain (st : State) (delegation_id chain_override : Value) :
    Except PyErr Value :=
  if !(isNoneV chain_override) then do
    let xs ← pyIterE chain_override
    Except.ok (Value.list xs)
  else do
    let c ← vdictContainsE st.delegations delegation_id
    if c then do
      let gOpt ← vdictGetE st.delegations delegation_id
      match gOpt with
      | Option.some g => Except.ok (Value.list [delegation_id, vGetD g "suser_id"])
      | Option.none => Except.ok (Value.list [])
    else Except.ok (Value.list [])

/-- Embeds the `delegation` branch of `apply_event`.  Python sets
`issued_at`/`expires_at` on the event object after it was appended to
`event_log`; because the log holds the same object, the logged entry
carries those fields, so the model applies them before the append (the
handlers return the final logged event).  The event hash was computed
before this mutation in both. -/
def applyDelegation (st : State) (ev0 : Dict) (t : Int) (tUtc : String) :
    Except PyErr (Dict × State × List Dict) := do
  let delegation_id ← dictIndexE ev0 "delegation_id"
  let scope := pyOr (vGetD ev0 "scope") (Value.dict [])
  let duration ← vGetAttrE scope "duration"
  let expires0 := vGetD ev0 "expires_at"
  let expires_at ← computeExpiresAt t expires0 duration
  let ev := dictSet (dictSet ev0 "issued_at" (Value.int t)) "expires_at" expires_at
  let delegations ← vdictSetE st.delegations delegation_id ev
  let susers ← pySetAddE st.susers (vGetD ev "suser_id")
  let services ← pySetAddE st.services (vGetD ev "grantee_id")
  let st1 := { st with delegations := delegations, susers := susers, services := services }
  let receipt : Dict :=
    [("type", Value.str "delegation_receipt"),
     ("delegation_id", delegation_id),
     ("suser_id", vGetD ev "suser_id"),
     ("grantee_id", vGetD ev "grantee_id"),
     ("explicit", vGetD ev "explicit"),
     ("scoped", vGetD ev "scoped"),
     ("revocable", vGetD ev "revocable"),
     ("suser_can_inspect", vGetD ev "suser_can_inspect"),
     ("suser_can_contest", vGetD ev "suser_can_contest"),
     ("suser_can_revoke", vGetD ev "suser_can_revoke"),
     ("derived_from_use", vGetD ev "derived_from_use"),
     ("scope", vGetD ev "scope"),
     ("revocation_path", vGetD ev "revocation_path"),
     ("issued_at", Value.int t),
     ("expires_at", expires_at)]
  finishReceipt ev st1 t tUtc receipt

/-- Embeds the `revoke_delegation` branch: schedules (or, for zero
delay, applies) revocation on the stored delegation record.  Python
also reaches the aliased `event_log` entry of the original delegation
event through the shared object; the evaluators never read revocation
fields from `event_log`, so the model updates only `delegations`. -/
def applyRevokeDelegation (st : State) (ev : Dict) (t : Int) (tUtc : String) :
    Except PyErr (Dict × State × List Dict) := do
  let delegation_id ← dictIndexE ev "delegation_id"
  let delay ← pyIntE (pyOr (vGetD ev "delay") (Value.int 0))
  let delay_disclosed := vGetD ev "delay_disclosed"
  let effective_at := t + delay
  let st1 ← revokeMarkDelegation st delegation_id t effective_at delay
  let receipt : Dict :=
    [("type", Value.str "delegation_revocation_receipt"),
     ("delegation_id", delegation_id),
     ("revoked", Value.bool (delay == 0)),
     ("delay", Value.int delay),
     ("delay_disclosed", delay_disclosed),
     ("requested_at", Value.int t),
     ("effective_at", Value.int effective_at)]
  finishReceipt ev st1 t tUtc receipt

/-- Embeds the `consent` branch. -/
def applyConsent (st : State) (ev : Dict) (t : Int) (tUtc : String) :
    Except PyErr (Dict × State × List Dict) := do
  let consent_id ← dictIndexE ev "consent_id"
  let consents ← vdictSetE st.consents consent_id ev
  let susers ← pySetAddE st.susers (vGetD ev "suser_id")
  let st1 := { st with consents := consents, susers := susers }
  let receipt : Dict :=
    [("type", Value.str "consent_receipt"),
     ("consent_id", consent_id),
     ("suser_id", vGetD ev "suser_id"),
     ("purpose", vGetD ev "purpose"),
     ("informed", vGetD ev "informed"),
     ("specific", vGetD ev "specific"),
     ("revocable", vGetD ev "revocable"),
     ("revocation_effective", vGetD ev "revocation_effective"),
     ("bundled", vGetD ev "bundled"),
     ("coerced", vGetD ev "coerced"),
     ("dark_pattern", vGetD ev "dark_pattern"),
     ("assumed_by_use", vGetD ev "assumed_by_use")]
  finishReceipt ev st1 t tUtc receipt

/-- Embeds the `withdraw_consent` branch. -/
def applyWithdrawConsent (st : State) (ev : Dict) (t : Int) (tUtc : String) :
    Except PyErr (Dict × State × List Dict) := do
  let consent_id ← dictIndexE ev "consent_id"
  let st1 ← withdrawMarkConsent st consent_id
  let receipt : Dict :=
    [("type", Value.str "consent_withdrawal_receipt"),
     ("consent_id", consent_id),
     ("withdrawn", Value.bool true)]
  finishReceipt ev st1 t tUtc receipt

/-- Embeds the `telemetry` branch. -/
def applyTelemetry (st : State) (ev : Dict) (t : Int) (tUtc : String) :
    Except PyErr (Dict × State × List Dict) := do
  let telemetry_id ← dictIndexE ev "telemetry_id"
  let telem ← vdictSetE st.telemetry telemetry_id ev
  let sources ← pySetAddE st.telemetry_sources telemetry_id
  let cnt ← countGetE st.telemetry_exposure telemetry_id
  let exposure := countSet st.telemetry_exposure telemetry_id (cnt + 1)
  let st1 := { st with telemetry := telem, telemetry_sources := sources,
                       telemetry_exposure := exposure }
  let receipt : Dict :=
    [("type", Value.str "telemetry_receipt"),
     ("telemetry_id", telemetry_id),
     ("influences", vGetD ev "influences"),
     ("explained", vGetD ev "explained"),
     ("human_explainable", vGetD ev "human_explainable"),
     ("prescriptive_use", vGetD ev "prescriptive_use"),
     ("reports_to_service", vGetD ev "reports_to_service"),
     ("self_originating", vGetD ev "self_originating"),
     ("exposure_count", Value.int (cnt + 1))]
  finishReceipt ev st1 t tUtc receipt

/-- Embeds the `service_action` branch: records the decision, registers
identities, and builds the `authority_chain` either from the explicit
override or as `[delegation_id, delegation.suser_id]`. -/
def applyServiceAction (st : State) (ev : Dict) (t : Int) (tUtc : String) :
    Except PyErr (Dict × State × List Dict) := do
  let _decision_id ← dictIndexE ev "decision_id"
  let decisions := st.decisions ++ [ev]
  let services ← pySetAddE st.services (vGetD ev "service_id")
  let susers ← pySetAddE st.susers (vGetD ev "suser_id")
  let delegation_id := vGetD ev "delegation_id"
  let chain_override := vGetD ev "authority_chain_override"
  let authority_chain ← computeAuthorityChain st delegation_id chain_override
  let st1 := { st with decisions := decisions, services := services, susers := susers }
  let receipt : Dict :=
    [("type", Value.str "decision_receipt"),
     ("decision_id", _decision_id),
     ("suser_id", vGetD ev "suser_id"),
     ("service_id", vGetD ev "service_id"),
     ("delegation_id", delegation_id),
     ("consent_id", vGetD ev "consent_id"),
     ("telemetry_refs", vGetDDef ev "telemetry_refs" (Value.list [])),
     ("explanation", vGetD ev "explanation"),
     ("explanation_legible", vGetD ev "explanation_legible"),
     ("report_to_suser", vGetD ev "report_to_suser"),
     ("contest_path", vGetD ev "contest_path"),
     ("revocation_path", vGetD ev "revocation_path"),
     ("authority_chain", authority_chain),
     ("context_id", vGetD ev "context_id"),
     ("affected_susers", vGetDDef ev "affected_susers" (Value.list [])),
     ("reporting_constraints", vGetD ev "reporting_constraints"),
     ("reporting_constraints_disclosed", vGetD ev "reporting_constraints_disclosed"),
     ("decision_time", Value.int t),
     ("delivered_to_suser", vGetD ev "receipt_delivered"),
     ("explanation_delivered", vGetD ev "explanation_delivered"),
     ("redacted_fields", pyOr (vGetD ev "redacted_fields") (Value.list [])),
     ("explanation_contextual", vGetD ev "explanation_contextual")]
  finishReceipt ev st1 t tUtc receipt

/-- Embeds the `shared_action` branch. -/
def applySharedAction (st : State) (ev : Dict) (t : Int) (tUtc : String) :
    Except PyErr (Dict × State × List Dict) := do
  let st1 := { st with shared_actions := st.shared_actions ++ [ev] }
  let receipt : Dict :=
    [("type", Value.str "shared_action_receipt"),
     ("environment_id", vGetD ev "environment_id"),
     ("actor_suser_id", vGetD ev "actor_suser_id"),
     ("affected_susers", vGetDDef ev "affected_susers" (Value.list [])),
     ("consent_basis", vGetD ev "consent_basis")]
  finishReceipt ev st1 t tUtc receipt

/-- Embeds the `time_advance` branch, the only mutation of the logical
clock. -/
def applyTimeAdvance (st : State) (ev : Dict) (t : Int) (tUtc : String) :
    Except PyErr (Dict × State × List Dict) := do
  let ticks ← pyIntE (pyOr (vGetD ev "ticks") (Value.int 0))
  let st1 := { st with clock := st.clock + ticks }
  let receipt : Dict :=
    [("type", Value.str "time_receipt"),
     ("ticks", Value.int ticks),
     ("from_time", Value.int t),
     ("to_time", Value.int st1.clock)]
  finishReceipt ev st1 t tUtc receipt

/-- Embeds the `boundary_declaration` branch. -/
def applyBoundaryDeclaration (st : State) (ev : Dict) (t : Int) (tUtc : String) :
    Except PyErr (Dict × State × List Dict) := do
  let environment_id ← dictIndexE ev "environment_id"
  let bs ← vdictSetE st.boundaries environment_id ev
  let st1 := { st with boundaries := bs }
  let receipt : Dict :=
    [("type", Value.str "boundary_receipt"),
     ("environment_id", environment_id),
     ("explicit", vGetD ev "explicit"),
     ("scope", vGetD ev "scope"),
     ("constraints", vGetD ev "constraints")]
  finishReceipt ev st1 t tUtc receipt

/-- Embeds the `entry_condition` branch. -/
def applyEntryCondition (st : State) (ev : Dict) (t : Int) (tUtc : String) :
    Except PyErr (Dict × State × List Dict) := do
  let environment_id ← dictIndexE ev "environment_id"
  let ec ← vdictSetE st.entry_conditions environment_id ev
  let st1 := { st with entry_conditions := ec }
  let receipt : Dict :=
    [("type", Value.str "entry_condition_receipt"),
     ("environment_id", environment_id),
     ("conditions_defined", vGetD ev "conditions_defined")]
  finishReceipt ev st1 t tUtc receipt

/-- Embeds the `entry_request` branch (receipt only). -/
def applyEntryRequest (st : State) (ev : Dict) (t : Int) (tUtc : String) :
    Except PyErr (Dict × State × List Dict) := do
  let receipt : Dict :=
    [("type", Value.str "entry_request_receipt"),
     ("environment_id", vGetD ev "environment_id"),
     ("entry_conditions_met", vGetD ev "entry_conditions_met"),
     ("entry_conditions_declared", vGetD ev "entry_conditions_declared")]
  finishReceipt ev st t tUtc receipt

/-- Embeds the `boundary_rule` branch (`setdefault` plus `update` into
the boundary record). -/
def applyBoundaryRule (st : State) (ev : Dict) (t : Int) (tUtc : String) :
    Except PyErr (Dict × State × List Dict) := do
  let environment_id := vGetD ev "environment_id"
  let curOpt ← vdictGetE st.boundaries environment_id
  let merged := dictUpdate (curOpt.getD []) ev
  let bs ← vdictSetE st.boundaries environment_id merged
  let st1 := { st with boundaries := bs }
  let receipt : Dict :=
    [("type", Value.str "boundary_rule_receipt"),
     ("environment_id", environment_id),
     ("interface_rules_present", vGetD ev "interface_rules_present")]
  finishReceipt ev st1 t tUtc receipt

/-- Embeds the `revocation_policy` branch (receipt only). -/
def applyRevocationPolicy (st : State) (ev : Dict) (t : Int) (tUtc : String) :
    Except PyErr (Dict × State × List Dict) := do
  let receipt : Dict :=
    [("type", Value.str "revocation_policy_receipt"),
     ("environment_id", vGetD ev "environment_id"),
     ("monitoring", vGetD ev "monitoring"),
     ("revocation_legible", vGetD ev "revocation_legible"),
     ("revocation_contestable", vGetD ev "revocation_contestable"),
     ("revocation_delay", vGetD ev "revocation_delay"),
     ("revocation_delay_disclosed", vGetD ev "revocation_delay_disclosed")]
  finishReceipt ev st t tUtc receipt

/-- Embeds the `default_setting` branch; like `delegation`, the
post-append `issued_at`/`expires_at` writes reach the logged entry
through aliasing, so the model applies them before logging. -/
def applyDefaultSetting (st : State) (ev0 : Dict) (t : Int) (tUtc : String) :
    Except PyErr (Dict × State × List Dict) := do
  let duration := vGetD ev0 "duration"
  let expires0 := vGetD ev0 "expires_at"
  let expires_at ← computeExpiresAt t expires0 duration
  let ev := dictSet (dictSet ev0 "issued_at" (Value.int t)) "expires_at" expires_at
  let st1 := { st with defaults := st.defaults ++ [ev] }
  let receipt : Dict :=
    [("type", Value.str "default_receipt"),
     ("default_id", vGetD ev "default_id"),
     ("justifiable", vGetD ev "justifiable"),
     ("reversible", vGetD ev "reversible"),
     ("active", vGetDDef ev "active" (Value.bool true)),
     ("issued_at", Value.int t),
     ("expires_at", expires_at)]
  finishReceipt ev st1 t tUtc receipt

/-- Embeds the `federated_governance` branch. -/
def applyFederatedGovernance (st : State) (ev : Dict) (t : Int) (tUtc : String) :
    Except PyErr (Dict × State × List Dict) := do
  let environment_id := vGetD ev "environment_id"
  let curOpt ← vdictGetE st.boundaries environment_id
  let merged := dictUpdate (curOpt.getD []) ev
  let bs ← vdictSetE st.boundaries environment_id merged
  let st1 := { st with boundaries := bs }
  let receipt : Dict :=
    [("type", Value.str "federated_receipt"),
     ("environment_id", environment_id),
     ("entry_exit_defined", vGetD ev "entry_exit_defined"),
     ("non_interference", vGetD ev "non_interference"),
     ("auditability", vGetD ev "auditability"),
     ("contestable", vGetD ev "contestable")]
  finishReceipt ev st1 t tUtc receipt

/-- Embeds the `boundary_failure_modes` branch (receipt only). -/
def applyBoundaryFailureModes (st : State) (ev : Dict) (t : Int) (tUtc : String) :
    Except PyErr (Dict × State × List Dict) := do
  let receipt : Dict :=
    [("type", Value.str "failure_modes_receipt"),
     ("environment_id", vGetD ev "environment_id"),
     ("implicit_consent", vGetD ev "implicit_consent"),
     ("opaque_enforcement", vGetD ev "opaque_enforcement"),
     ("hidden_influence", vGetD ev "hidden_influence"),
     ("irrevocable_participation", vGetD ev "irrevocable_participation")]
  finishReceipt ev st t tUtc receipt

/-- Embeds the `respect_principles` branch (receipt only). -/
def applyRespectPrinciples (st : State) (ev : Dict) (t : Int) (tUtc : String) :
    Except PyErr (Dict × State × List Dict) := do
  let receipt : Dict :=
    [("type", Value.str "respect_principles_receipt"),
     ("environment_id", vGetD ev "environment_id"),
     ("boundary_integrity", vGetD ev "boundary_integrity"),
     ("non_coercion", vGetD ev "non_coercion"),
     ("mutual_legibility", vGetD ev "mutual_legibility"),
     ("contextual_consent", vGetD ev "contextual_consent"),
     ("contestability", vGetD ev "contestability")]
  finishReceipt ev st t tUtc receipt

/-- Embeds the `participation_declaration` branch (receipt only). -/
def applyParticipationDeclaration (st : State) (ev : Dict) (t : Int) (tUtc : String) :
    Except PyErr (Dict × State × List Dict) := do
  let receipt : Dict :=
    [("type", Value.str "participation_declaration_receipt"),
     ("environment_id", vGetD ev "environment_id"),
     ("scope_declared", vGetD ev "scope_declared"),
     ("influence_declared", vGetD ev "influence_declared"),
     ("boundaries_declared", vGetD ev "boundaries_declared"),
     ("enforcement_legible", vGetD ev "enforcement_legible"),
     ("enforcement_proportionate", vGetD ev "enforcement_proportionate"),
     ("enforcement_contestable", vGetD ev "enforcement_contestable")]
  finishReceipt ev st t tUtc receipt

/-- Embeds the `trust_audit` branch. -/
def applyTrustAudit (st : State) (ev : Dict) (t : Int) (tUtc : String) :
    Except PyErr (Dict × State × List Dict) := do
  let st1 := { st with audits := sdictSet st.audits "trust" ev }
  let receipt : Dict :=
    [("type", Value.str "trust_audit_receipt"),
     ("audit_id", vGetD ev "audit_id"),
     ("minimum_met", vGetD ev "minimum_met")]
  finishReceipt ev st1 t tUtc receipt

/-- Embeds the `respect_audit` branch. -/
def applyRespectAudit (st : State) (ev : Dict) (t : Int) (tUtc : String) :
    Except PyErr (Dict × State × List Dict) := do
  let st1 := { st with audits := sdictSet st.audits "respect" ev }
  let receipt : Dict :=
    [("type", Value.str "respect_audit_receipt"),
     ("audit_id", vGetD ev "audit_id"),
     ("minimum_met", vGetD ev "minimum_met")]
  finishReceipt ev st1 t tUtc receipt

/-- Embeds the `enforcement` branch. -/
def applyEnforcement (st : State) (ev : Dict) (t : Int) (tUtc : String) :
    Except PyErr (Dict × State × List Dict) := do
  let st1 := { st with enforcement := st.enforcement ++ [ev] }
  let receipt : Dict :=
    [("type", Value.str "enforcement_receipt"),
     ("enforcement_id", vGetD ev "enforcement_id"),
     ("enforcer_id", vGetD ev "enforcer_id"),
     ("proportionate", vGetD ev "proportionate"),
     ("transparent", vGetD ev "transparent"),
     ("contestable", vGetD ev "contestable"),
     ("reversible", vGetD ev "reversible"),
     ("punitive", vGetD ev "punitive"),
     ("attributable", vGetD ev "attributable"),
     ("contest_path", vGetD ev "contest_path")]
  finishReceipt ev st1 t tUtc receipt

/-- Embeds the `disclosure` branch. -/
def applyDisclosure (st : State) (ev : Dict) (t : Int) (tUtc : String) :
    Except PyErr (Dict × State × List Dict) := do
  let st1 := { st with disclosures := st.disclosures ++ [ev] }
  let receipt : Dict :=
    [("type", Value.str "disclosure_receipt"),
     ("disclosure_id", vGetD ev "disclosure_id"),
     ("user_actionable", vGetD ev "user_actionable")]
  finishReceipt ev st1 t tUtc receipt

/-- Embeds the `limitation_disclosure` branch. -/
def applyLimitationDisclosure (st : State) (ev : Dict) (t : Int) (tUtc : String) :
    Except PyErr (Dict × State × List Dict) := do
  let st1 := { st with limitation_disclosures := st.limitation_disclosures ++ [ev] }
  let receipt : Dict :=
    [("type", Value.str "limitation_receipt"),
     ("limitation_id", vGetD ev "limitation_id"),
     ("limits_disclosed", vGetD ev "limits_disclosed")]
  finishReceipt ev st1 t tUtc receipt

/-- Dispatch over the known event types, mirroring the `elif` chain;
the trailing case covers the one known type with no handler
(`reductionist_metric`), which updates nothing and emits no receipt. -/
def applyKnown (st : State) (ev : Dict) (t : Int) (tUtc : String) (eventType : Value) :
    Except PyErr (Dict × State × List Dict) :=
  if isStrV eventType "delegation" then applyDelegation st ev t tUtc
  else if isStrV eventType "revoke_delegation" then applyRevokeDelegation st ev t tUtc
  else if isStrV eventType "consent" then applyConsent st ev t tUtc
  else if isStrV eventType "withdraw_consent" then applyWithdrawConsent st ev t tUtc
  else if isStrV eventType "telemetry" then applyTelemetry st ev t tUtc
  else if isStrV eventType "service_action" then applyServiceAction st ev t tUtc
  else if isStrV eventType "shared_action" then applySharedAction st ev t tUtc
  else if isStrV eventType "time_advance" then applyTimeAdvance st ev t tUtc
  else if isStrV eventType "boundary_declaration" then applyBoundaryDeclaration st ev t tUtc
  else if isStrV eventType "entry_condition" then applyEntryCondition st ev t tUtc
  else if isStrV eventType "entry_request" then applyEntryRequest st ev t tUtc
  else if isStrV eventType "boundary_rule" then applyBoundaryRule st ev t tUtc
  else if isStrV eventType "revocation_policy" then applyRevocationPolicy st ev t tUtc
  else if isStrV eventType "default_setting" then applyDefaultSetting st ev t tUtc
  else if isStrV eventType "federated_governance" then applyFederatedGovernance st ev t tUtc
  else if isStrV eventType "boundary_failure_modes" then applyBoundaryFailureModes st ev t tUtc
  else if isStrV eventType "respect_principles" then applyRespectPrinciples st ev t tUtc
  else if isStrV eventType "participation_declaration" then applyParticipationDeclaration st ev t tUtc
  else if isStrV eventType "trust_audit" then applyTrustAudit st ev t tUtc
  else if isStrV eventType "respect_audit" then applyRespectAudit st ev t tUtc
  else if isStrV eventType "enforcement" then applyEnforcement st ev t tUtc
  else if isStrV eventType "disclosure" then applyDisclosure st ev t tUtc
  else if isStrV eventType "limitation_disclosure" then applyLimitationDisclosure st ev t tUtc
  else Except.ok (ev, st, [])

/-- The commit step of the error branch of `apply_event`: finalize the
error receipt and append it to the receipt log. -/
def commitError (st1 : State) (t : Int) (tUtc : String) (receipt : Dict) :
    Except PyErr (State × List Dict) :=
  match addReceipt st1 t tUtc [] receipt with
  | (st2, rs) => Except.ok ({ st2 with receipt_log := st2.receipt_log ++ rs }, rs)

/-- The commit step of the known branch of `apply_event`: append the
logged event and the returned receipts to the two logs. -/
def commitKnown (triple : Dict × State × List Dict) : Except PyErr (State × List Dict) :=
  match triple with
  | (evF, st2, rs) =>
    let st3 := { st2 with event_log := st2.event_log ++ [evF] }
    Except.ok ({ st3 with receipt_log := st3.receipt_log ++ rs }, rs)

/-- Embeds `apply_event`.  The input snapshot is never mutated (the
embedding is persistent, which is what `_clone_state` achieves in
Python); incoming hash/time metadata is stripped; unknown or missing
types take the in-band error path; known types are stamped, hashed,
logged and dispatched; all receipts of the event are appended to the
receipt log and returned. -/
def applyEvent (state : State) (event0 : Dict) : Except PyErr (State × List Dict) := do
  let st := state
  let event_time := st.clock
  let eventType := vGetD event0 "type"
  let ev0 := dictPop (dictPop (dictPop event0 "event_hash") "event_hash_prev") "time_utc"
  let known ← knownEventTypeE eventType
  if !known then do
    let original_type := eventType
    let ev1 := dictSet ev0 "type" (Value.str "error")
    let ev2 := dictSet ev1 "original_type" original_type
    let errMsg :=
      if isNoneV original_type then "missing_event_type"
      else "unknown_event_type:" ++ pyStr original_type
    let ev3 := dictSet ev2 "error" (Value.str errMsg)
    let tUtc ← event_time_utc_E st.base_time_utc event_time
    let ev4 := dictSet ev3 "time" (Value.int event_time)
    let ev5 := dictSet ev4 "time_utc" (Value.str tUtc)
    let ehash := hash_chain (strip_hash_fields ev5 ["event_hash", "event_hash_prev"])
      st.event_hash_prev
    let ev6 := dictSet ev5 "event_hash_prev" (optValue st.event_hash_prev)
    let ev7 := dictSet ev6 "event_hash" (Value.str ehash)
    let st1 := { st with event_hash_prev := Option.some ehash,
                         event_log := st.event_log ++ [ev7] }
    let receipt : Dict :=
      [("type", Value.str "error_receipt"),
       ("event_type", original_type),
       ("error", Value.str errMsg)]
    commitError st1 event_time tUtc receipt
  else do
    let tUtc ← event_time_utc_E st.base_time_utc event_time
    let ev1 := dictSet ev0 "time" (Value.int event_time)
    let ev2 := dictSet ev1 "time_utc" (Value.str tUtc)
    let ehash := hash_chain (strip_hash_fields ev2 ["event_hash", "event_hash_prev"])
      st.event_hash_prev
    let ev3 := dictSet ev2 "event_hash_prev" (optValue st.event_hash_prev)
    let ev4 := dictSet ev3 "event_hash" (Value.str ehash)
    let st1 := { st with event_hash_prev := Option.some ehash }
    let triple ← applyKnown st1 ev4 event_time tUtc eventType
    commitKnown triple

/-- Folds an ordered event list through `apply_event` from a given
snapshot, propagating the first raised exception. -/
def applyEvents (st : State) : List Dict → Except PyErr State
  | [] => Except.ok st
  | e :: rest => do
    let p ← applyEvent st e
    applyEvents p.1 rest

/-- Monadic left fold in `Except`, the shape of every evaluator loop. -/
def foldME (step : β → α → Except PyErr β) : β → List α → Except PyErr β
  | acc, [] => Except.ok acc
  | acc, x :: rest => do
    let acc1 ← step acc x
    foldME step acc1 rest

/-- Applies a list of guarded violation additions in order: each
`(condition, label, evidence)` triple appends one record when its
condition holds, mirroring a run of `if cond: report.add_violation`
statements. -/
def addAll (checks : List (Bool × String × List String)) (r : Report) : Report :=
  checks.foldl
    (fun rep c => if c.1 then rep.add_violation c.2.1 c.2.2 else rep) r

/-- The effect one evaluator-loop iteration has on the accumulated
evaluation context: guarded report additions, the invalid-state flag,
evidence-list extensions and a possible score write.  Each loop step
first performs its fallible value extractions (in source evaluation
order, so the raised exception is the same) and then applies a pure
`StepOut`; this preserves both the error and the success value of the
original interleaved control flow, because violation additions never
influence the fallible extractions and the report is discarded when an
exception escapes. -/
structure StepOut where
  checks : List (Bool × String × List String) := []
  inv : Bool := false
  justifNew : List String := []
  missingReportingNew : List String := []
  delegInvalidNew : List String := []
  implicitDelegNew : List String := []
  sovDisplacedNew : List String := []
  consentInvalidNew : List String := []
  consentCoercedNew : List String := []
  telePrescriptiveNew : List String := []
  teleOpaqueNew : List String := []
  teleReportingNew : List String := []
  scoreNew : Option Value := Option.none

/-- Accumulator of `_evaluate_trust_unsafe`: the report under
construction, the `invalid_state` flag and the deferred evidence
lists. -/
structure TrustAcc where
  report : Report
  invalid : Bool
  justif : List String
  missingReporting : List String
  delegInvalid : List String
  implicitDeleg : List String
  sovDisplaced : List String
  consentInvalid : List String
  consentCoerced : List String
  telePrescriptive : List String
  teleOpaque : List String
  teleReporting : List String

/-- Initial accumulator for a fresh trust report. -/
def TrustAcc.init : TrustAcc :=
  { report := Report.fresh "trust", invalid := false, justif := [],
    missingReporting := [], delegInvalid := [], implicitDeleg := [],
    sovDisplaced := [], consentInvalid := [], consentCoerced := [],
    telePrescriptive := [], teleOpaque := [], teleReporting := [] }

/-- Applies a `StepOut` to the trust accumulator. -/
def applyOut (acc : TrustAcc) (o : StepOut) : TrustAcc :=
  let rep0 := addAll o.checks acc.report
  let rep :=
    match o.scoreNew with
    | Option.some v => { rep0 with score := v }
    | Option.none => rep0
  { report := rep,
    invalid := acc.invalid || o.inv,
    justif := acc.justif ++ o.justifNew,
    missingReporting := acc.missingReporting ++ o.missingReportingNew,
    delegInvalid := acc.delegInvalid ++ o.delegInvalidNew,
    implicitDeleg := acc.implicitDeleg ++ o.implicitDelegNew,
    sovDisplaced := acc.sovDisplaced ++ o.sovDisplacedNew,
    consentInvalid := acc.consentInvalid ++ o.consentInvalidNew,
    consentCoerced := acc.consentCoerced ++ o.consentCoercedNew,
    telePrescriptive := acc.telePrescriptive ++ o.telePrescriptiveNew,
    teleOpaque := acc.teleOpaque ++ o.teleOpaqueNew,
    teleReporting := acc.teleReporting ++ o.teleReportingNew }

/-- Embeds `record_justification`: appends
`"<event id>:justification:<text>"` when the event carries a truthy
justification (the `_event_id` call sits inside the f-string, so it is
only reached in that case). -/
def recordJustificationE (e : Dict) : Except PyErr (List String) := do
  let j := vGetD e "justification"
  if pyTruthy j then do
    let eid ← eventIdE e
    Except.ok [eid ++ ":justification:" ++ pyStr j]
  else Except.ok []

/-- Conditional `record_justification` call (the guard is the source
branch condition). -/
def guardJustif (cond : Bool) (e : Dict) : Except PyErr (List String) :=
  if cond then recordJustificationE e else Except.ok []

/-- Embeds the first `event_log` pass of `_evaluate_trust_unsafe`:
score capture from `reductionist_metric` events and justification
collection for invalid delegation/consent/telemetry events. -/
def trustEventCore (e : Dict) : Except PyErr StepOut := do
  let ty := vGetD e "type"
  let scoreNew :=
    if isStrV ty "reductionist_metric" then Option.some (vGetD e "score")
    else Option.none
  let j1 ← guardJustif (isStrV ty "delegation" && isFalseV (vGetD e "revocable")) e
  let j2 ← guardJustif
    (isStrV ty "consent" &&
      (pyTruthy (vGetD e "bundled") || pyTruthy (vGetD e "coerced") ||
       pyTruthy (vGetD e "dark_pattern") || pyTruthy (vGetD e "assumed_by_use"))) e
  let j3 ← guardJustif
    (isStrV ty "telemetry" &&
      (pyTruthy (vGetD e "prescriptive_use") ||
       (pyTruthy (vGetD e "influences") && !(pyTruthy (vGetD e "explained"))) ||
       (pyTruthy (vGetD e "influences") && !(pyTruthy (vGetD e "human_explainable"))))) e
  Except.ok { scoreNew := scoreNew, justifNew := j1 ++ j2 ++ j3 }

/-- Event-log step of the trust evaluator. -/
def trustEventStep (acc : TrustAcc) (e : Dict) : Except PyErr TrustAcc := do
  let o ← trustEventCore e
  Except.ok (applyOut acc o)

/-- Embeds the posthoc-authority scan inside the receipt loop: walk the
receipt's `authority_chain`, skipping non-string entries, and report
the first cited delegation whose `issued_at` lies after the receipt's
`decision_time` (the loop breaks after one hit). -/
def posthocScan (st : State) (decision_time : Value) :
    List Value → Except PyErr Bool
  | [] => Except.ok false
  | entry :: rest =>
    match entry with
    | Value.str s => do
        let gOpt ← vdictGetE st.delegations (Value.str s)
        let issued :=
          match gOpt with
          | Option.some g =>
              if pyTruthy (Value.dict g) then vGetD g "issued_at" else Value.none
          | Option.none => Value.none
        if !(isNoneV issued) then do
          let gt ← pyGtE issued decision_time
          if gt then Except.ok true else posthocScan st decision_time rest
        else posthocScan st decision_time rest
    | _ => posthocScan st decision_time rest

/-- The posthoc-authority result for one receipt: runs the chain scan
only when the receipt is a decision receipt with a non-`None`
`decision_time`. -/
def computePosthoc (st : State) (r : Dict) (isDec : Bool) : Except PyErr Bool :=
  if isDec then
    let decision_time := vGetD r "decision_time"
    let chain := pyOr (vGetD r "authority_chain") (Value.list [])
    if !(isNoneV decision_time) then do
      let entries ← pyIterE chain
      posthocScan st decision_time entries
    else Except.ok false
  else Except.ok false

/-- Embeds the receipt-log pass of `_evaluate_trust_unsafe`. -/
def trustReceiptCore (st : State) (r : Dict) : Except PyErr StepOut := do
  let receipt_id := vGetD r "receipt_id"
  let evd :=
    if isNoneV receipt_id then "receipt:unknown" else "receipt:" ++ pyStr receipt_id
  let ty := vGetD r "type"
  let isDec := isStrV ty "decision_receipt"
  let posthoc ← computePosthoc st r isDec
  let isDeleg := isStrV ty "delegation_receipt"
  let isConsent := isStrV ty "consent_receipt"
  let isTele := isStrV ty "telemetry_receipt"
  let coercedCond :=
    pyTruthy (vGetD r "bundled") || pyTruthy (vGetD r "coerced") ||
    pyTruthy (vGetD r "dark_pattern") || pyTruthy (vGetD r "assumed_by_use")
  let inflNoExplain := pyTruthy (vGetD r "influences") && !(pyTruthy (vGetD r "explained"))
  let inflNoHuman := pyTruthy (vGetD r "influences") && !(pyTruthy (vGetD r "human_explainable"))
  Except.ok
    { checks := [(posthoc, TRUST_VIOLATION.AUTHORITY_UNTRACEABLE, [evd])],
      missingReportingNew :=
        (if isDec && isFalseV (vGetD r "report_to_suser") then [evd] else []) ++
        (if isTele && isFalseV (vGetD r "reports_to_service") then [evd] else []),
      delegInvalidNew :=
        if isDeleg &&
           (isFalseV (vGetD r "explicit") || isFalseV (vGetD r "scoped") ||
            isFalseV (vGetD r "revocable")) then [evd] else [],
      implicitDelegNew :=
        if isDeleg && pyTruthy (vGetD r "derived_from_use") then [evd] else [],
      sovDisplacedNew :=
        if isDeleg &&
           (isFalseV (vGetD r "suser_can_inspect") ||
            isFalseV (vGetD r "suser_can_contest") ||
            isFalseV (vGetD r "suser_can_revoke")) then [evd] else [],
      consentInvalidNew :=
        if isConsent &&
           (isFalseV (vGetD r "informed") || isFalseV (vGetD r "specific") ||
            isFalseV (vGetD r "revocable") ||
            isFalseV (vGetD r "revocation_effective")) then [evd] else [],
      consentCoercedNew := if isConsent && coercedCond then [evd] else [],
      telePrescriptiveNew :=
        if isTele && pyTruthy (vGetD r "prescriptive_use") then [evd] else [],
      teleOpaqueNew := if isTele && inflNoExplain then [evd] else [],
      teleReportingNew :=
        if isTele && isFalseV (vGetD r "reports_to_service") then [evd] else [],
      inv :=
        (isDeleg && isFalseV (vGetD r "revocable")) ||
        (isConsent && coercedCond) ||
        (isTele && (inflNoExplain || inflNoHuman)) }

/-- Receipt-log step of the trust evaluator. -/
def trustReceiptStep (st : State) (acc : TrustAcc) (r : Dict) : Except PyErr TrustAcc := do
  let o ← trustReceiptCore st r
  Except.ok (applyOut acc o)

/-- Embeds the `state.delegations.values()` pass. -/
def trustDelegationCore (g : Dict) : Except PyErr StepOut := do
  let eid ← eventIdE g
  let notRevocable := !(pyTruthy (vGetD g "revocable"))
  let j ← guardJustif notRevocable g
  Except.ok
    { checks :=
        [(!(pyTruthy (vGetD g "explicit")) || !(pyTruthy (vGetD g "scoped")) ||
            notRevocable,
          TRUST_VIOLATION.DELEGATION_INVALID, [eid]),
         (!(pyTruthy (vGetD g "suser_can_inspect")) ||
            !(pyTruthy (vGetD g "suser_can_contest")),
          TRUST_VIOLATION.SOVEREIGNTY_DISPLACED, [eid]),
         (!(pyTruthy (vGetD g "suser_can_revoke")),
          TRUST_VIOLATION.SOVEREIGNTY_DISPLACED, [eid]),
         (pyTruthy (vGetD g "derived_from_use"),
          CONSENT_VIOLATION.IMPLICIT_DELEGATION, [eid])],
      inv := notRevocable,
      justifNew := j }

/-- Delegation step of the trust evaluator. -/
def trustDelegationStep (acc : TrustAcc) (g : Dict) : Except PyErr TrustAcc := do
  let o ← trustDelegationCore g
  Except.ok (applyOut acc o)

/-- Embeds the `state.consents.values()` pass. -/
def trustConsentCore (c : Dict) : Except PyErr StepOut := do
  let eid ← eventIdE c
  let coercedCond :=
    pyTruthy (vGetD c "bundled") || pyTruthy (vGetD c "coerced") ||
    pyTruthy (vGetD c "dark_pattern") || pyTruthy (vGetD c "assumed_by_use")
  let j ← guardJustif coercedCond c
  Except.ok
    { checks :=
        [(!(pyTruthy (vGetD c "informed")) || !(pyTruthy (vGetD c "specific")) ||
            !(pyTruthy (vGetD c "revocable")) ||
            !(pyTruthy (vGetD c "revocation_effective")),
          CONSENT_VIOLATION.INVALID_CONSENT, [eid]),
         (coercedCond, CONSENT_VIOLATION.COERCED_OR_OPAQUE, [eid])],
      inv := coercedCond,
      justifNew := j }

/-- Consent step of the trust evaluator. -/
def trustConsentStep (acc : TrustAcc) (c : Dict) : Except PyErr TrustAcc := do
  let o ← trustConsentCore c
  Except.ok (applyOut acc o)

/-- Embeds the `state.telemetry.values()` pass. -/
def trustTelemetryCore (tm : Dict) : Except PyErr StepOut := do
  let eid ← eventIdE tm
  let inflNoExplain :=
    pyTruthy (vGetD tm "influences") && !(pyTruthy (vGetD tm "explained"))
  let inflNoHuman :=
    pyTruthy (vGetD tm "influences") && !(pyTruthy (vGetD tm "human_explainable"))
  let j1 ← guardJustif inflNoExplain tm
  let j2 ← guardJustif inflNoHuman tm
  Except.ok
    { checks :=
        [(pyTruthy (vGetD tm "prescriptive_use"),
          TELEMETRY_VIOLATION.PRESCRIPTIVE_USE, [eid]),
         (inflNoExplain, TELEMETRY_VIOLATION.OPAQUE_INFLUENCE, [eid]),
         (isFalseV (vGetD tm "reports_to_service"),
          ACCOUNTABILITY_VIOLATION.MISSING_REPORTING, [eid])],
      inv := inflNoExplain || inflNoHuman,
      justifNew := j1 ++ j2 }

/-- Telemetry step of the trust evaluator. -/
def trustTelemetryStep (acc : TrustAcc) (tm : Dict) : Except PyErr TrustAcc := do
  let o ← trustTelemetryCore tm
  Except.ok (applyOut acc o)

/-- Embeds `_delegation_active_at`: issued/expiry window and lazy
revocation (scheduled `revocation_effective_at` takes precedence over
the `revoked` flag). -/
def delegationActiveAtE (g : Dict) (whenT : Int) : Except PyErr Bool := do
  let issued := vGetD g "issued_at"
  let beforeIssue ← if !(isNoneV issued) then pyLtIntE whenT issued else Except.ok false
  if beforeIssue then Except.ok false
  else do
    let expires := vGetD g "expires_at"
    let pastExpiry ← if !(isNoneV expires) then pyGeIntE whenT expires else Except.ok false
    if pastExpiry then Except.ok false
    else do
      let eff := vGetD g "revocation_effective_at"
      if !(isNoneV eff) then pyLtIntE whenT eff
      else Except.ok (!(pyTruthy (vGetD g "revoked")))

/-- Embeds the decision-time authority condition of the decision loop:
`not delegation or delegation.get("suser_id") != suser_id or not
_delegation_active_at(delegation, decision_time)`, with the or-chain
short-circuit preserved. -/
def decisionAuthorityFailsE (delegOpt : Option Dict) (suser : Value) (dt : Int) :
    Except PyErr Bool :=
  match delegOpt with
  | Option.none => Except.ok true
  | Option.some g =>
    if !(pyTruthy (Value.dict g)) then Except.ok true
    else if !(pyEq (vGetD g "suser_id") suser) then Except.ok true
    else do
      let act ← delegationActiveAtE g dt
      Except.ok (!act)

/-- The full per-decision authority check of `_evaluate_trust_unsafe`:
resolve the referenced delegation, compute the decision time (`time`
field when present, else the state clock), and test the authority
condition.  `Except.ok true` means `AUTHORITY_UNTRACEABLE` fires. -/
def decisionAuthorityUntraceable (st : State) (d : Dict) : Except PyErr Bool := do
  let delegOpt ← vdictGetE st.delegations (vGetD d "delegation_id")
  let dtv := vGetD d "time"
  let dt ← if !(isNoneV dtv) then pyIntE dtv else Except.ok st.clock
  decisionAuthorityFailsE delegOpt (vGetD d "suser_id") dt

/-- Embeds the aggregate-source membership comprehension: whether any
listed aggregate source is missing from `telemetry_refs` (every
membership is evaluated, as the list comprehension does). -/
def listNotInAnyE : List Value → Value → Except PyErr Bool
  | [], _ => Except.ok false
  | s :: rest, c => do
      let m ← pyInE s c
      let restAny ← listNotInAnyE rest c
      Except.ok (!m || restAny)

/-- Embeds the `any(...)` generator over self-originating telemetry
references (short-circuits at the first truthy hit). -/
def anySelfOriginatingE (st : State) : List Value → Except PyErr Bool
  | [] => Except.ok false
  | tid :: rest => do
      let gOpt ← vdictGetE st.telemetry tid
      let g := gOpt.getD []
      if pyTruthy (vGetD g "self_originating") then Except.ok true
      else anySelfOriginatingE st rest

/-- Embeds the `authority_chain_override` flatness-and-termination
check: a non-list override, a branching element, or a chain not ending
in the decision's own S-User is a violation. -/
def chainOverrideViol (chain_override suser : Value) : Bool :=
  if isNoneV chain_override then false
  else
    match chain_override with
    | Value.list xs =>
        let contains_branch := xs.any
          (fun x => match x with
            | Value.list _ => true
            | Value.dict _ => true
            | _ => false)
        let terminates :=
          !xs.isEmpty &&
          (match xs.getLast? with
           | Option.some lastv => pyEq lastv suser
           | Option.none => false)
        contains_branch || !terminates
    | _ => true

/-- The aggregate-telemetry violation for one decision: empty or
inconsistent `telemetry_aggregate_sources` under a truthy
`telemetry_aggregate` flag. -/
def computeAggViol (d : Dict) (telemetry_refs : Value) : Except PyErr Bool :=
  if pyTruthy (vGetD d "telemetry_aggregate") then
    let aggregate_sources := pyOr (vGetD d "telemetry_aggregate_sources") (Value.list [])
    if !(pyTruthy aggregate_sources) then Except.ok true
    else do
      let srcs ← pyIterE aggregate_sources
      listNotInAnyE srcs telemetry_refs
  else Except.ok false

/-- The self-originating-telemetry violation for one decision:
referencing self-originating telemetry without
`self_telemetry_contained`. -/
def computeSelfOrigViol (st : State) (d : Dict) (telemetry_refs : Value) :
    Except PyErr Bool :=
  if pyTruthy telemetry_refs then do
    let tids ← pyIterE telemetry_refs
    let uses ← anySelfOriginatingE st tids
    Except.ok (uses && !(pyTruthy (vGetD d "self_telemetry_contained")))
  else Except.ok false

/-- Whether the decision references a withdrawn consent. -/
def computeConsentWithdrawn (st : State) (consent_id : Value) : Except PyErr Bool :=
  if pyTruthy consent_id then do
    let cOpt ← vdictGetE st.consents consent_id
    Except.ok
      (match cOpt with
       | Option.some c => pyTruthy (vGetD c "withdrawn")
       | Option.none => false)
  else Except.ok false

/-- Embeds the per-decision pass of `_evaluate_trust_unsafe` (fallible
extractions in source order, then the guarded additions in source
order). -/
def trustDecisionCore (st : State) (d : Dict) : Except PyErr StepOut := do
  let eid ← eventIdE d
  let suser := vGetD d "suser_id"
  let j1 ← guardJustif (!(pyTruthy suser)) d
  let authFail ← decisionAuthorityUntraceable st d
  let telemetry_refs := vGetDDef d "telemetry_refs" (Value.list [])
  let len ← pyLenE telemetry_refs
  let attributionIncomplete :=
    decide (1 < len) &&
    !(pyTruthy (vGetDDef d "telemetry_attribution_complete" (Value.bool true)))
  let aggViol ← computeAggViol d telemetry_refs
  let selfOrigViol ← computeSelfOrigViol st d telemetry_refs
  let chainViol := chainOverrideViol (vGetD d "authority_chain_override") suser
  let consent_id := vGetD d "consent_id"
  let consentWithdrawn ← computeConsentWithdrawn st consent_id
  let j2 ← guardJustif (pyTruthy (vGetD d "inferred_intent")) d
  Except.ok
    { checks :=
        [(!(pyTruthy suser), TRUST_VIOLATION.SUSER_UNIDENTIFIED, [eid]),
         (pyTruthy (vGetD d "admin_override"), TRUST_VIOLATION.SOVEREIGNTY_ASSUMED, [eid]),
         (authFail, TRUST_VIOLATION.AUTHORITY_UNTRACEABLE, [eid]),
         (pyTruthy (vGetD d "automated") && !(pyTruthy (vGetD d "within_scope")),
          TRUST_VIOLATION.AUTONOMY_OVERREACH, [eid]),
         (pyTruthy (vGetD d "behavior_drift") && !(pyTruthy (vGetD d "mutation_authority")),
          TRUST_VIOLATION.AUTONOMY_OVERREACH, [eid]),
         (!(pyTruthy (vGetD d "disclosed")) || !(pyTruthy (vGetD d "justified")) ||
            !(pyTruthy (vGetD d "basis_in_delegation")),
          SERVICE_VIOLATION.SOVEREIGN_SUBSTITUTION, [eid]),
         (pyTruthy (vGetD d "ordering_inverted"), TRUST_VIOLATION.ORDERING_INVERTED, [eid]),
         (!(pyTruthy (vGetD d "report_to_suser")),
          ACCOUNTABILITY_VIOLATION.MISSING_REPORTING, [eid]),
         (pyTruthy (vGetD d "reporting_constraints") &&
            !(pyTruthy (vGetD d "reporting_constraints_disclosed")),
          ACCOUNTABILITY_VIOLATION.MISSING_REPORTING, [eid]),
         (pyTruthy (vGetD d "report_to_suser") &&
            !(pyTruthy (vGetD d "explanation_legible")),
          ACCOUNTABILITY_VIOLATION.ILLEGIBLE_REPORTING, [eid]),
         (!(pyTruthy (vGetD d "explanation_legible")),
          ACCOUNTABILITY_VIOLATION.NON_LEGIBLE_EXPLANATION, [eid]),
         (!(pyTruthy (vGetD d "explanation")),
          ACCOUNTABILITY_VIOLATION.NON_LEGIBLE_EXPLANATION, [eid]),
         (isFalseV (vGetD d "explanation_contextual"),
          ACCOUNTABILITY_VIOLATION.NON_LEGIBLE_EXPLANATION, [eid]),
         (!(pyTruthy (vGetD d "contest_path")) || !(pyTruthy (vGetD d "revocation_path")),
          ACCOUNTABILITY_VIOLATION.NON_ACCOUNTABLE_OUTCOME, [eid]),
         (!(pyTruthy (vGetD d "authority_chain_complete")),
          TRUST_VIOLATION.ACCOUNTABILITY_BREAK, [eid]),
         (attributionIncomplete, TELEMETRY_VIOLATION.OPAQUE_INFLUENCE, [eid]),
         (aggViol, TELEMETRY_VIOLATION.OPAQUE_INFLUENCE, [eid]),
         (selfOrigViol, TELEMETRY_VIOLATION.OPAQUE_INFLUENCE, [eid]),
         (chainViol, TRUST_VIOLATION.ACCOUNTABILITY_BREAK, [eid]),
         (pyTruthy (vGetD d "lower_layer_authority_accumulation") ||
            !(pyTruthy (vGetD d "higher_layer_can_intervene")),
          TRUST_VIOLATION.DIRECTIONALITY_BREACH, [eid]),
         (isFalseV (vGetD d "diagnostic_ready"),
          ACCOUNTABILITY_VIOLATION.DIAGNOSTIC_GAP, [eid]),
         (consentWithdrawn, CONSENT_VIOLATION.INVALID_CONSENT, [eid])],
      inv := !(pyTruthy suser) || pyTruthy (vGetD d "inferred_intent"),
      justifNew := j1 ++ j2 }

/-- Decision step of the trust evaluator. -/
def trustDecisionStep (st : State) (acc : TrustAcc) (d : Dict) : Except PyErr TrustAcc := do
  let o ← trustDecisionCore st d
  Except.ok (applyOut acc o)

/-- Embeds the disclosures pass (shared by nothing else; `_event_id`
sits inside the guarded call, so it is only reached on violation). -/
def disclosureStep (rep : Report) (d : Dict) : Except PyErr Report :=
  if !(pyTruthy (vGetD d "user_actionable")) then do
    let eid ← eventIdE d
    Except.ok (rep.add_violation ACCOUNTABILITY_VIOLATION.NON_ACTIONABLE_DISCLOSURE [eid])
  else Except.ok rep

/-- Embeds the limitation-disclosures pass. -/
def limitationStep (rep : Report) (d : Dict) : Except PyErr Report :=
  if !(pyTruthy (vGetD d "limits_disclosed")) then do
    let eid ← eventIdE d
    Except.ok (rep.add_violation ACCOUNTABILITY_VIOLATION.LIMITS_UNDISCLOSED [eid])
  else Except.ok rep

/-- Embeds the enforcement pass, textually identical in the trust and
respect evaluators, hence shared. -/
def enforcementStep (rep : Report) (e : Dict) : Except PyErr Report := do
  let eid ← eventIdE e
  let c1 :=
    !(pyTruthy (vGetD e "proportionate")) || !(pyTruthy (vGetD e "transparent")) ||
    !(pyTruthy (vGetD e "contestable")) || isFalseV (vGetD e "reversible") ||
    pyTruthy (vGetD e "punitive")
  let c2 := !(pyTruthy (vGetD e "attributable")) || !(pyTruthy (vGetD e "enforcer_id"))
  Except.ok (addAll
    [(c1, ENFORCEMENT_VIOLATION.SOVEREIGNTY_INCOMPATIBLE, [eid]),
     (c2, ENFORCEMENT_VIOLATION.NO_ATTRIBUTION, [eid])] rep)

/-- The trust-audit minimum check (a no-op when no trust audit is
recorded). -/
def trustAuditCheck (st : State) (rep : Report) : Except PyErr Report :=
  match sdictGet st.audits "trust" with
  | Option.some audit =>
      if !(pyTruthy (vGetD audit "minimum_met")) then do
        let eid ← eventIdE audit
        Except.ok (rep.add_violation AUDIT_VIOLATION.TRUST_MINIMUM_MISSING [eid])
      else Except.ok rep
  | Option.none => Except.ok rep

/-- Embeds the tail of `_evaluate_trust_unsafe`: invalid-state flush,
deferred evidence flush, trust audit, disclosures, limitation
disclosures, enforcement, the undeterminable sweep and the
reductionism check, in source order. -/
def trustFinish (st : State) (acc : TrustAcc) : Except PyErr Report := do
  let rep1 := addAll
    [(acc.invalid, STRUCTURAL_VIOLATION.INVALID_STATE, ["structural"]),
     (acc.invalid && !acc.justif.isEmpty,
      STRUCTURAL_VIOLATION.JUSTIFIED_INVALIDITY, acc.justif),
     (!acc.delegInvalid.isEmpty, TRUST_VIOLATION.DELEGATION_INVALID, acc.delegInvalid),
     (!acc.implicitDeleg.isEmpty, CONSENT_VIOLATION.IMPLICIT_DELEGATION, acc.implicitDeleg),
     (!acc.sovDisplaced.isEmpty, TRUST_VIOLATION.SOVEREIGNTY_DISPLACED, acc.sovDisplaced),
     (!acc.consentInvalid.isEmpty, CONSENT_VIOLATION.INVALID_CONSENT, acc.consentInvalid),
     (!acc.consentCoerced.isEmpty, CONSENT_VIOLATION.COERCED_OR_OPAQUE, acc.consentCoerced),
     (!acc.telePrescriptive.isEmpty,
      TELEMETRY_VIOLATION.PRESCRIPTIVE_USE, acc.telePrescriptive),
     (!acc.teleOpaque.isEmpty, TELEMETRY_VIOLATION.OPAQUE_INFLUENCE, acc.teleOpaque),
     (!acc.teleReporting.isEmpty,
      ACCOUNTABILITY_VIOLATION.MISSING_REPORTING, acc.teleReporting),
     (!acc.missingReporting.isEmpty,
      ACCOUNTABILITY_VIOLATION.MISSING_REPORTING, acc.missingReporting)]
    acc.report
  let rep2 ← trustAuditCheck st rep1
  let rep3 ← foldME disclosureStep rep2 st.disclosures
  let rep4 ← foldME limitationStep rep3 st.limitation_disclosures
  let rep5 ← foldME enforcementStep rep4 st.enforcement
  let rep6 :=
    if st.event_log.any (fun e => pyTruthy (vGetD e "undeterminable")) then
      rep5.add_violation EVALUATION_VIOLATION.UNDETERMINABLE_PASS ["undeterminable"]
    else rep5
  let rep7 :=
    if !(isNoneV rep6.score) then
      rep6.add_violation EVALUATION_VIOLATION.REDUCTIONISM ["reductionism"]
    else rep6
  Except.ok rep7

/-- Embeds `_evaluate_trust_unsafe`: the passes in source order. -/
def evaluateTrustUnsafe (st : State) : Except PyErr Report := do
  let a1 ← foldME trustEventStep TrustAcc.init st.event_log
  let a2 ← foldME (trustReceiptStep st) a1 st.receipt_log
  let a3 ← foldME trustDelegationStep a2 (st.delegations.map (fun p => p.2))
  let a4 ← foldME trustConsentStep a3 (st.consents.map (fun p => p.2))
  let a5 ← foldME trustTelemetryStep a4 (st.telemetry.map (fun p => p.2))
  let a6 ← foldME (trustDecisionStep st) a5 st.decisions
  trustFinish st a6

/-- The two-label fallback report the evaluator safety nets produce
(the captured exception goes only to `debug`, which is not modelled). -/
def fallbackReport (kind : String) : Report :=
  ((Report.fresh kind).add_violation STRUCTURAL_VIOLATION.INVALID_STATE
      ["evaluator"]).add_violation TRUST_VIOLATION.ACCOUNTABILITY_BREAK ["evaluator"]

/-- Embeds `evaluate_trust`: total wrapper converting any internal
exception into the `INVALID_STATE` plus `ACCOUNTABILITY_BREAK`
report. -/
def evaluateTrust (st : State) : Report :=
  match evaluateTrustUnsafe st with
  | Except.ok r => r
  | Except.error _ => fallbackReport "trust"

/-- Embeds the disclosed-delay pre-pass of `_evaluate_respect_unsafe`:
the earliest logged `revocation_policy` event time with a truthy,
disclosed delay. -/
def revDisclosedStep (cur : Option Int) (e : Dict) : Except PyErr (Option Int) :=
  if isStrV (vGetD e "type") "revocation_policy" &&
     pyTruthy (vGetD e "revocation_delay") &&
     pyTruthy (vGetD e "revocation_delay_disclosed") then do
    let t ← pyIntE (pyOr (vGetD e "time") (Value.int 0))
    Except.ok
      (match cur with
       | Option.none => Option.some t
       | Option.some c => Option.some (min c t))
  else Except.ok cur

/-- Embeds the score pass of `_evaluate_respect_unsafe` (last
`reductionist_metric` event wins). -/
def respScoreStep (score : Value) (e : Dict) : Value :=
  if isStrV (vGetD e "type") "reductionist_metric" then vGetD e "score" else score

/-- Embeds the actor/affected comparison of the shared-action pass:
`any(suser != actor for suser in affected)`. -/
def affectsOthersE (a : Dict) : Except PyErr Bool := do
  let affItems ← pyIterE (vGetDDef a "affected_susers" (Value.list []))
  Except.ok (affItems.any (fun s => !(pyEq s (vGetD a "actor_suser_id"))))

/-- The consent-basis check of the shared-action pass, evaluated only
when the action affects others (preserving the `and` short-circuit of
the source condition). -/
def computeNotMutual (affectsOthers : Bool) (consent_basis : Value) : Except PyErr Bool :=
  if affectsOthers then do
    let m ← pySetMemE consent_basis ["mutual", "federated"]
    Except.ok (!m)
  else Except.ok false

/-- Embeds the per-shared-action pass of `_evaluate_respect_unsafe`
(the consent-basis set membership is only evaluated when the action
affects others, preserving the `and` short-circuit). -/
def respectSharedStep (rep : Report) (a : Dict) : Except PyErr Report := do
  let eid ← eventIdE a
  let affectsOthers ← affectsOthersE a
  let consent_basis := vGetD a "consent_basis"
  let notMutual ← computeNotMutual affectsOthers consent_basis
  Except.ok (addAll
    [(affectsOthers && notMutual, RESPECT_VIOLATION.UNILATERAL_IMPACT, [eid]),
     (affectsOthers && notMutual, RESPECT_VIOLATION.MUTUAL_CONSENT_MISSING, [eid]),
     (affectsOthers && !(pyTruthy (vGetD a "consent_legible")),
      RESPECT_VIOLATION.UNILATERAL_IMPACT, [eid]),
     (!(pyTruthy (vGetD a "boundary_constraints_met")) ||
        !(pyTruthy (vGetD a "internal_accountable")),
      RESPECT_VIOLATION.BOUNDARY_IGNORED, [eid]),
     (pyTruthy (vGetD a "cross_context") && !(pyTruthy (vGetD a "renewed_consent")),
      RESPECT_VIOLATION.CONTEXT_LEAK, [eid]),
     (affectsOthers && !(pyTruthy (vGetD a "influence_disclosed")),
      RESPECT_VIOLATION.NON_INTERFERENCE_BREACH, [eid]),
     (affectsOthers && pyEq consent_basis (Value.str "unilateral"),
      RESPECT_VIOLATION.UNILATERAL_CONSENT_BASIS, [eid]),
     (affectsOthers && pyEq consent_basis (Value.str "none") &&
        !(pyTruthy (vGetD a "scope_constrained")),
      RESPECT_VIOLATION.MUTUAL_CONSENT_MISSING, [eid]),
     (isFalseV (vGetD a "diagnostic_ready"), RESPECT_VIOLATION.DIAGNOSTIC_GAP, [eid])]
    rep)

/-- Embeds the `entry_conditions.values()` pass. -/
def respectEntryCondStep (rep : Report) (e : Dict) : Except PyErr Report :=
  if !(pyTruthy (vGetD e "conditions_defined")) then do
    let eid ← eventIdE e
    Except.ok (rep.add_violation GOVERNANCE_VIOLATION.MISSING_ENTRY_CONDITIONS [eid])
  else Except.ok rep

/-- The `entry_request` branch of the governance `event_log` pass. -/
def respEntryReqCheck (rep : Report) (e : Dict) : Except PyErr Report :=
  if isStrV (vGetD e "type") "entry_request" then do
    let eid ← eventIdE e
    Except.ok (addAll
      [(!(pyTruthy (vGetD e "entry_conditions_declared")) ||
          !(pyTruthy (vGetD e "entry_conditions_met")),
        GOVERNANCE_VIOLATION.MISSING_ENTRY_CONDITIONS, [eid])] rep)
  else Except.ok rep

/-- The `boundary_rule` branch of the governance `event_log` pass. -/
def respBoundaryRuleCheck (rep : Report) (e : Dict) : Except PyErr Report :=
  if isStrV (vGetD e "type") "boundary_rule" &&
     isFalseV (vGetD e "interface_rules_present") then do
    let eid ← eventIdE e
    Except.ok (rep.add_violation GOVERNANCE_VIOLATION.INTERFACE_GAP [eid])
  else Except.ok rep

/-- The `revocation_policy` branch of the governance `event_log`
pass. -/
def respRevPolicyCheck (rep : Report) (e : Dict) : Except PyErr Report :=
  if isStrV (vGetD e "type") "revocation_policy" then do
    let eid ← eventIdE e
    Except.ok (addAll
      [(!(pyTruthy (vGetD e "monitoring")) ||
          !(pyTruthy (vGetD e "revocation_legible")) ||
          !(pyTruthy (vGetD e "revocation_contestable")),
        GOVERNANCE_VIOLATION.REVOCATION_DEFECT, [eid]),
       (pyTruthy (vGetD e "revocation_delay") &&
          !(pyTruthy (vGetD e "revocation_delay_disclosed")),
        GOVERNANCE_VIOLATION.REVOCATION_DEFECT, [eid])] rep)
  else Except.ok rep

/-- The `revoke_delegation` branch of the governance `event_log` pass:
non-zero delays must be disclosed, either on the event itself or by an
earlier disclosed revocation policy. -/
def respRevokeDelegCheck (disclosedAt : Option Int) (rep : Report) (e : Dict) :
    Except PyErr Report :=
  if isStrV (vGetD e "type") "revoke_delegation" then do
    let delay ← pyIntE (pyOr (vGetD e "delay") (Value.int 0))
    if !(delay == 0) then do
      let disclosed := vGetD e "delay_disclosed"
      let event_time ← pyIntE (pyOr (vGetD e "time") (Value.int 0))
      let undisclosed :=
        isFalseV disclosed ||
        (isNoneV disclosed &&
          (match disclosedAt with
           | Option.none => true
           | Option.some at0 => decide (event_time < at0)))
      if undisclosed then do
        let eid ← eventIdE e
        Except.ok (rep.add_violation GOVERNANCE_VIOLATION.REVOCATION_DEFECT [eid])
      else Except.ok rep
    else Except.ok rep
  else Except.ok rep

/-- The `boundary_declaration` branch of the governance `event_log`
pass. -/
def respBoundaryDeclCheck (rep : Report) (e : Dict) : Except PyErr Report :=
  if isStrV (vGetD e "type") "boundary_declaration" &&
     !(pyTruthy (vGetD e "explicit")) then do
    let eid ← eventIdE e
    Except.ok (rep.add_violation RESPECT_VIOLATION.IMPLICIT_BOUNDARIES [eid])
  else Except.ok rep

/-- The `federated_governance` branch of the governance `event_log`
pass. -/
def respFedGovCheck (rep : Report) (e : Dict) : Except PyErr Report :=
  if isStrV (vGetD e "type") "federated_governance" then do
    let eid ← eventIdE e
    Except.ok (addAll
      [(!(pyTruthy (vGetD e "entry_exit_defined")) ||
          !(pyTruthy (vGetD e "non_interference")) ||
          !(pyTruthy (vGetD e "auditability")) ||
          !(pyTruthy (vGetD e "contestable")),
        GOVERNANCE_VIOLATION.FEDERATED_GAP, [eid])] rep)
  else Except.ok rep

/-- The `boundary_failure_modes` branch of the governance `event_log`
pass. -/
def respFailureModesCheck (rep : Report) (e : Dict) : Except PyErr Report :=
  if isStrV (vGetD e "type") "boundary_failure_modes" then do
    let eid ← eventIdE e
    Except.ok (addAll
      [(pyTruthy (vGetD e "implicit_consent") ||
          pyTruthy (vGetD e "opaque_enforcement") ||
          pyTruthy (vGetD e "hidden_influence") ||
          pyTruthy (vGetD e "irrevocable_participation"),
        GOVERNANCE_VIOLATION.FAILURE_MODE_IGNORED, [eid])] rep)
  else Except.ok rep

/-- The `respect_principles` branch of the governance `event_log`
pass. -/
def respPrinciplesCheck (rep : Report) (e : Dict) : Except PyErr Report :=
  if isStrV (vGetD e "type") "respect_principles" then do
    let eid ← eventIdE e
    Except.ok (addAll
      [(!(pyTruthy (vGetD e "boundary_integrity")) ||
          !(pyTruthy (vGetD e "non_coercion")) ||
          !(pyTruthy (vGetD e "mutual_legibility")) ||
          !(pyTruthy (vGetD e "contextual_consent")) ||
          !(pyTruthy (vGetD e "contestability")),
        RESPECT_VIOLATION.PRINCIPLE_BREACH, [eid])] rep)
  else Except.ok rep

/-- The `participation_declaration` branch of the governance
`event_log` pass. -/
def respParticipationCheck (rep : Report) (e : Dict) : Except PyErr Report :=
  if isStrV (vGetD e "type") "participation_declaration" then do
    let eid ← eventIdE e
    Except.ok (addAll
      [(!(pyTruthy (vGetD e "scope_declared")) ||
          !(pyTruthy (vGetD e "influence_declared")) ||
          !(pyTruthy (vGetD e "boundaries_declared")) ||
          !(pyTruthy (vGetD e "enforcement_legible")) ||
          !(pyTruthy (vGetD e "enforcement_proportionate")) ||
          !(pyTruthy (vGetD e "enforcement_contestable")),
        RESPECT_VIOLATION.OPAQUE_ENFORCEMENT, [eid])] rep)
  else Except.ok rep

/-- Embeds the governance `event_log` pass of
`_evaluate_respect_unsafe` (one independent `if` per event type, in
source order). -/
def respectEventStep (disclosedAt : Option Int) (rep : Report) (e : Dict) :
    Except PyErr Report := do
  let rep1 ← respEntryReqCheck rep e
  let rep2 ← respBoundaryRuleCheck rep1 e
  let rep3 ← respRevPolicyCheck rep2 e
  let rep4 ← respRevokeDelegCheck disclosedAt rep3 e
  let rep5 ← respBoundaryDeclCheck rep4 e
  let rep6 ← respFedGovCheck rep5 e
  let rep7 ← respFailureModesCheck rep6 e
  let rep8 ← respPrinciplesCheck rep7 e
  respParticipationCheck rep8 e

/-- The coercive-default condition for one default: bias/scope/platform
flags, justifiable and reversible requirements, and time-based expiry
of a still-active default at the current clock (the clock comparison is
only evaluated when the earlier disjuncts are falsy and the guard
holds, preserving the or-chain short-circuit). -/
def computeDefaultCond (clock : Int) (d : Dict) : Except PyErr Bool :=
  let pureCond :=
    pyTruthy (vGetD d "exploits_bias") || pyTruthy (vGetD d "expands_scope") ||
    pyTruthy (vGetD d "privileges_platform") || !(pyTruthy (vGetD d "justifiable")) ||
    !(pyTruthy (vGetD d "reversible"))
  let expires_at := vGetD d "expires_at"
  if pureCond then Except.ok true
  else if pyTruthy (vGetDDef d "active" (Value.bool true)) && !(isNoneV expires_at) then
    pyGeIntE clock expires_at
  else Except.ok false

/-- Embeds the defaults pass of `_evaluate_respect_unsafe`. -/
def respectDefaultStep (clock : Int) (rep : Report) (d : Dict) : Except PyErr Report := do
  let eid ← eventIdE d
  let cond ← computeDefaultCond clock d
  Except.ok (addAll [(cond, RESPECT_VIOLATION.COERCIVE_DEFAULT, [eid])] rep)

/-- The respect-audit minimum check (a no-op when no respect audit is
recorded). -/
def respectAuditCheck (st : State) (rep : Report) : Except PyErr Report :=
  match sdictGet st.audits "respect" with
  | Option.some audit =>
      if !(pyTruthy (vGetD audit "minimum_met")) then do
        let eid ← eventIdE audit
        Except.ok (rep.add_violation AUDIT_VIOLATION.RESPECT_MINIMUM_MISSING [eid])
      else Except.ok rep
  | Option.none => Except.ok rep

/-- Embeds `_evaluate_respect_unsafe`: the passes in source order. -/
def evaluateRespectUnsafe (st : State) : Except PyErr Report := do
  let disclosedAt ← foldME revDisclosedStep Option.none st.event_log
  let score := st.event_log.foldl respScoreStep Value.none
  let rep0 := { Report.fresh "respect" with score := score }
  let rep1 ← foldME respectSharedStep rep0 st.shared_actions
  let rep2 ← foldME respectEntryCondStep rep1 (st.entry_conditions.map (fun p => p.2))
  let rep3 ← foldME (respectEventStep disclosedAt) rep2 st.event_log
  let rep4 ← foldME (respectDefaultStep st.clock) rep3 st.defaults
  let rep5 ← respectAuditCheck st rep4
  let rep6 ← foldME enforcementStep rep5 st.enforcement
  let rep7 :=
    if st.event_log.any (fun e => pyTruthy (vGetD e "undeterminable")) then
      rep6.add_violation EVALUATION_VIOLATION.UNDETERMINABLE_PASS ["undeterminable"]
    else rep6
  let rep8 :=
    if !(isNoneV rep7.score) then
      rep7.add_violation EVALUATION_VIOLATION.REDUCTIONISM ["reductionism"]
    else rep7
  Except.ok rep8

/-- Embeds `evaluate_respect`: total wrapper with the same safety net
as `evaluate_trust` (it too adds `TRUST_VIOLATION.ACCOUNTABILITY_BREAK`,
as the source does). -/
def evaluateRespect (st : State) : Report :=
  match evaluateRespectUnsafe st with
  | Except.ok r => r
  | Except.error _ => fallbackReport "respect"

/-- Embeds `_receipt_visible_to_suser`: decision receipts require
addressing plus delivery (delivery defaulting to `report_to_suser is
not False`), delegation/consent receipts require ownership,
shared-action receipts require being the actor or listed as affected,
and every other receipt type is hidden. -/
def receiptVisibleToSuser (r : Dict) (u : String) : Except PyErr Bool :=
  let ty := vGetD r "type"
  if isStrV ty "decision_receipt" then
    let delivered0 := vGetD r "delivered_to_suser"
    let delivered :=
      if isNoneV delivered0 then !(isFalseV (vGetD r "report_to_suser"))
      else pyTruthy delivered0
    Except.ok (pyEq (vGetD r "suser_id") (Value.str u) && delivered)
  else if isStrV ty "delegation_receipt" || isStrV ty "consent_receipt" then
    Except.ok (pyEq (vGetD r "suser_id") (Value.str u))
  else if isStrV ty "shared_action_receipt" then
    if pyEq (vGetD r "actor_suser_id") (Value.str u) then Except.ok true
    else do
      let m ← pyInE (Value.str u) (vGetDDef r "affected_susers" (Value.list []))
      Except.ok m
  else Except.ok false

/-- Embeds `_redact_receipt`: drop every field named in
`redacted_fields` (plus the explanation fields when
`explanation_delivered is False`), and record the sorted withheld
field names. -/
def redactReceipt (r : Dict) : Except PyErr Dict := do
  let base ← pySetOfE (pyOr (vGetD r "redacted_fields") (Value.list []))
  let redacted :=
    if isFalseV (vGetD r "explanation_delivered") then
      pySetUpdateStrs base ["explanation", "explanation_legible"]
    else base
  let view := redacted.foldl
    (fun d f =>
      match f with
      | Value.str s => dictPop d s
      | _ => d) r
  if !redacted.isEmpty then do
    let sortedFields ← pySortedE redacted
    Except.ok (dictSet view "redacted_fields" (Value.list sortedFields))
  else Except.ok view

/-- Embeds the receipt filter of `suser_view`: visibility is decided on
the unredacted receipt, then the visible receipt is redacted. -/
def viewReceipts (u : String) : List Dict → Except PyErr (List Dict)
  | [] => Except.ok []
  | r :: rest => do
    let vis ← receiptVisibleToSuser r u
    if vis then do
      let rr ← redactReceipt r
      let vs ← viewReceipts u rest
      Except.ok (rr :: vs)
    else viewReceipts u rest

/-- Embeds `suser_view`, returning the `receipts` entry of the
`suser_id, receipts` response dictionary. -/
def suserView (st : State) (u : String) : Except PyErr (List Dict) :=
  viewReceipts u st.receipt_log

/-- Bucket insertion of `receipts_by_decision.setdefault(id, []).append`:
the first pyEq-matching bucket receives the receipt, else a new bucket
is appended; unhashable keys raise `TypeError`. -/
def groupAddAux : List (Value × List Dict) → Value → Dict → List (Value × List Dict)
  | [], k, r => [(k, [r])]
  | (k1, b) :: rest, k, r =>
      if pyEq k1 k then (k1, b ++ [r]) :: rest
      else (k1, b) :: groupAddAux rest k r

/-- Fallible bucket insertion (hashability check first). -/
def groupAdd (gs : List (Value × List Dict)) (k : Value) (r : Dict) :
    Except PyErr (List (Value × List Dict)) :=
  if hashableV k then Except.ok (groupAddAux gs k r) else Except.error PyErr.typeError

/-- Groups the visible decision receipts by their (possibly redacted)
`decision_id`. -/
def buildGroups : List (Value × List Dict) → List Dict → Except PyErr (List (Value × List Dict))
  | gs, [] => Except.ok gs
  | gs, r :: rest => do
    let gs1 ← groupAdd gs (vGetD r "decision_id") r
    buildGroups gs1 rest

/-- Embeds `receipts_by_decision.get(decision_id, [])`. -/
def lookupGroupE (gs : List (Value × List Dict)) (k : Value) : Except PyErr (List Dict) :=
  if hashableV k then
    Except.ok (((gs.find? (fun p => pyEq p.1 k)).map (fun p => p.2)).getD [])
  else Except.error PyErr.typeError

/-- Embeds the per-visible-receipt accountability checks of
`evaluate_trust_view` (all reads are `.get` on dictionaries, so this
pass is pure). -/
def viewReceiptCheck (u : String) (d : Dict) (rep : Report) (r : Dict) : Report :=
  let receipt_id := vGetD r "receipt_id"
  let evd :=
    if isNoneV receipt_id then "receipt:unknown" else "receipt:" ++ pyStr receipt_id
  let chain := vGetD r "authority_chain"
  let contains_branch :=
    match chain with
    | Value.list xs =>
        xs.any (fun x =>
          match x with
          | Value.list _ => true
          | Value.dict _ => true
          | _ => false)
    | _ => false
  let terminates :=
    match chain with
    | Value.list xs =>
        !xs.isEmpty &&
        (match xs.getLast? with
         | Option.some lastv => pyEq lastv (Value.str u)
         | Option.none => false)
    | _ => false
  addAll
    [(!(pyTruthy (vGetD r "explanation")),
      ACCOUNTABILITY_VIOLATION.NON_LEGIBLE_EXPLANATION, [evd]),
     (!(isTrueV (vGetD r "report_to_suser")),
      ACCOUNTABILITY_VIOLATION.MISSING_REPORTING, [evd]),
     (!(pyTruthy (vGetD r "explanation_legible")),
      ACCOUNTABILITY_VIOLATION.ILLEGIBLE_REPORTING, [evd]),
     (isFalseV (vGetD r "explanation_contextual"),
      ACCOUNTABILITY_VIOLATION.NON_LEGIBLE_EXPLANATION, [evd]),
     (pyTruthy (vGetD d "telemetry_refs") && !(pyTruthy (vGetD r "telemetry_refs")),
      TELEMETRY_VIOLATION.OPAQUE_INFLUENCE, [evd]),
     (!(pyTruthy (vGetD r "contest_path")) || !(pyTruthy (vGetD r "revocation_path")),
      ACCOUNTABILITY_VIOLATION.NON_ACCOUNTABLE_OUTCOME, [evd]),
     (!(pyTruthy chain) || contains_branch || !terminates,
      TRUST_VIOLATION.ACCOUNTABILITY_BREAK, [evd])]
    rep

/-- Whether `evaluate_trust_view` skips a decision: the requester is
neither the owning suser nor among the affected susers. -/
def computeViewSkip (u : String) (d : Dict) : Except PyErr Bool :=
  if pyEq (vGetD d "suser_id") (Value.str u) then Except.ok false
  else do
    let m ← pyInE (Value.str u) (vGetDDef d "affected_susers" (Value.list []))
    Except.ok (!m)

/-- Embeds the per-decision pass of `evaluate_trust_view`: skip
decisions not owned by (or affecting) the requester, flag decisions
with no visible receipt, and check each visible receipt. -/
def viewDecisionStep (u : String) (groups : List (Value × List Dict)) (rep : Report)
    (d : Dict) : Except PyErr Report := do
  let decision_id := vGetD d "decision_id"
  let skip ← computeViewSkip u d
  if skip then Except.ok rep
  else do
    let rs ← lookupGroupE groups decision_id
    if rs.isEmpty then
      Except.ok (rep.add_violation ACCOUNTABILITY_VIOLATION.MISSING_REPORTING
        ["decision:" ++ pyStr decision_id ++ ":missing_receipt"])
    else Except.ok (rs.foldl (viewReceiptCheck u d) rep)

/-- Embeds `evaluate_trust_view`: accountability re-derived purely from
the visible, redacted receipts, grouped by `decision_id` and restricted
to the requester's decisions.  No safety net wraps this function in the
source, so it is `Except`-valued. -/
def evaluateTrustView (st : State) (u : String) : Except PyErr Report := do
  let vrs ← suserView st u
  let decReceipts := vrs.filter (fun r => isStrV (vGetD r "type") "decision_receipt")
  let groups ← buildGroups [] decReceipts
  foldME (viewDecisionStep u groups) (Report.fresh "trust_view") st.decisions

/-- Equality of hash-chain field values (always `None` or a digest
string in finalized receipts). -/
def hashFieldEq : Value → Value → Bool
  | Value.none, Value.none => true
  | Value.str a, Value.str b => a == b
  | _, _ => false

/-- The hash-chain property of a receipt log: the first receipt's
`receipt_hash_prev` equals the given seed (at the head of the log the
seed is `None`), and every later receipt's `receipt_hash_prev` equals
its predecessor's `receipt_hash`. -/
def chainLinkedB : List Dict → Value → Bool
  | [], _ => true
  | r :: rest, prev =>
      hashFieldEq (vGetD r "receipt_hash_prev") prev &&
      chainLinkedB rest (vGetD r "receipt_hash")

/-- The chain tail after a receipt log: the last receipt's
`receipt_hash`, or the seed for an empty log. -/
def chainTailB : List Dict → Value → Value
  | [], seed => seed
  | r :: rest, _ => chainTailB rest (vGetD r "receipt_hash")

/-- Whether a value list contains the given string literal. -/
def hasStrV (xs : List Value) (s : String) : Bool :=
  xs.any (fun v =>
    match v with
    | Value.str t => t == s
    | _ => false)

/-- The state a fold of `apply_event` reaches from a fresh state (the
fresh state itself if the fold raises); used to name concrete reachable
states in witnesses. -/
def stateAfter (evs : List Dict) : State :=
  match applyEvents freshState evs with
  | Except.ok s => s
  | Except.error _ => freshState

/-- The receipts a fold of `apply_event` emits into the final receipt
log (empty if the fold raises); used in witnesses. -/
def receiptLogAfter (evs : List Dict) : List Dict :=
  (stateAfter evs).receipt_log

/-- The bucket lookup underlying `lookupGroupE` (first bucket whose key
compares `==` to the query, as CPython dict lookup does). -/
def findGroup (gs : List (Value × List Dict)) (k : Value) : Option (List Dict) :=
  (gs.find? (fun p => pyEq p.1 k)).map (fun p => p.2)

/-- The report a view evaluation produces, or an empty report of kind
`trust_view` if it raises; used in witnesses. -/
def viewReportOr (st : State) (u : String) : Report :=
  match evaluateTrustView st u with
  | Except.ok r => r
  | Except.error _ => Report.fresh "trust_view"

/-- Common shape of every successful `apply_event` handler result
`(logged event, updated state, receipts)`: the handler leaves the two
logs untouched (the dispatcher appends afterwards), and either emits no
receipt and leaves the chain tail and decisions alone, or emits exactly
one finalized receipt whose `receipt_hash_prev` is the old chain tail
and whose `receipt_hash` becomes the new tail; a `decision_receipt` is
matched by a recorded decision carrying the same `decision_id` and
`suser_id`, and recorded decisions are never removed. -/
def HandlerShape (st : State) (out : Dict × State × List Dict) : Prop :=
  out.2.1.receipt_log = st.receipt_log ∧
  out.2.1.event_log = st.event_log ∧
  ((out.2.2 = [] ∧ out.2.1.receipt_hash_prev = st.receipt_hash_prev ∧
      out.2.1.decisions = st.decisions) ∨
   (∃ r h, out.2.2 = [r] ∧
      vGetD r "receipt_hash_prev" = optValue st.receipt_hash_prev ∧
      vGetD r "receipt_hash" = Value.str h ∧
      out.2.1.receipt_hash_prev = Option.some h ∧
      (vGetD r "type" = Value.str "decision_receipt" →
        ∃ dn, dn ∈ out.2.1.decisions ∧
          vGetD dn "decision_id" = vGetD r "decision_id" ∧
          vGetD dn "suser_id" = vGetD r "suser_id") ∧
      (∀ d0, d0 ∈ st.decisions → d0 ∈ out.2.1.decisions)))

/-- Shape of every successful `apply_event` result
`(new state, receipts)`: the receipt log grows by exactly the returned
receipts, and either no receipt was emitted (unchanged chain tail and
decisions) or exactly one chained receipt was, with a recorded decision
matching a `decision_receipt` and no decision ever removed. -/
def EventShape (st : State) (out : State × List Dict) : Prop :=
  out.1.receipt_log = st.receipt_log ++ out.2 ∧
  ((out.2 = [] ∧ out.1.receipt_hash_prev = st.receipt_hash_prev ∧
      out.1.decisions = st.decisions) ∨
   (∃ r h, out.2 = [r] ∧
      vGetD r "receipt_hash_prev" = optValue st.receipt_hash_prev ∧
      vGetD r "receipt_hash" = Value.str h ∧
      out.1.receipt_hash_prev = Option.some h ∧
      (vGetD r "type" = Value.str "decision_receipt" →
        ∃ dn, dn ∈ out.1.decisions ∧
          vGetD dn "decision_id" = vGetD r "decision_id" ∧
          vGetD dn "suser_id" = vGetD r "suser_id") ∧
      (∀ d0, d0 ∈ st.decisions → d0 ∈ out.1.decisions)))

/-- The hash-chain invariant `apply_event` maintains: the receipt log
is linked starting from the `None` seed, and the recorded previous-hash
register is exactly the chain tail of the log. -/
def ChainInv (st : State) : Prop :=
  chainLinkedB st.receipt_log Value.none = true ∧
  chainTailB st.receipt_log Value.none = optValue st.receipt_hash_prev

/-- The receipt list `suser_view` returns, or the empty list if it
raises; used to name concrete views in witnesses. -/
def viewOr (st : State) (u : String) : List Dict :=
  match suserView st u with
  | Except.ok vs => vs
  | Except.error _ => []

/-- The redacted copy `_redact_receipt` returns, or the receipt itself
if it raises; used to name concrete redactions in witnesses. -/
def redactOr (r : Dict) : Dict :=
  match redactReceipt r with
  | Except.ok rr => rr
  | Except.error _ => r

theorem bindE_ok_iff {α β : Type} {m : Except PyErr α} {f : α → Except PyErr β} {b : β} :
    (m >>= f) = Except.ok b ↔ ∃ a, m = Except.ok a ∧ f a = Except.ok b := by
  cases m <;> simp [Bind.bind, Except.bind]

theorem bindE_ok {α β : Type} (a : α) (f : α → Except PyErr β) :
    ((Except.ok a : Except PyErr α) >>= f) = f a := rfl

theorem vGetDOpt_dictSet_self (d : Dict) (k : String) (v : Value) :
    vGetDOpt (dictSet d k v) k = Option.some v := by
  induction d with
  | nil => simp [dictSet, vGetDOpt, List.find?]
  | cons p rest ih =>
    by_cases h : p.1 == k
    · simp [dictSet, h, vGetDOpt, List.find?]
    · simp only [dictSet, h, if_neg, Bool.false_eq_true, ite_false]
      simpa [vGetDOpt, List.find?, h] using ih

theorem vGetDOpt_dictSet_ne (d : Dict) (k k2 : String) (v : Value) (h : k2 ≠ k) :
    vGetDOpt (dictSet d k v) k2 = vGetDOpt d k2 := by
  induction d with
  | nil =>
    simp [dictSet, vGetDOpt, List.find?, show (k == k2) = false by
      simpa using fun hh => h hh.symm]
  | cons p rest ih =>
    by_cases hp : p.1 == k
    · have hp2 : (k == k2) = false := by simpa using fun hh => h hh.symm
      have hp3 : (p.1 == k2) = false := by
        have : p.1 = k := by simpa using hp
        simpa [this] using fun hh => h hh.symm
      simp [dictSet, hp, vGetDOpt, List.find?, hp2, hp3]
    · simp only [dictSet, hp, Bool.false_eq_true, ite_false]
      by_cases hq : p.1 == k2
      · simp [vGetDOpt, List.find?, hq]
      · simpa [vGetDOpt, List.find?, hq] using ih

theorem vGetD_dictSet_self (d : Dict) (k : String) (v : Value) :
    vGetD (dictSet d k v) k = v := by
  simp [vGetD, vGetDOpt_dictSet_self]

theorem vGetD_dictSet_ne (d : Dict) (k k2 : String) (v : Value) (h : k2 ≠ k) :
    vGetD (dictSet d k v) k2 = vGetD d k2 := by
  simp [vGetD, vGetDOpt_dictSet_ne d k k2 v h]

theorem vGetDOpt_dictPop_self (d : Dict) (k : String) :
    vGetDOpt (dictPop d k) k = Option.none := by
  induction d with
  | nil => simp [dictPop, vGetDOpt, List.find?]
  | cons p rest ih =>
    by_cases hp : p.1 == k
    · simp only [dictPop, List.filter, hp] at ih ⊢
      exact ih
    · simp only [dictPop, List.filter, hp] at ih ⊢
      simp only [vGetDOpt, List.find?, hp] at ih ⊢
      exact ih

theorem vGetDOpt_dictPop_ne (d : Dict) (k k2 : String) (h : k2 ≠ k) :
    vGetDOpt (dictPop d k) k2 = vGetDOpt d k2 := by
  induction d with
  | nil => simp [dictPop, vGetDOpt, List.find?]
  | cons p rest ih =>
    by_cases hp : p.1 == k
    · have hp3 : (p.1 == k2) = false := by
        have : p.1 = k := by simpa using hp
        simpa [this] using fun hh => h hh.symm
      simpa [dictPop, List.filter, hp, vGetDOpt, List.find?, hp3] using ih
    · by_cases hq : p.1 == k2
      · simp [dictPop, List.filter, hp, vGetDOpt, List.find?, hq]
      · simpa [dictPop, List.filter, hp, vGetDOpt, List.find?, hq] using ih

theorem mem_violations_add_violation {r : Report} {l : String} {e : List String}
    {v : ViolationRecord} (h : v ∈ r.violations) :
    v ∈ (r.add_violation l e).violations := by
  simp [Report.add_violation, h]

theorem add_violation_self (r : Report) (l : String) (e : List String) :
    ({ label := l, evidence_ids := e, details := "" } : ViolationRecord) ∈
      (r.add_violation l e).violations := by
  simp [Report.add_violation]

theorem addAll_cons (c : Bool × String × List String)
    (cs : List (Bool × String × List String)) (r : Report) :
    addAll (c :: cs) r =
      addAll cs (if c.1 then r.add_violation c.2.1 c.2.2 else r) := rfl

theorem mem_violations_addAll {cs : List (Bool × String × List String)} {r : Report}
    {v : ViolationRecord} (h : v ∈ r.violations) : v ∈ (addAll cs r).violations := by
  induction cs generalizing r with
  | nil => simpa [addAll]
  | cons c rest ih =>
    rw [addAll_cons]
    by_cases hc : c.1
    · rw [if_pos hc]; exact ih (mem_violations_add_violation h)
    · rw [if_neg hc]; exact ih h

theorem addAll_estab {cs : List (Bool × String × List String)} {r : Report}
    {l : String} {e : List String} (h : (true, l, e) ∈ cs) :
    ({ label := l, evidence_ids := e, details := "" } : ViolationRecord) ∈
      (addAll cs r).violations := by
  induction cs generalizing r with
  | nil => cases h
  | cons c rest ih =>
    rcases List.mem_cons.mp h with hc | hc
    · rw [← hc, addAll_cons, if_pos rfl]
      exact mem_violations_addAll (add_violation_self r l e)
    · rw [addAll_cons]
      exact ih hc

theorem label_mem_of_record {r : Report} {v : ViolationRecord}
    (h : v ∈ r.violations) : v.label ∈ r.labels := by
  simp only [Report.labels]
  exact List.mem_map.mpr ⟨v, h, rfl⟩

theorem mem_violations_applyOut {acc : TrustAcc} {o : StepOut} {v : ViolationRecord}
    (h : v ∈ acc.report.violations) : v ∈ (applyOut acc o).report.violations := by
  simp only [applyOut]
  cases o.scoreNew <;> simp <;> exact mem_violations_addAll h

theorem foldME_pres {α β : Type} {step : β → α → Except PyErr β} {P : β → Prop}
    (hstep : ∀ b a b2, step b a = Except.ok b2 → P b → P b2) :
    ∀ {xs : List α} {b b2 : β}, foldME step b xs = Except.ok b2 → P b → P b2 := by
  intro xs
  induction xs with
  | nil => intro b b2 h hp; simp [foldME] at h; simpa [← h]
  | cons x rest ih =>
    intro b b2 h hp
    simp only [foldME] at h
    rcases bindE_ok_iff.mp h with ⟨a1, h1, h2⟩
    exact ih h2 (hstep b x a1 h1 hp)

theorem foldME_estab {α β : Type} {step : β → α → Except PyErr β} {P : β → Prop}
    (hstep : ∀ b a b2, step b a = Except.ok b2 → P b → P b2)
    {x : α} (hx : ∀ b b2, step b x = Except.ok b2 → P b2) :
    ∀ {xs : List α} {b b2 : β}, x ∈ xs → foldME step b xs = Except.ok b2 → P b2 := by
  intro xs
  induction xs with
  | nil => intro b b2 hmem; cases hmem
  | cons y rest ih =>
    intro b b2 hmem h
    simp only [foldME] at h
    rcases bindE_ok_iff.mp h with ⟨a1, h1, h2⟩
    rcases List.mem_cons.mp hmem with hy | hy
    · subst hy
      exact foldME_pres hstep h2 (hx b a1 h1)
    · exact ih hy h2

theorem foldl_pres {α β : Type} {f : β → α → β} {P : β → Prop}
    (hf : ∀ b a, P b → P (f b a)) :
    ∀ {xs : List α} {b : β}, P b → P (List.foldl f b xs) := by
  intro xs
  induction xs with
  | nil => intro b hp; simpa
  | cons x rest ih => intro b hp; exact ih (hf b x hp)

theorem foldl_estab {α β : Type} {f : β → α → β} {P : β → Prop}
    (hf : ∀ b a, P b → P (f b a)) {x : α} (hx : ∀ b, P (f b x)) :
    ∀ {xs : List α} {b : β}, x ∈ xs → P (List.foldl f b xs) := by
  intro xs
  induction xs with
  | nil => intro b hmem; cases hmem
  | cons y rest ih =>
    intro b hmem
    simp only [List.foldl]
    rcases List.mem_cons.mp hmem with hy | hy
    · subst hy; exact foldl_pres hf (hx b)
    · exact ih hy

/-- Claim C1: the spec and the docstring of `apply_event` promise that
it never raises for any dict-shaped event, including known-type events
missing id fields such as `delegation_id`.  The code violates this: the
`delegation` handler indexes `event["delegation_id"]` directly, so the
dict-shaped event `\x7b"type": "delegation"\x7d` applied to a fresh
`State` raises `KeyError("delegation_id")` instead of returning a
`(new_state, receipts)` pair.  This theorem evaluates the embedded
`apply_event` at that failing input. -/
theorem c1_apply_event_raises_on_missing_id :
    applyEvent freshState [("type", Value.str "delegation")] =
      Except.error (PyErr.keyError "delegation_id") := rfl

/-- Claim C2, counterexample: the claim as stated says that any state
whose `event_log` contains a dict-shaped entry yields reports carrying
both `STRUCTURAL_VIOLATION.INVALID_STATE` and
`TRUST_VIOLATION.ACCOUNTABILITY_BREAK`.  The state whose event log
holds the single well-formed entry `\x7b"type": "x"\x7d` refutes it:
`evaluate_trust` returns a report without the `INVALID_STATE` label. -/
theorem c2_counterexample :
    ¬ (STRUCTURAL_VIOLATION.INVALID_STATE ∈
        (evaluateTrust
          { freshState with event_log := [[("type", Value.str "x")]] }).labels) := by
  decide

/-- Claim C2, amended: `evaluate_trust` and `evaluate_respect` are
total functions of the state (the wrappers catch every internal
exception), and whenever the internal unsafe evaluator raises on a
state — as it does for malformed dict-shaped entries such as a
`decisions` or `shared_actions` entry lacking a `type` key — the
returned `Report` contains both `STRUCTURAL_VIOLATION.INVALID_STATE`
and `TRUST_VIOLATION.ACCOUNTABILITY_BREAK`. -/
theorem c2_evaluator_totality_amended (st su : State) (e1 e2 : PyErr)
    (h1 : evaluateTrustUnsafe st = Except.error e1)
    (h2 : evaluateRespectUnsafe su = Except.error e2) :
    (STRUCTURAL_VIOLATION.INVALID_STATE ∈ (evaluateTrust st).labels ∧
     TRUST_VIOLATION.ACCOUNTABILITY_BREAK ∈ (evaluateTrust st).labels) ∧
    (STRUCTURAL_VIOLATION.INVALID_STATE ∈ (evaluateRespect su).labels ∧
     TRUST_VIOLATION.ACCOUNTABILITY_BREAK ∈ (evaluateRespect su).labels) := by
  have ht : evaluateTrust st = fallbackReport "trust" := by
    unfold evaluateTrust
    rw [h1]
  have hr : evaluateRespect su = fallbackReport "respect" := by
    unfold evaluateRespect
    rw [h2]
  rw [ht, hr]
  exact ⟨⟨by decide, by decide⟩, by decide, by decide⟩

/-- Witness for C2: a decisions entry without a `type` key crashes the
unsafe trust evaluator with `KeyError("type")` (raised by `_event_id`),
and a shared-actions entry without a `type` key crashes the unsafe
respect evaluator the same way; both wrappers produce the two-label
report. -/
theorem c2_evaluator_totality_amended_witness :
    (STRUCTURAL_VIOLATION.INVALID_STATE ∈
        (evaluateTrust { freshState with decisions := [[]] }).labels ∧
     TRUST_VIOLATION.ACCOUNTABILITY_BREAK ∈
        (evaluateTrust { freshState with decisions := [[]] }).labels) ∧
    (STRUCTURAL_VIOLATION.INVALID_STATE ∈
        (evaluateRespect { freshState with shared_actions := [[]] }).labels ∧
     TRUST_VIOLATION.ACCOUNTABILITY_BREAK ∈
        (evaluateRespect { freshState with shared_actions := [[]] }).labels) :=
  c2_evaluator_totality_amended
    { freshState with decisions := [[]] }
    { freshState with shared_actions := [[]] }
    (PyErr.keyError "type") (PyErr.keyError "type") rfl rfl

/-- Claim C7: replay is deterministic — folding the same ordered event
list into two fresh `State` instances yields identical `receipt_log`
contents and identical `labels()` output from both evaluators.  In this
embedding `apply_event` and the evaluators are pure functions of their
arguments (CPython's only run-dependent ingredient, the `id(event)`
fallback of `_event_id`, can reach only evidence strings, which
`labels()` does not expose, and is modelled as a constant), so two runs
of the same fold agree everywhere, which this theorem states for the
receipt log and both evaluators' labels. -/
theorem c7_replay_deterministic (evs : List Dict) (s1 s2 : State)
    (h1 : applyEvents freshState evs = Except.ok s1)
    (h2 : applyEvents freshState evs = Except.ok s2) :
    s1.receipt_log = s2.receipt_log ∧
    (evaluateTrust s1).labels = (evaluateTrust s2).labels ∧
    (evaluateRespect s1).labels = (evaluateRespect s2).labels := by
  rw [h1] at h2
  have h3 : s1 = s2 := by
    injection h2
  rw [h3]
  exact ⟨rfl, rfl, rfl⟩

/-- Witness for C7 at a concrete two-event replay (one known-type event
and one unknown-type event). -/
theorem c7_replay_deterministic_witness :
    (stateAfter [[("type", Value.str "trust_audit"), ("audit_id", Value.str "a1")],
        [("type", Value.str "bogus")]]).receipt_log =
      (stateAfter [[("type", Value.str "trust_audit"), ("audit_id", Value.str "a1")],
        [("type", Value.str "bogus")]]).receipt_log ∧
    (evaluateTrust (stateAfter [[("type", Value.str "trust_audit"), ("audit_id", Value.str "a1")],
        [("type", Value.str "bogus")]])).labels =
      (evaluateTrust (stateAfter [[("type", Value.str "trust_audit"), ("audit_id", Value.str "a1")],
        [("type", Value.str "bogus")]])).labels ∧
    (evaluateRespect (stateAfter [[("type", Value.str "trust_audit"), ("audit_id", Value.str "a1")],
        [("type", Value.str "bogus")]])).labels =
      (evaluateRespect (stateAfter [[("type", Value.str "trust_audit"), ("audit_id", Value.str "a1")],
        [("type", Value.str "bogus")]])).labels :=
  c7_replay_deterministic
    [[("type", Value.str "trust_audit"), ("audit_id", Value.str "a1")],
     [("type", Value.str "bogus")]]
    (stateAfter [[("type", Value.str "trust_audit"), ("audit_id", Value.str "a1")],
        [("type", Value.str "bogus")]])
    (stateAfter [[("type", Value.str "trust_audit"), ("audit_id", Value.str "a1")],
        [("type", Value.str "bogus")]])
    rfl rfl

theorem knownEventTypeE_ok {v : Value} {b : Bool}
    (h : knownEventTypeE v = Except.ok b) : knownEventType v = b := by
  unfold knownEventTypeE at h
  split at h
  · exact Except.ok.inj h
  · cases h

/-- Counterexample to claim C5: a `type` value that is not in the
closed set of known types but is unhashable — here the list `[]` —
never reaches the error-receipt path: the dispatch test
`event_type not in _KNOWN_EVENT_TYPES` hashes the value and raises
`TypeError`, so `apply_event` raises instead of returning the promised
`error_receipt`. -/
theorem c5_counterexample :
    knownEventType (vGetD [("type", Value.list [])] "type") = false ∧
    applyEvent freshState [("type", Value.list [])] =
      Except.error PyErr.typeError :=
  ⟨rfl, rfl⟩

/-- Claim C5, amended: the dispatch test must itself succeed — the
`type` value must be hashable (`knownEventTypeE` returning `ok false`
is exactly the source test evaluating to unknown).  Then the event is
rewritten as an `error` event preserving `original_type`, exactly one
entry is appended to `event_log` (with `type == "error"`), and exactly
one receipt is returned and appended to `receipt_log`, of type
`error_receipt`, whose `error` field is `missing_event_type` when the
type was `None` (which Python\x27s `.get` also returns for an absent
key) and `unknown_event_type:<type>` otherwise — in particular
`\x7b"type": "bogus"\x7d` yields one `error_receipt` with
`error == "unknown_event_type:bogus"`.  The base-time hypothesis states
that the state\x27s base timestamp parses (true of every state the
model constructs; a state with a corrupted `base_time_utc` would raise
in `_event_time_utc` before reaching this branch). -/
theorem c5_unknown_event_error_path (st : State) (e : Dict) (tu : String)
    (hk : knownEventTypeE (vGetD e "type") = Except.ok false)
    (htu : event_time_utc_E st.base_time_utc st.clock = Except.ok tu) :
    ∃ st2 r le,
      applyEvent st e = Except.ok (st2, [r]) ∧
      st2.event_log = st.event_log ++ [le] ∧
      st2.receipt_log = st.receipt_log ++ [r] ∧
      vGetD le "type" = Value.str "error" ∧
      vGetD le "original_type" = vGetD e "type" ∧
      vGetD r "type" = Value.str "error_receipt" ∧
      vGetD r "event_type" = vGetD e "type" ∧
      vGetD r "error" =
        (if isNoneV (vGetD e "type") then Value.str "missing_event_type"
         else Value.str ("unknown_event_type:" ++ pyStr (vGetD e "type"))) := by
  unfold applyEvent
  simp only [hk, bindE_ok, Bool.not_false, if_true, htu, commitError, addReceipt]
  refine ⟨_, _, _, rfl, rfl, rfl, ?_, ?_, ?_, ?_, ?_⟩
  · rw [vGetD_dictSet_ne _ _ _ _ (by decide), vGetD_dictSet_ne _ _ _ _ (by decide),
      vGetD_dictSet_ne _ _ _ _ (by decide), vGetD_dictSet_ne _ _ _ _ (by decide),
      vGetD_dictSet_ne _ _ _ _ (by decide), vGetD_dictSet_ne _ _ _ _ (by decide),
      vGetD_dictSet_self]
  · rw [vGetD_dictSet_ne _ _ _ _ (by decide), vGetD_dictSet_ne _ _ _ _ (by decide),
      vGetD_dictSet_ne _ _ _ _ (by decide), vGetD_dictSet_ne _ _ _ _ (by decide),
      vGetD_dictSet_ne _ _ _ _ (by decide), vGetD_dictSet_self]
  · rw [vGetD_dictSet_ne _ _ _ _ (by decide), vGetD_dictSet_ne _ _ _ _ (by decide),
      vGetD_dictSet_ne _ _ _ _ (by decide), vGetD_dictSet_ne _ _ _ _ (by decide),
      vGetD_dictSet_ne _ _ _ _ (by decide)]
    rfl
  · rw [vGetD_dictSet_ne _ _ _ _ (by decide), vGetD_dictSet_ne _ _ _ _ (by decide),
      vGetD_dictSet_ne _ _ _ _ (by decide), vGetD_dictSet_ne _ _ _ _ (by decide),
      vGetD_dictSet_ne _ _ _ _ (by decide)]
    rfl
  · rw [vGetD_dictSet_ne _ _ _ _ (by decide), vGetD_dictSet_ne _ _ _ _ (by decide),
      vGetD_dictSet_ne _ _ _ _ (by decide), vGetD_dictSet_ne _ _ _ _ (by decide),
      vGetD_dictSet_ne _ _ _ _ (by decide)]
    by_cases hn : isNoneV (vGetD e "type")
    · simp only [hn, if_true]
      rfl
    · simp only [hn, Bool.false_eq_true, if_false]
      rfl

/-- Witness for C5 at the spec's own scenario: the unknown event
`\x7b"type": "bogus"\x7d` applied to a fresh state. -/
theorem c5_unknown_event_error_path_witness :
    knownEventTypeE (vGetD [("type", Value.str "bogus")] "type") = Except.ok false ∧
    (∃ st2 r le,
      applyEvent freshState [("type", Value.str "bogus")] = Except.ok (st2, [r]) ∧
      st2.event_log = freshState.event_log ++ [le] ∧
      st2.receipt_log = freshState.receipt_log ++ [r] ∧
      vGetD le "type" = Value.str "error" ∧
      vGetD le "original_type" = vGetD [("type", Value.str "bogus")] "type" ∧
      vGetD r "type" = Value.str "error_receipt" ∧
      vGetD r "event_type" = vGetD [("type", Value.str "bogus")] "type" ∧
      vGetD r "error" =
        (if isNoneV (vGetD [("type", Value.str "bogus")] "type") then
          Value.str "missing_event_type"
         else Value.str ("unknown_event_type:" ++
          pyStr (vGetD [("type", Value.str "bogus")] "type")))) :=
  ⟨rfl, c5_unknown_event_error_path freshState [("type", Value.str "bogus")]
    "2026-01-01T00:00:00Z" rfl rfl⟩

theorem addReceipt_eq (st : State) (t : Int) (tu : String) (rs : List Dict) (data : Dict) :
    addReceipt st t tu rs data =
      ({ st with receipt_hash_prev := Option.some (receiptHashOf st t tu data),
                 next_receipt_id := st.next_receipt_id + 1 },
       rs ++ [finalizeReceipt st t tu data]) := rfl

theorem finalizeReceipt_prev (st : State) (t : Int) (tu : String) (data : Dict) :
    vGetD (finalizeReceipt st t tu data) "receipt_hash_prev" =
      optValue st.receipt_hash_prev := by
  unfold finalizeReceipt
  rw [vGetD_dictSet_ne _ _ _ _ (by decide), vGetD_dictSet_self]

theorem finalizeReceipt_hash (st : State) (t : Int) (tu : String) (data : Dict) :
    vGetD (finalizeReceipt st t tu data) "receipt_hash" =
      Value.str (receiptHashOf st t tu data) := by
  unfold finalizeReceipt
  rw [vGetD_dictSet_self]

theorem vGetD_finalizeReceipt_ne (st : State) (t : Int) (tu : String) (data : Dict)
    (k : String) (h1 : k ≠ "receipt_id") (h2 : k ≠ "time") (h3 : k ≠ "time_utc")
    (h4 : k ≠ "receipt_hash_prev") (h5 : k ≠ "receipt_hash") :
    vGetD (finalizeReceipt st t tu data) k = vGetD data k := by
  unfold finalizeReceipt
  rw [vGetD_dictSet_ne _ _ _ _ h5, vGetD_dictSet_ne _ _ _ _ h4,
    vGetD_dictSet_ne _ _ _ _ h3, vGetD_dictSet_ne _ _ _ _ h2,
    vGetD_dictSet_ne _ _ _ _ h1]

theorem handlerShape_mk (st stm : State) (ev2 : Dict) (t : Int) (tu : String) (data : Dict)
    (hrl : stm.receipt_log = st.receipt_log)
    (hel : stm.event_log = st.event_log)
    (hprev : stm.receipt_hash_prev = st.receipt_hash_prev)
    (hdec : stm.decisions = st.decisions)
    (hty : vGetD data "type" ≠ Value.str "decision_receipt") :
    HandlerShape st (ev2,
      { stm with receipt_hash_prev := Option.some (receiptHashOf stm t tu data),
                 next_receipt_id := stm.next_receipt_id + 1 },
      [finalizeReceipt stm t tu data]) := by
  refine ⟨hrl, hel, Or.inr ⟨finalizeReceipt stm t tu data, receiptHashOf stm t tu data,
    rfl, ?_, finalizeReceipt_hash stm t tu data, rfl, ?_, ?_⟩⟩
  · rw [finalizeReceipt_prev, hprev]
  · intro hty2
    rw [vGetD_finalizeReceipt_ne _ _ _ _ _ (by decide) (by decide) (by decide)
      (by decide) (by decide)] at hty2
    exact absurd hty2 hty
  · intro d0 hd0
    simpa [hdec] using hd0

theorem handlerShape_mk_decision (st stm : State) (ev2 : Dict) (t : Int) (tu : String)
    (data dn : Dict)
    (hrl : stm.receipt_log = st.receipt_log)
    (hel : stm.event_log = st.event_log)
    (hprev : stm.receipt_hash_prev = st.receipt_hash_prev)
    (hdec : stm.decisions = st.decisions ++ [dn])
    (hid : vGetD data "decision_id" = vGetD dn "decision_id")
    (hsu : vGetD data "suser_id" = vGetD dn "suser_id") :
    HandlerShape st (ev2,
      { stm with receipt_hash_prev := Option.some (receiptHashOf stm t tu data),
                 next_receipt_id := stm.next_receipt_id + 1 },
      [finalizeReceipt stm t tu data]) := by
  refine ⟨hrl, hel, Or.inr ⟨finalizeReceipt stm t tu data, receiptHashOf stm t tu data,
    rfl, ?_, finalizeReceipt_hash stm t tu data, rfl, ?_, ?_⟩⟩
  · rw [finalizeReceipt_prev, hprev]
  · intro _
    refine ⟨dn, ?_, ?_, ?_⟩
    · simp [hdec]
    · rw [vGetD_finalizeReceipt_ne _ _ _ _ _ (by decide) (by decide) (by decide)
        (by decide) (by decide), hid]
    · rw [vGetD_finalizeReceipt_ne _ _ _ _ _ (by decide) (by decide) (by decide)
        (by decide) (by decide), hsu]
  · intro d0 hd0
    simp [hdec, hd0]

theorem finishReceipt_eq (ev : Dict) (st1 : State) (t : Int) (tu : String) (data : Dict) :
    finishReceipt ev st1 t tu data =
      Except.ok (ev,
        { st1 with receipt_hash_prev := Option.some (receiptHashOf st1 t tu data),
                   next_receipt_id := st1.next_receipt_id + 1 },
        [finalizeReceipt st1 t tu data]) := rfl

theorem dictIndexE_ok {d : Dict} {k : String} {v : Value}
    (h : dictIndexE d k = Except.ok v) : vGetD d k = v := by
  unfold dictIndexE at h
  cases hx : vGetDOpt d k with
  | none => rw [hx] at h; cases h
  | some w =>
    rw [hx] at h
    cases h
    simp [vGetD, vGetDDef, hx]

theorem vGetD_type_head (s : String) (rest : Dict) :
    vGetD (("type", Value.str s) :: rest) "type" = Value.str s := rfl

theorem revokeMarkDelegation_pres {st : State} {did : Value} {t ea dl : Int} {st1 : State}
    (h : revokeMarkDelegation st did t ea dl = Except.ok st1) :
    st1.receipt_log = st.receipt_log ∧ st1.event_log = st.event_log ∧
      st1.receipt_hash_prev = st.receipt_hash_prev ∧ st1.decisions = st.decisions := by
  unfold revokeMarkDelegation at h
  rcases bindE_ok_iff.mp h with ⟨c, h1, h⟩
  cases c with
  | false =>
    obtain rfl := Except.ok.inj h
    exact ⟨rfl, rfl, rfl, rfl⟩
  | true =>
    rcases bindE_ok_iff.mp h with ⟨gOpt, h2, h⟩
    cases gOpt with
    | none =>
      obtain rfl := Except.ok.inj h
      exact ⟨rfl, rfl, rfl, rfl⟩
    | some g =>
      rcases bindE_ok_iff.mp h with ⟨ds, h3, h⟩
      obtain rfl := Except.ok.inj h
      exact ⟨rfl, rfl, rfl, rfl⟩

theorem withdrawMarkConsent_pres {st : State} {cid : Value} {st1 : State}
    (h : withdrawMarkConsent st cid = Except.ok st1) :
    st1.receipt_log = st.receipt_log ∧ st1.event_log = st.event_log ∧
      st1.receipt_hash_prev = st.receipt_hash_prev ∧ st1.decisions = st.decisions := by
  unfold withdrawMarkConsent at h
  rcases bindE_ok_iff.mp h with ⟨c, h1, h⟩
  cases c with
  | false =>
    obtain rfl := Except.ok.inj h
    exact ⟨rfl, rfl, rfl, rfl⟩
  | true =>
    rcases bindE_ok_iff.mp h with ⟨cOpt, h2, h⟩
    cases cOpt with
    | none =>
      obtain rfl := Except.ok.inj h
      exact ⟨rfl, rfl, rfl, rfl⟩
    | some c0 =>
      rcases bindE_ok_iff.mp h with ⟨cs, h3, h⟩
      obtain rfl := Except.ok.inj h
      exact ⟨rfl, rfl, rfl, rfl⟩

theorem finishReceipt_shape {st stm : State} {ev2 : Dict} {t : Int} {tu : String}
    {data : Dict} {out : Dict × State × List Dict}
    (h : finishReceipt ev2 stm t tu data = Except.ok out)
    (hrl : stm.receipt_log = st.receipt_log)
    (hel : stm.event_log = st.event_log)
    (hprev : stm.receipt_hash_prev = st.receipt_hash_prev)
    (hdec : stm.decisions = st.decisions)
    (hty : vGetD data "type" ≠ Value.str "decision_receipt") :
    HandlerShape st out ∧ out.2.2 ≠ [] := by
  rw [finishReceipt_eq] at h
  obtain rfl := Except.ok.inj h
  exact ⟨handlerShape_mk st stm ev2 t tu data hrl hel hprev hdec hty, by simp⟩

theorem finishReceipt_shape_decision {st stm : State} {ev2 : Dict} {t : Int} {tu : String}
    {data dn : Dict} {out : Dict × State × List Dict}
    (h : finishReceipt ev2 stm t tu data = Except.ok out)
    (hrl : stm.receipt_log = st.receipt_log)
    (hel : stm.event_log = st.event_log)
    (hprev : stm.receipt_hash_prev = st.receipt_hash_prev)
    (hdec : stm.decisions = st.decisions ++ [dn])
    (hid : vGetD data "decision_id" = vGetD dn "decision_id")
    (hsu : vGetD data "suser_id" = vGetD dn "suser_id") :
    HandlerShape st out ∧ out.2.2 ≠ [] := by
  rw [finishReceipt_eq] at h
  obtain rfl := Except.ok.inj h
  exact ⟨handlerShape_mk_decision st stm ev2 t tu data dn hrl hel hprev hdec hid hsu,
    by simp⟩

theorem applyConsent_shape {st : State} {ev : Dict} {t : Int} {tu : String}
    {out : Dict × State × List Dict}
    (h : applyConsent st ev t tu = Except.ok out) : HandlerShape st out ∧ out.2.2 ≠ [] := by
  unfold applyConsent at h
  rcases bindE_ok_iff.mp h with ⟨cid, _, h⟩
  rcases bindE_ok_iff.mp h with ⟨cs, _, h⟩
  rcases bindE_ok_iff.mp h with ⟨su, _, h⟩
  exact finishReceipt_shape h rfl rfl rfl rfl
    (by intro hh; rw [vGetD_type_head] at hh; simp at hh)

theorem applyRevokeDelegation_shape {st : State} {ev : Dict} {t : Int} {tu : String}
    {out : Dict × State × List Dict}
    (h : applyRevokeDelegation st ev t tu = Except.ok out) : HandlerShape st out ∧ out.2.2 ≠ [] := by
  unfold applyRevokeDelegation at h
  rcases bindE_ok_iff.mp h with ⟨did, _, h⟩
  rcases bindE_ok_iff.mp h with ⟨dl, _, h⟩
  rcases bindE_ok_iff.mp h with ⟨st1, h3, h⟩
  rcases revokeMarkDelegation_pres h3 with ⟨p1, p2, p3, p4⟩
  exact finishReceipt_shape h p1 p2 p3 p4
    (by intro hh; rw [vGetD_type_head] at hh; simp at hh)

theorem applyServiceAction_shape {st : State} {ev : Dict} {t : Int} {tu : String}
    {out : Dict × State × List Dict}
    (h : applyServiceAction st ev t tu = Except.ok out) : HandlerShape st out ∧ out.2.2 ≠ [] := by
  unfold applyServiceAction at h
  rcases bindE_ok_iff.mp h with ⟨did, h1, h⟩
  rcases bindE_ok_iff.mp h with ⟨sv, _, h⟩
  rcases bindE_ok_iff.mp h with ⟨su, _, h⟩
  rcases bindE_ok_iff.mp h with ⟨ac, _, h⟩
  exact finishReceipt_shape_decision h rfl rfl rfl rfl
    (dictIndexE_ok h1).symm rfl

theorem applyDelegation_shape {st : State} {ev : Dict} {t : Int} {tu : String}
    {out : Dict × State × List Dict}
    (h : applyDelegation st ev t tu = Except.ok out) : HandlerShape st out ∧ out.2.2 ≠ [] := by
  unfold applyDelegation at h
  rcases bindE_ok_iff.mp h with ⟨did, _, h⟩
  rcases bindE_ok_iff.mp h with ⟨dur, _, h⟩
  rcases bindE_ok_iff.mp h with ⟨exp, _, h⟩
  rcases bindE_ok_iff.mp h with ⟨dg, _, h⟩
  rcases bindE_ok_iff.mp h with ⟨su, _, h⟩
  rcases bindE_ok_iff.mp h with ⟨sv, _, h⟩
  exact finishReceipt_shape h rfl rfl rfl rfl
    (by intro hh; rw [vGetD_type_head] at hh; simp at hh)

theorem applyWithdrawConsent_shape {st : State} {ev : Dict} {t : Int} {tu : String}
    {out : Dict × State × List Dict}
    (h : applyWithdrawConsent st ev t tu = Except.ok out) : HandlerShape st out ∧ out.2.2 ≠ [] := by
  unfold applyWithdrawConsent at h
  rcases bindE_ok_iff.mp h with ⟨cid, _, h⟩
  rcases bindE_ok_iff.mp h with ⟨st1, h2, h⟩
  rcases withdrawMarkConsent_pres h2 with ⟨p1, p2, p3, p4⟩
  exact finishReceipt_shape h p1 p2 p3 p4
    (by intro hh; rw [vGetD_type_head] at hh; simp at hh)

theorem applyTelemetry_shape {st : State} {ev : Dict} {t : Int} {tu : String}
    {out : Dict × State × List Dict}
    (h : applyTelemetry st ev t tu = Except.ok out) : HandlerShape st out ∧ out.2.2 ≠ [] := by
  unfold applyTelemetry at h
  rcases bindE_ok_iff.mp h with ⟨tid, _, h⟩
  rcases bindE_ok_iff.mp h with ⟨tm, _, h⟩
  rcases bindE_ok_iff.mp h with ⟨so, _, h⟩
  rcases bindE_ok_iff.mp h with ⟨cnt, _, h⟩
  exact finishReceipt_shape h rfl rfl rfl rfl
    (by intro hh; rw [vGetD_type_head] at hh; simp at hh)

theorem applySharedAction_shape {st : State} {ev : Dict} {t : Int} {tu : String}
    {out : Dict × State × List Dict}
    (h : applySharedAction st ev t tu = Except.ok out) : HandlerShape st out ∧ out.2.2 ≠ [] := by
  unfold applySharedAction at h
  exact finishReceipt_shape h rfl rfl rfl rfl
    (by intro hh; rw [vGetD_type_head] at hh; simp at hh)

theorem applyTimeAdvance_shape {st : State} {ev : Dict} {t : Int} {tu : String}
    {out : Dict × State × List Dict}
    (h : applyTimeAdvance st ev t tu = Except.ok out) : HandlerShape st out ∧ out.2.2 ≠ [] := by
  unfold applyTimeAdvance at h
  rcases bindE_ok_iff.mp h with ⟨ticks, _, h⟩
  exact finishReceipt_shape h rfl rfl rfl rfl
    (by intro hh; rw [vGetD_type_head] at hh; simp at hh)

theorem applyBoundaryDeclaration_shape {st : State} {ev : Dict} {t : Int} {tu : String}
    {out : Dict × State × List Dict}
    (h : applyBoundaryDeclaration st ev t tu = Except.ok out) : HandlerShape st out ∧ out.2.2 ≠ [] := by
  unfold applyBoundaryDeclaration at h
  rcases bindE_ok_iff.mp h with ⟨eid, _, h⟩
  rcases bindE_ok_iff.mp h with ⟨bs, _, h⟩
  exact finishReceipt_shape h rfl rfl rfl rfl
    (by intro hh; rw [vGetD_type_head] at hh; simp at hh)

theorem applyEntryCondition_shape {st : State} {ev : Dict} {t : Int} {tu : String}
    {out : Dict × State × List Dict}
    (h : applyEntryCondition st ev t tu = Except.ok out) : HandlerShape st out ∧ out.2.2 ≠ [] := by
  unfold applyEntryCondition at h
  rcases bindE_ok_iff.mp h with ⟨eid, _, h⟩
  rcases bindE_ok_iff.mp h with ⟨ec, _, h⟩
  exact finishReceipt_shape h rfl rfl rfl rfl
    (by intro hh; rw [vGetD_type_head] at hh; simp at hh)

theorem applyEntryRequest_shape {st : State} {ev : Dict} {t : Int} {tu : String}
    {out : Dict × State × List Dict}
    (h : applyEntryRequest st ev t tu = Except.ok out) : HandlerShape st out ∧ out.2.2 ≠ [] := by
  unfold applyEntryRequest at h
  exact finishReceipt_shape h rfl rfl rfl rfl
    (by intro hh; rw [vGetD_type_head] at hh; simp at hh)

theorem applyBoundaryRule_shape {st : State} {ev : Dict} {t : Int} {tu : String}
    {out : Dict × State × List Dict}
    (h : applyBoundaryRule st ev t tu = Except.ok out) : HandlerShape st out ∧ out.2.2 ≠ [] := by
  unfold applyBoundaryRule at h
  rcases bindE_ok_iff.mp h with ⟨cur, _, h⟩
  rcases bindE_ok_iff.mp h with ⟨bs, _, h⟩
  exact finishReceipt_shape h rfl rfl rfl rfl
    (by intro hh; rw [vGetD_type_head] at hh; simp at hh)

theorem applyRevocationPolicy_shape {st : State} {ev : Dict} {t : Int} {tu : String}
    {out : Dict × State × List Dict}
    (h : applyRevocationPolicy st ev t tu = Except.ok out) : HandlerShape st out ∧ out.2.2 ≠ [] := by
  unfold applyRevocationPolicy at h
  exact finishReceipt_shape h rfl rfl rfl rfl
    (by intro hh; rw [vGetD_type_head] at hh; simp at hh)

theorem applyDefaultSetting_shape {st : State} {ev : Dict} {t : Int} {tu : String}
    {out : Dict × State × List Dict}
    (h : applyDefaultSetting st ev t tu = Except.ok out) : HandlerShape st out ∧ out.2.2 ≠ [] := by
  unfold applyDefaultSetting at h
  rcases bindE_ok_iff.mp h with ⟨exp, _, h⟩
  exact finishReceipt_shape h rfl rfl rfl rfl
    (by intro hh; rw [vGetD_type_head] at hh; simp at hh)

theorem applyFederatedGovernance_shape {st : State} {ev : Dict} {t : Int} {tu : String}
    {out : Dict × State × List Dict}
    (h : applyFederatedGovernance st ev t tu = Except.ok out) : HandlerShape st out ∧ out.2.2 ≠ [] := by
  unfold applyFederatedGovernance at h
  rcases bindE_ok_iff.mp h with ⟨cur, _, h⟩
  rcases bindE_ok_iff.mp h with ⟨bs, _, h⟩
  exact finishReceipt_shape h rfl rfl rfl rfl
    (by intro hh; rw [vGetD_type_head] at hh; simp at hh)

theorem applyBoundaryFailureModes_shape {st : State} {ev : Dict} {t : Int} {tu : String}
    {out : Dict × State × List Dict}
    (h : applyBoundaryFailureModes st ev t tu = Except.ok out) : HandlerShape st out ∧ out.2.2 ≠ [] := by
  unfold applyBoundaryFailureModes at h
  exact finishReceipt_shape h rfl rfl rfl rfl
    (by intro hh; rw [vGetD_type_head] at hh; simp at hh)

theorem applyRespectPrinciples_shape {st : State} {ev : Dict} {t : Int} {tu : String}
    {out : Dict × State × List Dict}
    (h : applyRespectPrinciples st ev t tu = Except.ok out) : HandlerShape st out ∧ out.2.2 ≠ [] := by
  unfold applyRespectPrinciples at h
  exact finishReceipt_shape h rfl rfl rfl rfl
    (by intro hh; rw [vGetD_type_head] at hh; simp at hh)

theorem applyParticipationDeclaration_shape {st : State} {ev : Dict} {t : Int} {tu : String}
    {out : Dict × State × List Dict}
    (h : applyParticipationDeclaration st ev t tu = Except.ok out) : HandlerShape st out ∧ out.2.2 ≠ [] := by
  unfold applyParticipationDeclaration at h
  exact finishReceipt_shape h rfl rfl rfl rfl
    (by intro hh; rw [vGetD_type_head] at hh; simp at hh)

theorem applyTrustAudit_shape {st : State} {ev : Dict} {t : Int} {tu : String}
    {out : Dict × State × List Dict}
    (h : applyTrustAudit st ev t tu = Except.ok out) : HandlerShape st out ∧ out.2.2 ≠ [] := by
  unfold applyTrustAudit at h
  exact finishReceipt_shape h rfl rfl rfl rfl
    (by intro hh; rw [vGetD_type_head] at hh; simp at hh)

theorem applyRespectAudit_shape {st : State} {ev : Dict} {t : Int} {tu : String}
    {out : Dict × State × List Dict}
    (h : applyRespectAudit st ev t tu = Except.ok out) : HandlerShape st out ∧ out.2.2 ≠ [] := by
  unfold applyRespectAudit at h
  exact finishReceipt_shape h rfl rfl rfl rfl
    (by intro hh; rw [vGetD_type_head] at hh; simp at hh)

theorem applyEnforcement_shape {st : State} {ev : Dict} {t : Int} {tu : String}
    {out : Dict × State × List Dict}
    (h : applyEnforcement st ev t tu = Except.ok out) : HandlerShape st out ∧ out.2.2 ≠ [] := by
  unfold applyEnforcement at h
  exact finishReceipt_shape h rfl rfl rfl rfl
    (by intro hh; rw [vGetD_type_head] at hh; simp at hh)

theorem applyDisclosure_shape {st : State} {ev : Dict} {t : Int} {tu : String}
    {out : Dict × State × List Dict}
    (h : applyDisclosure st ev t tu = Except.ok out) : HandlerShape st out ∧ out.2.2 ≠ [] := by
  unfold applyDisclosure at h
  exact finishReceipt_shape h rfl rfl rfl rfl
    (by intro hh; rw [vGetD_type_head] at hh; simp at hh)

theorem applyLimitationDisclosure_shape {st : State} {ev : Dict} {t : Int} {tu : String}
    {out : Dict × State × List Dict}
    (h : applyLimitationDisclosure st ev t tu = Except.ok out) : HandlerShape st out ∧ out.2.2 ≠ [] := by
  unfold applyLimitationDisclosure at h
  exact finishReceipt_shape h rfl rfl rfl rfl
    (by intro hh; rw [vGetD_type_head] at hh; simp at hh)

/-- Every successful dispatch through the known-type `elif` chain
satisfies the common handler shape; the trailing
`reductionist_metric` case contributes the no-receipt branch. -/
theorem applyKnown_shape {st : State} {ev : Dict} {t : Int} {tu : String} {ty : Value}
    {out : Dict × State × List Dict}
    (h : applyKnown st ev t tu ty = Except.ok out) : HandlerShape st out := by
  unfold applyKnown at h
  by_cases c0 : isStrV ty "delegation" = true
  · rw [if_pos c0] at h; exact (applyDelegation_shape h).1
  rw [if_neg c0] at h
  by_cases c1 : isStrV ty "revoke_delegation" = true
  · rw [if_pos c1] at h; exact (applyRevokeDelegation_shape h).1
  rw [if_neg c1] at h
  by_cases c2 : isStrV ty "consent" = true
  · rw [if_pos c2] at h; exact (applyConsent_shape h).1
  rw [if_neg c2] at h
  by_cases c3 : isStrV ty "withdraw_consent" = true
  · rw [if_pos c3] at h; exact (applyWithdrawConsent_shape h).1
  rw [if_neg c3] at h
  by_cases c4 : isStrV ty "telemetry" = true
  · rw [if_pos c4] at h; exact (applyTelemetry_shape h).1
  rw [if_neg c4] at h
  by_cases c5 : isStrV ty "service_action" = true
  · rw [if_pos c5] at h; exact (applyServiceAction_shape h).1
  rw [if_neg c5] at h
  by_cases c6 : isStrV ty "shared_action" = true
  · rw [if_pos c6] at h; exact (applySharedAction_shape h).1
  rw [if_neg c6] at h
  by_cases c7 : isStrV ty "time_advance" = true
  · rw [if_pos c7] at h; exact (applyTimeAdvance_shape h).1
  rw [if_neg c7] at h
  by_cases c8 : isStrV ty "boundary_declaration" = true
  · rw [if_pos c8] at h; exact (applyBoundaryDeclaration_shape h).1
  rw [if_neg c8] at h
  by_cases c9 : isStrV ty "entry_condition" = true
  · rw [if_pos c9] at h; exact (applyEntryCondition_shape h).1
  rw [if_neg c9] at h
  by_cases c10 : isStrV ty "entry_request" = true
  · rw [if_pos c10] at h; exact (applyEntryRequest_shape h).1
  rw [if_neg c10] at h
  by_cases c11 : isStrV ty "boundary_rule" = true
  · rw [if_pos c11] at h; exact (applyBoundaryRule_shape h).1
  rw [if_neg c11] at h
  by_cases c12 : isStrV ty "revocation_policy" = true
  · rw [if_pos c12] at h; exact (applyRevocationPolicy_shape h).1
  rw [if_neg c12] at h
  by_cases c13 : isStrV ty "default_setting" = true
  · rw [if_pos c13] at h; exact (applyDefaultSetting_shape h).1
  rw [if_neg c13] at h
  by_cases c14 : isStrV ty "federated_governance" = true
  · rw [if_pos c14] at h; exact (applyFederatedGovernance_shape h).1
  rw [if_neg c14] at h
  by_cases c15 : isStrV ty "boundary_failure_modes" = true
  · rw [if_pos c15] at h; exact (applyBoundaryFailureModes_shape h).1
  rw [if_neg c15] at h
  by_cases c16 : isStrV ty "respect_principles" = true
  · rw [if_pos c16] at h; exact (applyRespectPrinciples_shape h).1
  rw [if_neg c16] at h
  by_cases c17 : isStrV ty "participation_declaration" = true
  · rw [if_pos c17] at h; exact (applyParticipationDeclaration_shape h).1
  rw [if_neg c17] at h
  by_cases c18 : isStrV ty "trust_audit" = true
  · rw [if_pos c18] at h; exact (applyTrustAudit_shape h).1
  rw [if_neg c18] at h
  by_cases c19 : isStrV ty "respect_audit" = true
  · rw [if_pos c19] at h; exact (applyRespectAudit_shape h).1
  rw [if_neg c19] at h
  by_cases c20 : isStrV ty "enforcement" = true
  · rw [if_pos c20] at h; exact (applyEnforcement_shape h).1
  rw [if_neg c20] at h
  by_cases c21 : isStrV ty "disclosure" = true
  · rw [if_pos c21] at h; exact (applyDisclosure_shape h).1
  rw [if_neg c21] at h
  by_cases c22 : isStrV ty "limitation_disclosure" = true
  · rw [if_pos c22] at h; exact (applyLimitationDisclosure_shape h).1
  rw [if_neg c22] at h
  obtain rfl := Except.ok.inj h
  exact ⟨rfl, rfl, Or.inl ⟨rfl, rfl, rfl⟩⟩

theorem commitError_eq (st1 : State) (t : Int) (tu : String) (receipt : Dict) :
    commitError st1 t tu receipt =
      Except.ok
        ({ st1 with receipt_hash_prev := Option.some (receiptHashOf st1 t tu receipt),
                    next_receipt_id := st1.next_receipt_id + 1,
                    receipt_log := st1.receipt_log ++ [finalizeReceipt st1 t tu receipt] },
         [finalizeReceipt st1 t tu receipt]) := rfl

theorem commitError_shape {st st1 : State} {t : Int} {tu : String} {receipt : Dict}
    {out : State × List Dict}
    (h : commitError st1 t tu receipt = Except.ok out)
    (hrl : st1.receipt_log = st.receipt_log)
    (hprev : st1.receipt_hash_prev = st.receipt_hash_prev)
    (hdec : st1.decisions = st.decisions)
    (hty : vGetD receipt "type" ≠ Value.str "decision_receipt") :
    EventShape st out := by
  rw [commitError_eq] at h
  obtain rfl := Except.ok.inj h
  refine ⟨by rw [hrl], Or.inr ⟨finalizeReceipt st1 t tu receipt,
    receiptHashOf st1 t tu receipt, rfl, ?_, finalizeReceipt_hash st1 t tu receipt,
    rfl, ?_, ?_⟩⟩
  · rw [finalizeReceipt_prev, hprev]
  · intro hty2
    rw [vGetD_finalizeReceipt_ne _ _ _ _ _ (by decide) (by decide) (by decide)
      (by decide) (by decide)] at hty2
    exact absurd hty2 hty
  · intro d0 hd0
    simpa [hdec] using hd0

theorem handlerShape_congr {st st1 : State} {triple : Dict × State × List Dict}
    (hrl : st1.receipt_log = st.receipt_log)
    (hel : st1.event_log = st.event_log)
    (hprev : st1.receipt_hash_prev = st.receipt_hash_prev)
    (hdec : st1.decisions = st.decisions)
    (h : HandlerShape st1 triple) : HandlerShape st triple := by
  obtain ⟨h1, h2, h3⟩ := h
  refine ⟨h1.trans hrl, h2.trans hel, ?_⟩
  rcases h3 with ⟨a, b, c⟩ | ⟨r, hx, a, b, c, d, e2, f⟩
  · exact Or.inl ⟨a, b.trans hprev, c.trans hdec⟩
  · refine Or.inr ⟨r, hx, a, ?_, c, d, e2, ?_⟩
    · rw [b, hprev]
    · intro d0 hd0
      exact f d0 (hdec ▸ hd0)

theorem commitKnown_eq (evF : Dict) (st2 : State) (rs : List Dict) :
    commitKnown (evF, st2, rs) =
      Except.ok
        ({ st2 with event_log := st2.event_log ++ [evF]
                    receipt_log := st2.receipt_log ++ rs },
          rs) := rfl

theorem commitKnown_shape {st : State} {triple : Dict × State × List Dict}
    {out : State × List Dict}
    (h : commitKnown triple = Except.ok out)
    (hs : HandlerShape st triple) : EventShape st out := by
  obtain ⟨evF, st2, rs⟩ := triple
  rw [commitKnown_eq] at h
  obtain rfl := Except.ok.inj h
  obtain ⟨hrl, _, hcase⟩ := hs
  have hrl2 : st2.receipt_log = st.receipt_log := hrl
  refine ⟨by rw [hrl2], ?_⟩
  rcases hcase with ⟨h0, hp, hd⟩ | ⟨r, hx, hrs, hprev, hhash, hnew, hdecr, hmono⟩
  · exact Or.inl ⟨h0, hp, hd⟩
  · exact Or.inr ⟨r, hx, hrs, hprev, hhash, hnew, hdecr, hmono⟩

/-- Every successful `apply_event` call satisfies the event shape. -/
theorem applyEvent_shape {st : State} {e : Dict} {out : State × List Dict}
    (h : applyEvent st e = Except.ok out) : EventShape st out := by
  unfold applyEvent at h
  rcases bindE_ok_iff.mp h with ⟨known, hkn, h⟩
  cases known with
  | false =>
    rcases bindE_ok_iff.mp h with ⟨tu, _, h⟩
    exact commitError_shape h rfl rfl rfl
      (by intro hh; rw [vGetD_type_head] at hh; simp at hh)
  | true =>
    rcases bindE_ok_iff.mp h with ⟨tu, _, h⟩
    rcases bindE_ok_iff.mp h with ⟨triple, h1, h⟩
    have hs := applyKnown_shape h1
    have hs2 : HandlerShape st triple := handlerShape_congr rfl rfl rfl rfl hs
    exact commitKnown_shape h hs2

theorem chainLinkedB_append (log : List Dict) (r : Dict) (seed : Value) :
    chainLinkedB (log ++ [r]) seed =
      (chainLinkedB log seed &&
       hashFieldEq (vGetD r "receipt_hash_prev") (chainTailB log seed)) := by
  induction log generalizing seed with
  | nil => simp [chainLinkedB, chainTailB]
  | cons x rest ih => simp [chainLinkedB, chainTailB, ih, Bool.and_assoc]

theorem chainTailB_append (log : List Dict) (r : Dict) (seed : Value) :
    chainTailB (log ++ [r]) seed = vGetD r "receipt_hash" := by
  induction log generalizing seed with
  | nil => rfl
  | cons x rest ih => simpa [chainTailB] using ih (vGetD x "receipt_hash")

theorem hashFieldEq_optValue_self (o : Option String) :
    hashFieldEq (optValue o) (optValue o) = true := by
  cases o <;> simp [optValue, hashFieldEq]

theorem chainInv_step {st : State} {out : State × List Dict}
    (hs : EventShape st out) (hinv : ChainInv st) : ChainInv out.1 := by
  obtain ⟨hlog, hcase⟩ := hs
  obtain ⟨hl, ht⟩ := hinv
  rcases hcase with ⟨h0, hp, _⟩ | ⟨r, hh, hrs, hprev, hhash, hnew, _, _⟩
  · constructor
    · rw [hlog, h0, List.append_nil, hl]
    · rw [hlog, h0, List.append_nil, ht, hp]
  · constructor
    · rw [hlog, hrs, chainLinkedB_append, hl, ht, hprev]
      simp [hashFieldEq_optValue_self]
    · rw [hlog, hrs, chainTailB_append, hhash, hnew]
      rfl

theorem applyEvents_chain {evs : List Dict} {st st2 : State}
    (h : applyEvents st evs = Except.ok st2) (hinv : ChainInv st) : ChainInv st2 := by
  induction evs generalizing st with
  | nil =>
    obtain rfl := Except.ok.inj h
    exact hinv
  | cons e rest ih =>
    unfold applyEvents at h
    rcases bindE_ok_iff.mp h with ⟨p, h1, h2⟩
    exact ih h2 (chainInv_step (applyEvent_shape h1) hinv)

/-- Claim C4: in every state reachable by folding `apply_event` over an
event list from a fresh `State`, the receipt log is hash-chained: the
first receipt's `receipt_hash_prev` is `None` and each later
receipt's `receipt_hash_prev` equals its predecessor's
`receipt_hash` (`chainLinkedB` with the `None` seed states exactly
this), across error and normal receipts alike. -/
theorem c4_receipt_log_hash_chained (evs : List Dict) (st : State)
    (h : applyEvents freshState evs = Except.ok st) :
    chainLinkedB st.receipt_log Value.none = true :=
  (applyEvents_chain h ⟨rfl, rfl⟩).1

/-- Witness for C4: a two-event fold producing one normal receipt (for
the `trust_audit` event) and one error receipt (for the unknown type),
whose two-receipt log is chain-linked. -/
theorem c4_receipt_log_hash_chained_witness :
    applyEvents freshState
        [[("type", Value.str "trust_audit"), ("audit_id", Value.str "a1"),
          ("minimum_met", Value.bool true)],
         [("type", Value.str "bogus")]] =
      Except.ok (stateAfter
        [[("type", Value.str "trust_audit"), ("audit_id", Value.str "a1"),
          ("minimum_met", Value.bool true)],
         [("type", Value.str "bogus")]]) ∧
    (stateAfter
        [[("type", Value.str "trust_audit"), ("audit_id", Value.str "a1"),
          ("minimum_met", Value.bool true)],
         [("type", Value.str "bogus")]]).receipt_log.length = 2 ∧
    chainLinkedB
      (stateAfter
        [[("type", Value.str "trust_audit"), ("audit_id", Value.str "a1"),
          ("minimum_met", Value.bool true)],
         [("type", Value.str "bogus")]]).receipt_log Value.none = true :=
  ⟨rfl, rfl,
    c4_receipt_log_hash_chained
      [[("type", Value.str "trust_audit"), ("audit_id", Value.str "a1"),
        ("minimum_met", Value.bool true)],
       [("type", Value.str "bogus")]]
      (stateAfter
        [[("type", Value.str "trust_audit"), ("audit_id", Value.str "a1"),
          ("minimum_met", Value.bool true)],
         [("type", Value.str "bogus")]]) rfl⟩

theorem knownEventType_eq_false {ty : Value}
    (h0 : isStrV ty "delegation" = false)
    (h1 : isStrV ty "revoke_delegation" = false)
    (h2 : isStrV ty "consent" = false)
    (h3 : isStrV ty "withdraw_consent" = false)
    (h4 : isStrV ty "telemetry" = false)
    (h5 : isStrV ty "service_action" = false)
    (h6 : isStrV ty "shared_action" = false)
    (h7 : isStrV ty "time_advance" = false)
    (h8 : isStrV ty "boundary_declaration" = false)
    (h9 : isStrV ty "entry_condition" = false)
    (h10 : isStrV ty "entry_request" = false)
    (h11 : isStrV ty "boundary_rule" = false)
    (h12 : isStrV ty "revocation_policy" = false)
    (h13 : isStrV ty "default_setting" = false)
    (h14 : isStrV ty "federated_governance" = false)
    (h15 : isStrV ty "boundary_failure_modes" = false)
    (h16 : isStrV ty "respect_principles" = false)
    (h17 : isStrV ty "participation_declaration" = false)
    (h18 : isStrV ty "trust_audit" = false)
    (h19 : isStrV ty "respect_audit" = false)
    (h20 : isStrV ty "enforcement" = false)
    (h21 : isStrV ty "disclosure" = false)
    (h22 : isStrV ty "limitation_disclosure" = false)
    (h23 : isStrV ty "reductionist_metric" = false) :
    knownEventType ty = false := by
  cases ty
  case str s =>
    simp only [isStrV] at h0 h1 h2 h3 h4 h5 h6 h7 h8 h9 h10 h11 h12 h13 h14 h15 h16 h17 h18 h19 h20 h21 h22 h23
    simp only [knownEventType, knownEventTypes, List.contains, List.elem, h0, h1, h2, h3, h4, h5, h6, h7, h8, h9, h10, h11, h12, h13, h14, h15, h16, h17, h18, h19, h20, h21, h22, h23]
  all_goals rfl

/-- Every successful dispatch of a known type other than
`reductionist_metric` returns a non-empty receipt list. -/
theorem applyKnown_receipts {st : State} {ev : Dict} {t : Int} {tu : String}
    {ty : Value} {out : Dict × State × List Dict}
    (h : applyKnown st ev t tu ty = Except.ok out)
    (hk : knownEventType ty = true)
    (hnr : isStrV ty "reductionist_metric" = false) :
    out.2.2 ≠ [] := by
  unfold applyKnown at h
  by_cases c0 : isStrV ty "delegation" = true
  · rw [if_pos c0] at h; exact (applyDelegation_shape h).2
  rw [if_neg c0] at h
  have f0 : isStrV ty "delegation" = false := Bool.eq_false_iff.mpr c0
  by_cases c1 : isStrV ty "revoke_delegation" = true
  · rw [if_pos c1] at h; exact (applyRevokeDelegation_shape h).2
  rw [if_neg c1] at h
  have f1 : isStrV ty "revoke_delegation" = false := Bool.eq_false_iff.mpr c1
  by_cases c2 : isStrV ty "consent" = true
  · rw [if_pos c2] at h; exact (applyConsent_shape h).2
  rw [if_neg c2] at h
  have f2 : isStrV ty "consent" = false := Bool.eq_false_iff.mpr c2
  by_cases c3 : isStrV ty "withdraw_consent" = true
  · rw [if_pos c3] at h; exact (applyWithdrawConsent_shape h).2
  rw [if_neg c3] at h
  have f3 : isStrV ty "withdraw_consent" = false := Bool.eq_false_iff.mpr c3
  by_cases c4 : isStrV ty "telemetry" = true
  · rw [if_pos c4] at h; exact (applyTelemetry_shape h).2
  rw [if_neg c4] at h
  have f4 : isStrV ty "telemetry" = false := Bool.eq_false_iff.mpr c4
  by_cases c5 : isStrV ty "service_action" = true
  · rw [if_pos c5] at h; exact (applyServiceAction_shape h).2
  rw [if_neg c5] at h
  have f5 : isStrV ty "service_action" = false := Bool.eq_false_iff.mpr c5
  by_cases c6 : isStrV ty "shared_action" = true
  · rw [if_pos c6] at h; exact (applySharedAction_shape h).2
  rw [if_neg c6] at h
  have f6 : isStrV ty "shared_action" = false := Bool.eq_false_iff.mpr c6
  by_cases c7 : isStrV ty "time_advance" = true
  · rw [if_pos c7] at h; exact (applyTimeAdvance_shape h).2
  rw [if_neg c7] at h
  have f7 : isStrV ty "time_advance" = false := Bool.eq_false_iff.mpr c7
  by_cases c8 : isStrV ty "boundary_declaration" = true
  · rw [if_pos c8] at h; exact (applyBoundaryDeclaration_shape h).2
  rw [if_neg c8] at h
  have f8 : isStrV ty "boundary_declaration" = false := Bool.eq_false_iff.mpr c8
  by_cases c9 : isStrV ty "entry_condition" = true
  · rw [if_pos c9] at h; exact (applyEntryCondition_shape h).2
  rw [if_neg c9] at h
  have f9 : isStrV ty "entry_condition" = false := Bool.eq_false_iff.mpr c9
  by_cases c10 : isStrV ty "entry_request" = true
  · rw [if_pos c10] at h; exact (applyEntryRequest_shape h).2
  rw [if_neg c10] at h
  have f10 : isStrV ty "entry_request" = false := Bool.eq_false_iff.mpr c10
  by_cases c11 : isStrV ty "boundary_rule" = true
  · rw [if_pos c11] at h; exact (applyBoundaryRule_shape h).2
  rw [if_neg c11] at h
  have f11 : isStrV ty "boundary_rule" = false := Bool.eq_false_iff.mpr c11
  by_cases c12 : isStrV ty "revocation_policy" = true
  · rw [if_pos c12] at h; exact (applyRevocationPolicy_shape h).2
  rw [if_neg c12] at h
  have f12 : isStrV ty "revocation_policy" = false := Bool.eq_false_iff.mpr c12
  by_cases c13 : isStrV ty "default_setting" = true
  · rw [if_pos c13] at h; exact (applyDefaultSetting_shape h).2
  rw [if_neg c13] at h
  have f13 : isStrV ty "default_setting" = false := Bool.eq_false_iff.mpr c13
  by_cases c14 : isStrV ty "federated_governance" = true
  · rw [if_pos c14] at h; exact (applyFederatedGovernance_shape h).2
  rw [if_neg c14] at h
  have f14 : isStrV ty "federated_governance" = false := Bool.eq_false_iff.mpr c14
  by_cases c15 : isStrV ty "boundary_failure_modes" = true
  · rw [if_pos c15] at h; exact (applyBoundaryFailureModes_shape h).2
  rw [if_neg c15] at h
  have f15 : isStrV ty "boundary_failure_modes" = false := Bool.eq_false_iff.mpr c15
  by_cases c16 : isStrV ty "respect_principles" = true
  · rw [if_pos c16] at h; exact (applyRespectPrinciples_shape h).2
  rw [if_neg c16] at h
  have f16 : isStrV ty "respect_principles" = false := Bool.eq_false_iff.mpr c16
  by_cases c17 : isStrV ty "participation_declaration" = true
  · rw [if_pos c17] at h; exact (applyParticipationDeclaration_shape h).2
  rw [if_neg c17] at h
  have f17 : isStrV ty "participation_declaration" = false := Bool.eq_false_iff.mpr c17
  by_cases c18 : isStrV ty "trust_audit" = true
  · rw [if_pos c18] at h; exact (applyTrustAudit_shape h).2
  rw [if_neg c18] at h
  have f18 : isStrV ty "trust_audit" = false := Bool.eq_false_iff.mpr c18
  by_cases c19 : isStrV ty "respect_audit" = true
  · rw [if_pos c19] at h; exact (applyRespectAudit_shape h).2
  rw [if_neg c19] at h
  have f19 : isStrV ty "respect_audit" = false := Bool.eq_false_iff.mpr c19
  by_cases c20 : isStrV ty "enforcement" = true
  · rw [if_pos c20] at h; exact (applyEnforcement_shape h).2
  rw [if_neg c20] at h
  have f20 : isStrV ty "enforcement" = false := Bool.eq_false_iff.mpr c20
  by_cases c21 : isStrV ty "disclosure" = true
  · rw [if_pos c21] at h; exact (applyDisclosure_shape h).2
  rw [if_neg c21] at h
  have f21 : isStrV ty "disclosure" = false := Bool.eq_false_iff.mpr c21
  by_cases c22 : isStrV ty "limitation_disclosure" = true
  · rw [if_pos c22] at h; exact (applyLimitationDisclosure_shape h).2
  rw [if_neg c22] at h
  have f22 : isStrV ty "limitation_disclosure" = false := Bool.eq_false_iff.mpr c22
  exact absurd hk (by rw [knownEventType_eq_false f0 f1 f2 f3 f4 f5 f6 f7 f8 f9 f10 f11 f12 f13 f14 f15 f16 f17 f18 f19 f20 f21 f22 hnr]; simp)

theorem commitError_receipts {st1 : State} {t : Int} {tu : String} {receipt : Dict}
    {out : State × List Dict}
    (h : commitError st1 t tu receipt = Except.ok out) : out.2 ≠ [] := by
  rw [commitError_eq] at h
  obtain rfl := Except.ok.inj h
  simp

theorem commitKnown_receipts {triple : Dict × State × List Dict} {out : State × List Dict}
    (h : commitKnown triple = Except.ok out) : out.2 = triple.2.2 := by
  obtain ⟨evF, st2, rs⟩ := triple
  rw [commitKnown_eq] at h
  obtain rfl := Except.ok.inj h
  rfl

/-- Counterexample to claim C6: the known type `reductionist_metric`
has no handler branch, so applying it succeeds, logs the event, and
emits no receipt at all — the returned receipt list is empty and the
receipt log of the resulting state is still empty. -/
theorem c6_counterexample :
    knownEventType (vGetD [("type", Value.str "reductionist_metric")] "type") = true ∧
    ∃ st2, applyEvent freshState [("type", Value.str "reductionist_metric")] =
        Except.ok (st2, []) ∧ st2.receipt_log = [] := by
  exact ⟨rfl, _, rfl, rfl⟩

/-- Claim C6, amended: `apply_event` returns at least one receipt and
grows the receipt log by exactly the returned receipts for every event
whose `type` is not the string `reductionist_metric` — unknown types
included (they yield the error receipt).  The one known type without a
handler, `reductionist_metric`, is the exception the counterexample
shows. -/
theorem c6_receipts_amended (st st2 : State) (e : Dict) (rs : List Dict)
    (h : applyEvent st e = Except.ok (st2, rs))
    (hty : isStrV (vGetD e "type") "reductionist_metric" = false) :
    rs ≠ [] ∧ st2.receipt_log = st.receipt_log ++ rs := by
  have hs := applyEvent_shape h
  refine ⟨?_, hs.1⟩
  unfold applyEvent at h
  rcases bindE_ok_iff.mp h with ⟨known, hkn, h⟩
  cases known with
  | false =>
    rcases bindE_ok_iff.mp h with ⟨tu, _, h⟩
    exact commitError_receipts h
  | true =>
    have hk : knownEventType (vGetD e "type") = true := knownEventTypeE_ok hkn
    rcases bindE_ok_iff.mp h with ⟨tu, _, h⟩
    rcases bindE_ok_iff.mp h with ⟨triple, h1, h⟩
    have hr := commitKnown_receipts h
    have hne : triple.2.2 ≠ [] := applyKnown_receipts h1 hk hty
    intro hc
    exact hne (by rw [← hr, hc])

/-- Witness for the amended C6 at a known handled type: one
`trust_audit` event yields a non-empty receipt list that is exactly the
growth of the receipt log. -/
theorem c6_receipts_amended_witness :
    receiptLogAfter [[("type", Value.str "trust_audit")]] ≠ [] ∧
    (stateAfter [[("type", Value.str "trust_audit")]]).receipt_log =
      freshState.receipt_log ++ receiptLogAfter [[("type", Value.str "trust_audit")]] :=
  c6_receipts_amended freshState (stateAfter [[("type", Value.str "trust_audit")]])
    [("type", Value.str "trust_audit")]
    (receiptLogAfter [[("type", Value.str "trust_audit")]]) rfl rfl

theorem applyOut_estab {acc : TrustAcc} {o : StepOut} {l : String} {e : List String}
    (h : (true, l, e) ∈ o.checks) :
    ∃ v ∈ (applyOut acc o).report.violations, v.label = l := by
  refine ⟨{ label := l, evidence_ids := e, details := "" }, ?_, rfl⟩
  simp only [applyOut]
  cases o.scoreNew <;> simp <;> exact addAll_estab h

theorem trustDecisionStep_pres {st : State} {b : TrustAcc} {a : Dict} {b2 : TrustAcc}
    (h : trustDecisionStep st b a = Except.ok b2) {v : ViolationRecord}
    (hv : v ∈ b.report.violations) : v ∈ b2.report.violations := by
  unfold trustDecisionStep at h
  rcases bindE_ok_iff.mp h with ⟨o, _, h⟩
  obtain rfl := Except.ok.inj h
  exact mem_violations_applyOut hv

theorem trustDecisionStep_estab {st : State} {d : Dict} {b b2 : TrustAcc}
    (hfail : decisionAuthorityUntraceable st d = Except.ok true)
    (h : trustDecisionStep st b d = Except.ok b2) :
    ∃ v ∈ b2.report.violations, v.label = TRUST_VIOLATION.AUTHORITY_UNTRACEABLE := by
  unfold trustDecisionStep at h
  rcases bindE_ok_iff.mp h with ⟨o, ho, h⟩
  obtain rfl := Except.ok.inj h
  unfold trustDecisionCore at ho
  rcases bindE_ok_iff.mp ho with ⟨eid, _, ho⟩
  rcases bindE_ok_iff.mp ho with ⟨j1, _, ho⟩
  rcases bindE_ok_iff.mp ho with ⟨authFail, ha, ho⟩
  rcases bindE_ok_iff.mp ho with ⟨len, _, ho⟩
  rcases bindE_ok_iff.mp ho with ⟨aggViol, _, ho⟩
  rcases bindE_ok_iff.mp ho with ⟨selfOrig, _, ho⟩
  rcases bindE_ok_iff.mp ho with ⟨cw, _, ho⟩
  rcases bindE_ok_iff.mp ho with ⟨j2, _, ho⟩
  obtain rfl := Except.ok.inj ho
  obtain rfl : authFail = true := Except.ok.inj (ha.symm.trans hfail)
  exact applyOut_estab
    (List.mem_cons.mpr (Or.inr (List.mem_cons.mpr (Or.inr (List.mem_cons_self _ _)))))

theorem trustAuditCheck_pres {st : State} {rep rep2 : Report}
    (h : trustAuditCheck st rep = Except.ok rep2) {v : ViolationRecord}
    (hv : v ∈ rep.violations) : v ∈ rep2.violations := by
  unfold trustAuditCheck at h
  cases hq : sdictGet st.audits "trust" with
  | none =>
    simp only [hq] at h
    obtain rfl := Except.ok.inj h
    exact hv
  | some audit =>
    simp only [hq] at h
    split at h
    · rcases bindE_ok_iff.mp h with ⟨eid, _, h⟩
      obtain rfl := Except.ok.inj h
      exact mem_violations_add_violation hv
    · obtain rfl := Except.ok.inj h
      exact hv

theorem disclosureStep_pres {rep rep2 : Report} {d : Dict}
    (h : disclosureStep rep d = Except.ok rep2) {v : ViolationRecord}
    (hv : v ∈ rep.violations) : v ∈ rep2.violations := by
  unfold disclosureStep at h
  split at h
  · rcases bindE_ok_iff.mp h with ⟨eid, _, h⟩
    obtain rfl := Except.ok.inj h
    exact mem_violations_add_violation hv
  · obtain rfl := Except.ok.inj h
    exact hv

theorem limitationStep_pres {rep rep2 : Report} {d : Dict}
    (h : limitationStep rep d = Except.ok rep2) {v : ViolationRecord}
    (hv : v ∈ rep.violations) : v ∈ rep2.violations := by
  unfold limitationStep at h
  split at h
  · rcases bindE_ok_iff.mp h with ⟨eid, _, h⟩
    obtain rfl := Except.ok.inj h
    exact mem_violations_add_violation hv
  · obtain rfl := Except.ok.inj h
    exact hv

theorem enforcementStep_pres {rep rep2 : Report} {e : Dict}
    (h : enforcementStep rep e = Except.ok rep2) {v : ViolationRecord}
    (hv : v ∈ rep.violations) : v ∈ rep2.violations := by
  unfold enforcementStep at h
  rcases bindE_ok_iff.mp h with ⟨eid, _, h⟩
  obtain rfl := Except.ok.inj h
  exact mem_violations_addAll hv

theorem mem_violations_ite_add {rep : Report} {c : Prop} [Decidable c] {l : String}
    {e : List String} {v : ViolationRecord} (hv : v ∈ rep.violations) :
    v ∈ (if c then rep.add_violation l e else rep).violations := by
  split
  · exact mem_violations_add_violation hv
  · exact hv

theorem trustFinish_pres {st : State} {acc : TrustAcc} {r : Report}
    (h : trustFinish st acc = Except.ok r) {v : ViolationRecord}
    (hv : v ∈ acc.report.violations) : v ∈ r.violations := by
  unfold trustFinish at h
  rcases bindE_ok_iff.mp h with ⟨rep2, h2, h⟩
  rcases bindE_ok_iff.mp h with ⟨rep3, h3, h⟩
  rcases bindE_ok_iff.mp h with ⟨rep4, h4, h⟩
  rcases bindE_ok_iff.mp h with ⟨rep5, h5, h⟩
  obtain rfl := Except.ok.inj h
  have v2 := trustAuditCheck_pres h2 (mem_violations_addAll hv)
  have v3 := foldME_pres (fun b a b2 hs hp => disclosureStep_pres hs hp) h3 v2
  have v4 := foldME_pres (fun b a b2 hs hp => limitationStep_pres hs hp) h4 v3
  have v5 := foldME_pres (fun b a b2 hs hp => enforcementStep_pres hs hp) h5 v4
  exact mem_violations_ite_add (mem_violations_ite_add v5)

/-- Claim C3: whenever the per-decision authority condition of the
evaluator fires for a recorded decision — the referenced delegation is
absent, its `suser_id` mismatches, or it is inactive at decision time
under `_delegation_active_at` (`issued_at <= t < expires_at`,
revocation via `revocation_effective_at` else the `revoked` flag), all
of which `decisionAuthorityUntraceable` embeds — and the internal
evaluator completes, `evaluate_trust` reports
`TRUST_VIOLATION.AUTHORITY_UNTRACEABLE`.  No hypothesis restricts
`state.audits`, so the conclusion holds regardless of any recorded
`trust_audit` asserting `minimum_met=True`; the witness exercises the
no-retroactive-authority instance `issued_at > T` under exactly such an
audit. -/
theorem c3_authority_untraceable (st : State) (d : Dict) (r : Report)
    (hd : d ∈ st.decisions)
    (hr : evaluateTrustUnsafe st = Except.ok r)
    (hfail : decisionAuthorityUntraceable st d = Except.ok true) :
    TRUST_VIOLATION.AUTHORITY_UNTRACEABLE ∈ (evaluateTrust st).labels := by
  have hev : evaluateTrust st = r := by
    unfold evaluateTrust
    rw [hr]
  rw [hev]
  unfold evaluateTrustUnsafe at hr
  rcases bindE_ok_iff.mp hr with ⟨a1, _, hr⟩
  rcases bindE_ok_iff.mp hr with ⟨a2, _, hr⟩
  rcases bindE_ok_iff.mp hr with ⟨a3, _, hr⟩
  rcases bindE_ok_iff.mp hr with ⟨a4, _, hr⟩
  rcases bindE_ok_iff.mp hr with ⟨a5, _, hr⟩
  rcases bindE_ok_iff.mp hr with ⟨a6, h6, hr⟩
  have hstep : ∀ (b : TrustAcc) (a : Dict) (b2 : TrustAcc),
      trustDecisionStep st b a = Except.ok b2 →
      (∃ v ∈ b.report.violations, v.label = TRUST_VIOLATION.AUTHORITY_UNTRACEABLE) →
      ∃ v ∈ b2.report.violations, v.label = TRUST_VIOLATION.AUTHORITY_UNTRACEABLE := by
    intro b a b2 hs hp
    rcases hp with ⟨v, hv, hl⟩
    exact ⟨v, trustDecisionStep_pres hs hv, hl⟩
  have hx : ∀ (b b2 : TrustAcc), trustDecisionStep st b d = Except.ok b2 →
      ∃ v ∈ b2.report.violations, v.label = TRUST_VIOLATION.AUTHORITY_UNTRACEABLE :=
    fun b b2 hs => trustDecisionStep_estab hfail hs
  have hP := foldME_estab hstep hx hd h6
  rcases hP with ⟨v, hv, hl⟩
  rw [← hl]
  exact label_mem_of_record (trustFinish_pres hr hv)

/-- Witness for C3 at the no-retroactive-authority scenario: a decision
at logical time 1 referencing a delegation issued at time 5 for the
same S-User, in a state whose trust audit asserts `minimum_met=True`;
the evaluator completes and reports `AUTHORITY_UNTRACEABLE`. -/
theorem c3_authority_untraceable_witness :
    ([("type", Value.str "service_action"), ("decision_id", Value.str "d1"),
      ("suser_id", Value.str "alice"), ("delegation_id", Value.str "g1"),
      ("time", Value.int 1)] ∈
      ({ freshState with
          delegations := [(Value.str "g1",
            [("type", Value.str "delegation"), ("delegation_id", Value.str "g1"),
             ("suser_id", Value.str "alice"), ("issued_at", Value.int 5)])],
          decisions := [[("type", Value.str "service_action"),
            ("decision_id", Value.str "d1"), ("suser_id", Value.str "alice"),
            ("delegation_id", Value.str "g1"), ("time", Value.int 1)]],
          audits := [("trust", [("type", Value.str "trust_audit"),
            ("audit_id", Value.str "a1"), ("minimum_met", Value.bool true)])] } :
        State).decisions) ∧
    decisionAuthorityUntraceable
      { freshState with
          delegations := [(Value.str "g1",
            [("type", Value.str "delegation"), ("delegation_id", Value.str "g1"),
             ("suser_id", Value.str "alice"), ("issued_at", Value.int 5)])],
          decisions := [[("type", Value.str "service_action"),
            ("decision_id", Value.str "d1"), ("suser_id", Value.str "alice"),
            ("delegation_id", Value.str "g1"), ("time", Value.int 1)]],
          audits := [("trust", [("type", Value.str "trust_audit"),
            ("audit_id", Value.str "a1"), ("minimum_met", Value.bool true)])] }
      [("type", Value.str "service_action"), ("decision_id", Value.str "d1"),
       ("suser_id", Value.str "alice"), ("delegation_id", Value.str "g1"),
       ("time", Value.int 1)] = Except.ok true ∧
    TRUST_VIOLATION.AUTHORITY_UNTRACEABLE ∈
      (evaluateTrust
        { freshState with
            delegations := [(Value.str "g1",
              [("type", Value.str "delegation"), ("delegation_id", Value.str "g1"),
               ("suser_id", Value.str "alice"), ("issued_at", Value.int 5)])],
            decisions := [[("type", Value.str "service_action"),
              ("decision_id", Value.str "d1"), ("suser_id", Value.str "alice"),
              ("delegation_id", Value.str "g1"), ("time", Value.int 1)]],
            audits := [("trust", [("type", Value.str "trust_audit"),
              ("audit_id", Value.str "a1"), ("minimum_met", Value.bool true)])] }).labels :=
  ⟨List.mem_cons_self _ _, rfl,
    c3_authority_untraceable _ _
      (evaluateTrust
        { freshState with
            delegations := [(Value.str "g1",
              [("type", Value.str "delegation"), ("delegation_id", Value.str "g1"),
               ("suser_id", Value.str "alice"), ("issued_at", Value.int 5)])],
            decisions := [[("type", Value.str "service_action"),
              ("decision_id", Value.str "d1"), ("suser_id", Value.str "alice"),
              ("delegation_id", Value.str "g1"), ("time", Value.int 1)]],
            audits := [("trust", [("type", Value.str "trust_audit"),
              ("audit_id", Value.str "a1"), ("minimum_met", Value.bool true)])] })
      (List.mem_cons_self _ _) rfl rfl⟩

theorem addAll_estab2 {cs : List (Bool × String × List String)} {r : Report}
    {c : Bool} {l : String} {e : List String} (h : (c, l, e) ∈ cs) (hc : c = true) :
    ({ label := l, evidence_ids := e, details := "" } : ViolationRecord) ∈
      (addAll cs r).violations := by
  subst hc
  exact addAll_estab h

theorem respEntryReqCheck_pres {rep rep2 : Report} {e : Dict}
    (h : respEntryReqCheck rep e = Except.ok rep2) {v : ViolationRecord}
    (hv : v ∈ rep.violations) : v ∈ rep2.violations := by
  unfold respEntryReqCheck at h
  split at h
  · rcases bindE_ok_iff.mp h with ⟨eid, _, h⟩
    obtain rfl := Except.ok.inj h
    exact mem_violations_addAll hv
  · obtain rfl := Except.ok.inj h
    exact hv

theorem respBoundaryRuleCheck_pres {rep rep2 : Report} {e : Dict}
    (h : respBoundaryRuleCheck rep e = Except.ok rep2) {v : ViolationRecord}
    (hv : v ∈ rep.violations) : v ∈ rep2.violations := by
  unfold respBoundaryRuleCheck at h
  split at h
  · rcases bindE_ok_iff.mp h with ⟨eid, _, h⟩
    obtain rfl := Except.ok.inj h
    exact mem_violations_add_violation hv
  · obtain rfl := Except.ok.inj h
    exact hv

theorem respRevPolicyCheck_pres {rep rep2 : Report} {e : Dict}
    (h : respRevPolicyCheck rep e = Except.ok rep2) {v : ViolationRecord}
    (hv : v ∈ rep.violations) : v ∈ rep2.violations := by
  unfold respRevPolicyCheck at h
  split at h
  · rcases bindE_ok_iff.mp h with ⟨eid, _, h⟩
    obtain rfl := Except.ok.inj h
    exact mem_violations_addAll hv
  · obtain rfl := Except.ok.inj h
    exact hv

theorem respBoundaryDeclCheck_pres {rep rep2 : Report} {e : Dict}
    (h : respBoundaryDeclCheck rep e = Except.ok rep2) {v : ViolationRecord}
    (hv : v ∈ rep.violations) : v ∈ rep2.violations := by
  unfold respBoundaryDeclCheck at h
  split at h
  · rcases bindE_ok_iff.mp h with ⟨eid, _, h⟩
    obtain rfl := Except.ok.inj h
    exact mem_violations_add_violation hv
  · obtain rfl := Except.ok.inj h
    exact hv

theorem respFedGovCheck_pres {rep rep2 : Report} {e : Dict}
    (h : respFedGovCheck rep e = Except.ok rep2) {v : ViolationRecord}
    (hv : v ∈ rep.violations) : v ∈ rep2.violations := by
  unfold respFedGovCheck at h
  split at h
  · rcases bindE_ok_iff.mp h with ⟨eid, _, h⟩
    obtain rfl := Except.ok.inj h
    exact mem_violations_addAll hv
  · obtain rfl := Except.ok.inj h
    exact hv

theorem respFailureModesCheck_pres {rep rep2 : Report} {e : Dict}
    (h : respFailureModesCheck rep e = Except.ok rep2) {v : ViolationRecord}
    (hv : v ∈ rep.violations) : v ∈ rep2.violations := by
  unfold respFailureModesCheck at h
  split at h
  · rcases bindE_ok_iff.mp h with ⟨eid, _, h⟩
    obtain rfl := Except.ok.inj h
    exact mem_violations_addAll hv
  · obtain rfl := Except.ok.inj h
    exact hv

theorem respPrinciplesCheck_pres {rep rep2 : Report} {e : Dict}
    (h : respPrinciplesCheck rep e = Except.ok rep2) {v : ViolationRecord}
    (hv : v ∈ rep.violations) : v ∈ rep2.violations := by
  unfold respPrinciplesCheck at h
  split at h
  · rcases bindE_ok_iff.mp h with ⟨eid, _, h⟩
    obtain rfl := Except.ok.inj h
    exact mem_violations_addAll hv
  · obtain rfl := Except.ok.inj h
    exact hv

theorem respParticipationCheck_pres {rep rep2 : Report} {e : Dict}
    (h : respParticipationCheck rep e = Except.ok rep2) {v : ViolationRecord}
    (hv : v ∈ rep.violations) : v ∈ rep2.violations := by
  unfold respParticipationCheck at h
  split at h
  · rcases bindE_ok_iff.mp h with ⟨eid, _, h⟩
    obtain rfl := Except.ok.inj h
    exact mem_violations_addAll hv
  · obtain rfl := Except.ok.inj h
    exact hv

theorem ite_add_pres {c : Prop} [inst : Decidable c] {rep rep2 : Report} {e : Dict}
    {l : String}
    (h : (if c then do
        let eid ← eventIdE e
        Except.ok (rep.add_violation l [eid])
      else Except.ok rep) = Except.ok rep2)
    {v : ViolationRecord} (hv : v ∈ rep.violations) : v ∈ rep2.violations := by
  split at h
  · rcases bindE_ok_iff.mp h with ⟨eid, _, h⟩
    obtain rfl := Except.ok.inj h
    exact mem_violations_add_violation hv
  · obtain rfl := Except.ok.inj h
    exact hv

theorem respRevokeDelegCheck_pres {da : Option Int} {rep rep2 : Report} {e : Dict}
    (h : respRevokeDelegCheck da rep e = Except.ok rep2) {v : ViolationRecord}
    (hv : v ∈ rep.violations) : v ∈ rep2.violations := by
  unfold respRevokeDelegCheck at h
  split at h
  · rcases bindE_ok_iff.mp h with ⟨delay, _, h⟩
    split at h
    · rcases bindE_ok_iff.mp h with ⟨et, _, h⟩
      exact ite_add_pres h hv
    · obtain rfl := Except.ok.inj h
      exact hv
  · obtain rfl := Except.ok.inj h
    exact hv

theorem respectEventStep_pres {da : Option Int} {rep rep2 : Report} {e : Dict}
    (h : respectEventStep da rep e = Except.ok rep2) {v : ViolationRecord}
    (hv : v ∈ rep.violations) : v ∈ rep2.violations := by
  unfold respectEventStep at h
  rcases bindE_ok_iff.mp h with ⟨r1, h1, h⟩
  rcases bindE_ok_iff.mp h with ⟨r2, h2, h⟩
  rcases bindE_ok_iff.mp h with ⟨r3, h3, h⟩
  rcases bindE_ok_iff.mp h with ⟨r4, h4, h⟩
  rcases bindE_ok_iff.mp h with ⟨r5, h5, h⟩
  rcases bindE_ok_iff.mp h with ⟨r6, h6, h⟩
  rcases bindE_ok_iff.mp h with ⟨r7, h7, h⟩
  rcases bindE_ok_iff.mp h with ⟨r8, h8, h⟩
  exact respParticipationCheck_pres h
    (respPrinciplesCheck_pres h8
      (respFailureModesCheck_pres h7
        (respFedGovCheck_pres h6
          (respBoundaryDeclCheck_pres h5
            (respRevokeDelegCheck_pres h4
              (respRevPolicyCheck_pres h3
                (respBoundaryRuleCheck_pres h2
                  (respEntryReqCheck_pres h1 hv))))))))

theorem respectSharedStep_pres {rep rep2 : Report} {a : Dict}
    (h : respectSharedStep rep a = Except.ok rep2) {v : ViolationRecord}
    (hv : v ∈ rep.violations) : v ∈ rep2.violations := by
  unfold respectSharedStep at h
  rcases bindE_ok_iff.mp h with ⟨eid, _, h⟩
  rcases bindE_ok_iff.mp h with ⟨ao, _, h⟩
  rcases bindE_ok_iff.mp h with ⟨nm, _, h⟩
  obtain rfl := Except.ok.inj h
  exact mem_violations_addAll hv

theorem respectEntryCondStep_pres {rep rep2 : Report} {e : Dict}
    (h : respectEntryCondStep rep e = Except.ok rep2) {v : ViolationRecord}
    (hv : v ∈ rep.violations) : v ∈ rep2.violations := by
  unfold respectEntryCondStep at h
  split at h
  · rcases bindE_ok_iff.mp h with ⟨eid, _, h⟩
    obtain rfl := Except.ok.inj h
    exact mem_violations_add_violation hv
  · obtain rfl := Except.ok.inj h
    exact hv

theorem respectDefaultStep_pres {clock : Int} {rep rep2 : Report} {d : Dict}
    (h : respectDefaultStep clock rep d = Except.ok rep2) {v : ViolationRecord}
    (hv : v ∈ rep.violations) : v ∈ rep2.violations := by
  unfold respectDefaultStep at h
  rcases bindE_ok_iff.mp h with ⟨eid, _, h⟩
  rcases bindE_ok_iff.mp h with ⟨cond, _, h⟩
  obtain rfl := Except.ok.inj h
  exact mem_violations_addAll hv

theorem respectAuditCheck_pres {st : State} {rep rep2 : Report}
    (h : respectAuditCheck st rep = Except.ok rep2) {v : ViolationRecord}
    (hv : v ∈ rep.violations) : v ∈ rep2.violations := by
  unfold respectAuditCheck at h
  cases hq : sdictGet st.audits "respect" with
  | none =>
    simp only [hq] at h
    obtain rfl := Except.ok.inj h
    exact hv
  | some audit =>
    simp only [hq] at h
    split at h
    · rcases bindE_ok_iff.mp h with ⟨eid, _, h⟩
      obtain rfl := Except.ok.inj h
      exact mem_violations_add_violation hv
    · obtain rfl := Except.ok.inj h
      exact hv

theorem respectSharedStep_estab {a : Dict} {rep rep2 : Report}
    (haff : affectsOthersE a = Except.ok true)
    (hcb : pyEq (vGetD a "consent_basis") (Value.str "none") = true)
    (hsc : pyTruthy (vGetD a "scope_constrained") = false)
    (h : respectSharedStep rep a = Except.ok rep2) :
    ∃ eid, eventIdE a = Except.ok eid ∧
      ({ label := RESPECT_VIOLATION.MUTUAL_CONSENT_MISSING, evidence_ids := [eid],
         details := "" } : ViolationRecord) ∈ rep2.violations := by
  unfold respectSharedStep at h
  rcases bindE_ok_iff.mp h with ⟨eid, he, h⟩
  rcases bindE_ok_iff.mp h with ⟨affectsOthers, ha2, h⟩
  rcases bindE_ok_iff.mp h with ⟨notMutual, _, h⟩
  obtain rfl := Except.ok.inj h
  obtain rfl : affectsOthers = true := Except.ok.inj (ha2.symm.trans haff)
  refine ⟨eid, he, ?_⟩
  have heq : (true && pyEq (vGetD a "consent_basis") (Value.str "none") &&
      !(pyTruthy (vGetD a "scope_constrained"))) = true := by
    rw [hcb, hsc]
    rfl
  refine addAll_estab2 ?_ heq
  exact List.mem_cons.mpr (Or.inr (List.mem_cons.mpr (Or.inr (List.mem_cons.mpr (Or.inr
    (List.mem_cons.mpr (Or.inr (List.mem_cons.mpr (Or.inr (List.mem_cons.mpr (Or.inr
    (List.mem_cons.mpr (Or.inr (List.mem_cons_self _ _))))))))))))))

/-- Counterexample to claim C9: a shared action with
`consent_basis == "none"` and no `scope_constrained` flag whose
`affected_susers` list names nobody other than the actor (here: nobody
at all) produces no `MUTUAL_CONSENT_MISSING` — the source guards every
consent-basis check behind `affects_others`. -/
theorem c9_counterexample :
    ([("type", Value.str "shared_action"), ("actor_suser_id", Value.str "alice"),
      ("consent_basis", Value.str "none")] ∈
      ({ freshState with
          shared_actions := [[("type", Value.str "shared_action"),
            ("actor_suser_id", Value.str "alice"),
            ("consent_basis", Value.str "none")]] } : State).shared_actions) ∧
    pyEq (vGetD [("type", Value.str "shared_action"),
        ("actor_suser_id", Value.str "alice"), ("consent_basis", Value.str "none")]
        "consent_basis") (Value.str "none") = true ∧
    pyTruthy (vGetD [("type", Value.str "shared_action"),
        ("actor_suser_id", Value.str "alice"), ("consent_basis", Value.str "none")]
        "scope_constrained") = false ∧
    RESPECT_VIOLATION.MUTUAL_CONSENT_MISSING ∉
      (evaluateRespect
        { freshState with
            shared_actions := [[("type", Value.str "shared_action"),
              ("actor_suser_id", Value.str "alice"),
              ("consent_basis", Value.str "none")]] }).labels :=
  ⟨List.mem_cons_self _ _, rfl, rfl, by decide⟩

/-- Claim C9, amended: the code requires the shared action to affect
an S-User other than the actor.  For every shared action that does
affect others, whose `consent_basis` compares equal to `"none"` and
whose `scope_constrained` flag is not truthy, `evaluate_respect`
reports `RESPECT_VIOLATION.MUTUAL_CONSENT_MISSING` with that action's
event id as evidence, provided the internal evaluator completes. -/
theorem c9_mutual_consent_amended (st : State) (a : Dict) (r : Report)
    (ha : a ∈ st.shared_actions)
    (hr : evaluateRespectUnsafe st = Except.ok r)
    (haff : affectsOthersE a = Except.ok true)
    (hcb : pyEq (vGetD a "consent_basis") (Value.str "none") = true)
    (hsc : pyTruthy (vGetD a "scope_constrained") = false) :
    ∃ eid, eventIdE a = Except.ok eid ∧
      ({ label := RESPECT_VIOLATION.MUTUAL_CONSENT_MISSING, evidence_ids := [eid],
         details := "" } : ViolationRecord) ∈ (evaluateRespect st).violations := by
  have hev : evaluateRespect st = r := by
    unfold evaluateRespect
    rw [hr]
  rw [hev]
  unfold evaluateRespectUnsafe at hr
  rcases bindE_ok_iff.mp hr with ⟨da, _, hr⟩
  rcases bindE_ok_iff.mp hr with ⟨r1, hf1, hr⟩
  rcases bindE_ok_iff.mp hr with ⟨r2, hf2, hr⟩
  rcases bindE_ok_iff.mp hr with ⟨r3, hf3, hr⟩
  rcases bindE_ok_iff.mp hr with ⟨r4, hf4, hr⟩
  rcases bindE_ok_iff.mp hr with ⟨r5, hf5, hr⟩
  rcases bindE_ok_iff.mp hr with ⟨r6, hf6, hr⟩
  obtain rfl := Except.ok.inj hr
  have hstep : ∀ (b : Report) (x : Dict) (b2 : Report),
      respectSharedStep b x = Except.ok b2 →
      (∃ eid, eventIdE a = Except.ok eid ∧
        ({ label := RESPECT_VIOLATION.MUTUAL_CONSENT_MISSING, evidence_ids := [eid],
           details := "" } : ViolationRecord) ∈ b.violations) →
      ∃ eid, eventIdE a = Except.ok eid ∧
        ({ label := RESPECT_VIOLATION.MUTUAL_CONSENT_MISSING, evidence_ids := [eid],
           details := "" } : ViolationRecord) ∈ b2.violations := by
    intro b x b2 hs hp
    rcases hp with ⟨eid, he, hv⟩
    exact ⟨eid, he, respectSharedStep_pres hs hv⟩
  have hx : ∀ (b b2 : Report), respectSharedStep b a = Except.ok b2 →
      ∃ eid, eventIdE a = Except.ok eid ∧
        ({ label := RESPECT_VIOLATION.MUTUAL_CONSENT_MISSING, evidence_ids := [eid],
           details := "" } : ViolationRecord) ∈ b2.violations :=
    fun b b2 hs => respectSharedStep_estab haff hcb hsc hs
  rcases foldME_estab hstep hx ha hf1 with ⟨eid, he, hv1⟩
  refine ⟨eid, he, ?_⟩
  have hv2 := foldME_pres (fun b x b2 hs hp => respectEntryCondStep_pres hs hp) hf2 hv1
  have hv3 := foldME_pres (fun b x b2 hs hp => respectEventStep_pres hs hp) hf3 hv2
  have hv4 := foldME_pres (fun b x b2 hs hp => respectDefaultStep_pres hs hp) hf4 hv3
  have hv5 := respectAuditCheck_pres hf5 hv4
  have hv6 := foldME_pres (fun b x b2 hs hp => enforcementStep_pres hs hp) hf6 hv5
  exact mem_violations_ite_add (mem_violations_ite_add hv6)

/-- Witness for the amended C9: a shared action by `alice` affecting
`bob` with `consent_basis == "none"` and no scope constraint; the
respect report carries `MUTUAL_CONSENT_MISSING` with the action's id
as evidence. -/
theorem c9_mutual_consent_amended_witness :
    (∃ eid, eventIdE [("type", Value.str "shared_action"),
        ("actor_suser_id", Value.str "alice"),
        ("affected_susers", Value.list [Value.str "bob"]),
        ("consent_basis", Value.str "none")] = Except.ok eid ∧
      ({ label := RESPECT_VIOLATION.MUTUAL_CONSENT_MISSING, evidence_ids := [eid],
         details := "" } : ViolationRecord) ∈
        (evaluateRespect
          { freshState with
              shared_actions := [[("type", Value.str "shared_action"),
                ("actor_suser_id", Value.str "alice"),
                ("affected_susers", Value.list [Value.str "bob"]),
                ("consent_basis", Value.str "none")]] }).violations) :=
  c9_mutual_consent_amended
    { freshState with
        shared_actions := [[("type", Value.str "shared_action"),
          ("actor_suser_id", Value.str "alice"),
          ("affected_susers", Value.list [Value.str "bob"]),
          ("consent_basis", Value.str "none")]] }
    [("type", Value.str "shared_action"), ("actor_suser_id", Value.str "alice"),
     ("affected_susers", Value.list [Value.str "bob"]),
     ("consent_basis", Value.str "none")]
    (evaluateRespect
      { freshState with
          shared_actions := [[("type", Value.str "shared_action"),
            ("actor_suser_id", Value.str "alice"),
            ("affected_susers", Value.list [Value.str "bob"]),
            ("consent_basis", Value.str "none")]] })
    (List.mem_cons_self _ _) rfl rfl rfl rfl

theorem mem_pySetUpdateStrs {x : Value} {s : List Value} (hx : x ∈ s)
    (extra : List String) : x ∈ pySetUpdateStrs s extra := by
  refine foldl_pres ?_ hx
  intro acc t hm
  split
  · exact hm
  · exact List.mem_append_left _ hm

theorem popFold_absent {k : String} :
    ∀ {fs : List Value} (d : Dict), Value.str k ∈ fs →
      vGetDOpt (fs.foldl
        (fun d f => match f with | Value.str s => dictPop d s | _ => d) d) k =
        Option.none := by
  intro fs
  induction fs with
  | nil => intro d hm; cases hm
  | cons f rest ih =>
    intro d hm
    simp only [List.foldl]
    rcases List.mem_cons.mp hm with rfl | hm2
    · have hf : ∀ (d2 : Dict) (f2 : Value),
          vGetDOpt d2 k = Option.none →
          vGetDOpt (match f2 with
            | Value.str s => dictPop d2 s
            | _ => d2) k = Option.none := by
        intro d2 f2 hd2
        cases f2 with
        | str s =>
          show vGetDOpt (dictPop d2 s) k = Option.none
          by_cases hks : k = s
          · subst hks
            exact vGetDOpt_dictPop_self d2 k
          · rw [vGetDOpt_dictPop_ne _ _ _ hks]
            exact hd2
        | none => exact hd2
        | bool b => exact hd2
        | int n => exact hd2
        | list xs => exact hd2
        | dict xs => exact hd2
      exact foldl_pres hf (vGetDOpt_dictPop_self d k)
    · cases f with
      | str s => exact ih _ hm2
      | none => exact ih _ hm2
      | bool b => exact ih _ hm2
      | int n => exact ih _ hm2
      | list xs => exact ih _ hm2
      | dict xs => exact ih _ hm2

theorem redactTail_absent {k : String} (redacted : List Value) (view : Dict) {rr : Dict}
    (hk : k ≠ "redacted_fields")
    (habs : vGetDOpt view k = Option.none)
    (h : (if !redacted.isEmpty then do
            let sortedFields ← pySortedE redacted
            Except.ok (dictSet view "redacted_fields" (Value.list sortedFields))
          else Except.ok view) = Except.ok rr) :
    vGetDOpt rr k = Option.none := by
  split at h
  · rcases bindE_ok_iff.mp h with ⟨sf, _, h⟩
    obtain rfl := Except.ok.inj h
    rw [vGetDOpt_dictSet_ne _ _ _ _ hk]
    exact habs
  · obtain rfl := Except.ok.inj h
    exact habs

theorem redactReceipt_absent {r rr : Dict} {k : String} {base : List Value}
    (hb : pySetOfE (pyOr (vGetD r "redacted_fields") (Value.list [])) = Except.ok base)
    (hmem : Value.str k ∈ base)
    (hk : k ≠ "redacted_fields")
    (h : redactReceipt r = Except.ok rr) :
    vGetDOpt rr k = Option.none := by
  unfold redactReceipt at h
  rcases bindE_ok_iff.mp h with ⟨base2, hb2, h⟩
  rw [show base2 = base from Except.ok.inj (hb2.symm.trans hb)] at h
  have hmem2 : Value.str k ∈
      (if isFalseV (vGetD r "explanation_delivered") = true then
        pySetUpdateStrs base ["explanation", "explanation_legible"]
      else base) := by
    split
    · exact mem_pySetUpdateStrs hmem _
    · exact hmem
  exact redactTail_absent _ _ hk (popFold_absent r hmem2) h

theorem viewReceipts_mem {u : String} {r rr : Dict} :
    ∀ {log vs : List Dict}, r ∈ log →
      receiptVisibleToSuser r u = Except.ok true →
      redactReceipt r = Except.ok rr →
      viewReceipts u log = Except.ok vs → rr ∈ vs := by
  intro log
  induction log with
  | nil => intro vs hmem; cases hmem
  | cons x rest ih =>
    intro vs hmem hvis hred hv
    unfold viewReceipts at hv
    rcases bindE_ok_iff.mp hv with ⟨vis, hv1, hv⟩
    rcases List.mem_cons.mp hmem with rfl | hmem2
    · obtain rfl : vis = true := Except.ok.inj (hv1.symm.trans hvis)
      rcases bindE_ok_iff.mp hv with ⟨rr2, hr2, hv⟩
      obtain rfl : rr2 = rr := Except.ok.inj (hr2.symm.trans hred)
      rcases bindE_ok_iff.mp hv with ⟨vs2, _, hv⟩
      obtain rfl := Except.ok.inj hv
      exact List.mem_cons_self _ _
    · cases vis with
      | false => exact ih hmem2 hvis hred hv
      | true =>
        rcases bindE_ok_iff.mp hv with ⟨rr2, _, hv⟩
        rcases bindE_ok_iff.mp hv with ⟨vs2, hv2, hv⟩
        obtain rfl := Except.ok.inj hv
        exact List.mem_cons_of_mem _ (ih hmem2 hvis hred hv2)

/-- Claim C10: `suser_view` decides visibility on the unredacted
receipt and only then redacts: every receipt in the log that is visible
to the requester appears (in redacted form) in the returned view, even
when a visibility-relevant field such as `suser_id` is listed in its
own `redacted_fields`; such a listed field is removed from the returned
copy rather than hiding the receipt. -/
theorem c10_visibility_pre_redaction (st : State) (u : String) (r rr : Dict)
    (vs : List Dict)
    (hmem : r ∈ st.receipt_log)
    (hvis : receiptVisibleToSuser r u = Except.ok true)
    (hred : redactReceipt r = Except.ok rr)
    (hview : suserView st u = Except.ok vs) :
    rr ∈ vs ∧
    (∀ base, pySetOfE (pyOr (vGetD r "redacted_fields") (Value.list [])) =
        Except.ok base →
      Value.str "suser_id" ∈ base → vGetDOpt rr "suser_id" = Option.none) := by
  constructor
  · exact viewReceipts_mem hmem hvis hred hview
  · intro base hb hbm
    exact redactReceipt_absent hb hbm (by decide) hred

/-- Witness for C10: a delivered decision receipt for `alice` listing
`suser_id` in its own `redacted_fields` still appears in
`suser_view(state, "alice")`, with the field removed from the copy. -/
theorem c10_visibility_pre_redaction_witness :
    redactOr [("type", Value.str "decision_receipt"), ("receipt_id", Value.int 1),
        ("suser_id", Value.str "alice"),
        ("redacted_fields", Value.list [Value.str "suser_id"])] ∈
      viewOr
        { freshState with
            receipt_log := [[("type", Value.str "decision_receipt"),
              ("receipt_id", Value.int 1), ("suser_id", Value.str "alice"),
              ("redacted_fields", Value.list [Value.str "suser_id"])]] } "alice" ∧
    vGetDOpt
      (redactOr [("type", Value.str "decision_receipt"), ("receipt_id", Value.int 1),
        ("suser_id", Value.str "alice"),
        ("redacted_fields", Value.list [Value.str "suser_id"])]) "suser_id" =
      Option.none :=
  have h := c10_visibility_pre_redaction
    { freshState with
        receipt_log := [[("type", Value.str "decision_receipt"),
          ("receipt_id", Value.int 1), ("suser_id", Value.str "alice"),
          ("redacted_fields", Value.list [Value.str "suser_id"])]] } "alice"
    [("type", Value.str "decision_receipt"), ("receipt_id", Value.int 1),
     ("suser_id", Value.str "alice"),
     ("redacted_fields", Value.list [Value.str "suser_id"])]
    (redactOr [("type", Value.str "decision_receipt"), ("receipt_id", Value.int 1),
      ("suser_id", Value.str "alice"),
      ("redacted_fields", Value.list [Value.str "suser_id"])])
    (viewOr
      { freshState with
          receipt_log := [[("type", Value.str "decision_receipt"),
            ("receipt_id", Value.int 1), ("suser_id", Value.str "alice"),
            ("redacted_fields", Value.list [Value.str "suser_id"])]] } "alice")
    (List.mem_cons_self _ _) rfl rfl rfl
  ⟨h.1, h.2 [Value.str "suser_id"] rfl (List.mem_cons_self _ _)⟩

theorem pyEq_str_self (s : String) : pyEq (Value.str s) (Value.str s) = true := by
  simp [pyEq, pyFuelOf, pyEqFuel]

theorem findGroup_cons_pos {k1 : Value} {bb : List Dict}
    {rest : List (Value × List Dict)} {KEY : Value} (h : pyEq k1 KEY = true) :
    findGroup ((k1, bb) :: rest) KEY = Option.some bb := by
  simp [findGroup, List.find?, h]

theorem findGroup_cons_neg {k1 : Value} {bb : List Dict}
    {rest : List (Value × List Dict)} {KEY : Value} (h : pyEq k1 KEY = false) :
    findGroup ((k1, bb) :: rest) KEY = findGroup rest KEY := by
  simp [findGroup, List.find?, h]

theorem groupAddAux_pres {KEY : Value} {rr : Dict} :
    ∀ (gs : List (Value × List Dict)) (k : Value) (x : Dict) {b : List Dict},
      findGroup gs KEY = Option.some b → rr ∈ b →
      ∃ b2, findGroup (groupAddAux gs k x) KEY = Option.some b2 ∧ rr ∈ b2 := by
  intro gs
  induction gs with
  | nil =>
    intro k x b hf
    simp [findGroup, List.find?] at hf
  | cons p rest ih =>
    intro k x b hf hm
    obtain ⟨k1, bb⟩ := p
    simp only [groupAddAux]
    by_cases hpk : pyEq k1 k = true
    · rw [if_pos hpk]
      by_cases hpkey : pyEq k1 KEY = true
      · have hbb : b = bb := by
          rw [findGroup_cons_pos hpkey] at hf
          exact (Option.some.inj hf).symm
        exact ⟨bb ++ [x], findGroup_cons_pos hpkey,
          List.mem_append_left _ (hbb ▸ hm)⟩
      · have hpkey2 : pyEq k1 KEY = false := Bool.eq_false_iff.mpr hpkey
        rw [findGroup_cons_neg hpkey2] at hf
        exact ⟨b, by rw [findGroup_cons_neg hpkey2]; exact hf, hm⟩
    · rw [if_neg hpk]
      by_cases hpkey : pyEq k1 KEY = true
      · have hbb : b = bb := by
          rw [findGroup_cons_pos hpkey] at hf
          exact (Option.some.inj hf).symm
        exact ⟨bb, findGroup_cons_pos hpkey, hbb ▸ hm⟩
      · have hpkey2 : pyEq k1 KEY = false := Bool.eq_false_iff.mpr hpkey
        rw [findGroup_cons_neg hpkey2] at hf
        obtain ⟨b2, hb2, hm2⟩ := ih k x hf hm
        exact ⟨b2, by rw [findGroup_cons_neg hpkey2]; exact hb2, hm2⟩

theorem groupAddAux_estab {KEY : Value} {x : Dict} (hrefl : pyEq KEY KEY = true) :
    ∀ (gs : List (Value × List Dict)),
      ∃ b2, findGroup (groupAddAux gs KEY x) KEY = Option.some b2 ∧ x ∈ b2 := by
  intro gs
  induction gs with
  | nil => exact ⟨[x], findGroup_cons_pos hrefl, List.mem_cons_self _ _⟩
  | cons p rest ih =>
    obtain ⟨k1, bb⟩ := p
    simp only [groupAddAux]
    by_cases hpk : pyEq k1 KEY = true
    · rw [if_pos hpk]
      exact ⟨bb ++ [x], findGroup_cons_pos hpk,
        List.mem_append_right _ (List.mem_cons_self _ _)⟩
    · rw [if_neg hpk]
      obtain ⟨b2, hb2, hm2⟩ := ih
      have hpk2 : pyEq k1 KEY = false := Bool.eq_false_iff.mpr hpk
      exact ⟨b2, by rw [findGroup_cons_neg hpk2]; exact hb2, hm2⟩

theorem groupAdd_pres {gs gs2 : List (Value × List Dict)} {k : Value} {x : Dict}
    {KEY : Value} {rr : Dict} {b : List Dict}
    (h : groupAdd gs k x = Except.ok gs2)
    (hf : findGroup gs KEY = Option.some b) (hm : rr ∈ b) :
    ∃ b2, findGroup gs2 KEY = Option.some b2 ∧ rr ∈ b2 := by
  unfold groupAdd at h
  split at h
  · obtain rfl := Except.ok.inj h
    exact groupAddAux_pres gs k x hf hm
  · cases h

theorem groupAdd_estab {gs gs2 : List (Value × List Dict)} {KEY : Value} {x : Dict}
    (h : groupAdd gs KEY x = Except.ok gs2) (hrefl : pyEq KEY KEY = true) :
    ∃ b2, findGroup gs2 KEY = Option.some b2 ∧ x ∈ b2 := by
  unfold groupAdd at h
  split at h
  · obtain rfl := Except.ok.inj h
    exact groupAddAux_estab hrefl gs
  · cases h

theorem buildGroups_pres {KEY : Value} {rr : Dict} :
    ∀ {ds : List Dict} {gs groups : List (Value × List Dict)},
      buildGroups gs ds = Except.ok groups →
      (∃ b, findGroup gs KEY = Option.some b ∧ rr ∈ b) →
      ∃ b, findGroup groups KEY = Option.some b ∧ rr ∈ b := by
  intro ds
  induction ds with
  | nil =>
    intro gs groups h hp
    obtain rfl := Except.ok.inj h
    exact hp
  | cons r rest ih =>
    intro gs groups h hp
    unfold buildGroups at h
    rcases bindE_ok_iff.mp h with ⟨gs1, h1, h2⟩
    obtain ⟨b, hf, hm⟩ := hp
    exact ih h2 (groupAdd_pres h1 hf hm)

theorem buildGroups_estab {sid : String} {rr : Dict}
    (hkey : vGetD rr "decision_id" = Value.str sid) :
    ∀ {ds : List Dict} {gs groups : List (Value × List Dict)},
      rr ∈ ds → buildGroups gs ds = Except.ok groups →
      ∃ b, findGroup groups (Value.str sid) = Option.some b ∧ rr ∈ b := by
  intro ds
  induction ds with
  | nil => intro gs groups hm; cases hm
  | cons r rest ih =>
    intro gs groups hm h
    unfold buildGroups at h
    rcases bindE_ok_iff.mp h with ⟨gs1, h1, h2⟩
    rcases List.mem_cons.mp hm with rfl | hm2
    · rw [hkey] at h1
      exact buildGroups_pres h2 (groupAdd_estab h1 (pyEq_str_self sid))
    · exact ih hm2 h2

theorem viewDecisionTail_pres {u : String} {dn : Dict} {rep rep2 : Report}
    {rs : List Dict}
    (h : (if rs.isEmpty then
            (Except.ok (rep.add_violation ACCOUNTABILITY_VIOLATION.MISSING_REPORTING
              ["decision:" ++ pyStr (vGetD dn "decision_id") ++ ":missing_receipt"]) :
              Except PyErr Report)
          else Except.ok (rs.foldl (viewReceiptCheck u dn) rep)) = Except.ok rep2)
    {v : ViolationRecord} (hv : v ∈ rep.violations) : v ∈ rep2.violations := by
  split at h
  · obtain rfl := Except.ok.inj h
    exact mem_violations_add_violation hv
  · obtain rfl := Except.ok.inj h
    have hf : ∀ (rep3 : Report) (x : Dict), v ∈ rep3.violations →
        v ∈ (viewReceiptCheck u dn rep3 x).violations :=
      fun rep3 x hp => mem_violations_addAll hp
    exact foldl_pres hf hv

theorem viewDecisionStep_pres {u : String} {groups : List (Value × List Dict)}
    {rep rep2 : Report} {d : Dict}
    (h : viewDecisionStep u groups rep d = Except.ok rep2)
    {v : ViolationRecord} (hv : v ∈ rep.violations) : v ∈ rep2.violations := by
  unfold viewDecisionStep at h
  rcases bindE_ok_iff.mp h with ⟨skip, _, h⟩
  cases skip with
  | true =>
    obtain rfl := Except.ok.inj h
    exact hv
  | false =>
    rcases bindE_ok_iff.mp h with ⟨rs, _, h⟩
    exact viewDecisionTail_pres h hv

theorem viewDecisionTail_estab {u : String} {dn rr : Dict} {rep rep2 : Report}
    {rs : List Dict}
    (hrr : rr ∈ rs)
    (hcv : vGetD rr "authority_chain" = Value.none)
    (h : (if rs.isEmpty then
            (Except.ok (rep.add_violation ACCOUNTABILITY_VIOLATION.MISSING_REPORTING
              ["decision:" ++ pyStr (vGetD dn "decision_id") ++ ":missing_receipt"]) :
              Except PyErr Report)
          else Except.ok (rs.foldl (viewReceiptCheck u dn) rep)) = Except.ok rep2) :
    ∃ v ∈ rep2.violations, v.label = TRUST_VIOLATION.ACCOUNTABILITY_BREAK := by
  split at h
  next hemp =>
    cases rs with
    | nil => cases hrr
    | cons a l => simp [List.isEmpty] at hemp
  next hemp =>
    obtain rfl := Except.ok.inj h
    have hf : ∀ (rep3 : Report) (x : Dict),
        (∃ v ∈ rep3.violations, v.label = TRUST_VIOLATION.ACCOUNTABILITY_BREAK) →
        ∃ v ∈ (viewReceiptCheck u dn rep3 x).violations,
          v.label = TRUST_VIOLATION.ACCOUNTABILITY_BREAK := by
      intro rep3 x hp
      rcases hp with ⟨v, hv, hl⟩
      exact ⟨v, mem_violations_addAll hv, hl⟩
    have hx : ∀ (rep3 : Report),
        ∃ v ∈ (viewReceiptCheck u dn rep3 rr).violations,
          v.label = TRUST_VIOLATION.ACCOUNTABILITY_BREAK := by
      intro rep3
      unfold viewReceiptCheck
      refine ⟨⟨TRUST_VIOLATION.ACCOUNTABILITY_BREAK,
        [(if isNoneV (vGetD rr "receipt_id") then "receipt:unknown"
          else "receipt:" ++ pyStr (vGetD rr "receipt_id"))], ""⟩, ?_, rfl⟩
      refine addAll_estab2 (List.mem_cons.mpr (Or.inr (List.mem_cons.mpr (Or.inr (List.mem_cons.mpr (Or.inr (List.mem_cons.mpr (Or.inr (List.mem_cons.mpr (Or.inr (List.mem_cons.mpr (Or.inr (List.mem_cons_self _ _))))))))))))) ?_
      rw [hcv]
      rfl
    exact foldl_estab hf hx hrr

theorem viewDecisionStep_estab {u : String} {groups : List (Value × List Dict)}
    {dn rr : Dict} {sid : String} {b : List Dict} {rep rep2 : Report}
    (hdnid : vGetD dn "decision_id" = Value.str sid)
    (hfg : findGroup groups (Value.str sid) = Option.some b)
    (hrrb : rr ∈ b)
    (hcv : vGetD rr "authority_chain" = Value.none)
    (hnoskip : computeViewSkip u dn = Except.ok false)
    (h : viewDecisionStep u groups rep dn = Except.ok rep2) :
    ∃ v ∈ rep2.violations, v.label = TRUST_VIOLATION.ACCOUNTABILITY_BREAK := by
  unfold viewDecisionStep at h
  rcases bindE_ok_iff.mp h with ⟨skip, hs, h⟩
  obtain rfl : skip = false := Except.ok.inj (hs.symm.trans hnoskip)
  rcases bindE_ok_iff.mp h with ⟨rs, hlk, h⟩
  rw [hdnid] at hlk
  have h2 : (findGroup groups (Value.str sid)).getD [] = rs := Except.ok.inj hlk
  rw [hfg] at h2
  rw [← h2] at h
  exact viewDecisionTail_estab hrrb hcv h

/-- Counterexample to claim C8: a visible decision receipt whose
`redacted_fields` contains `authority_chain` — and also `decision_id` —
produces no `ACCOUNTABILITY_BREAK`: `evaluate_trust_view` groups receipts
by the redacted copy\x27s `decision_id`, so the receipt lands in the
`None` bucket, the owning decision\x27s lookup misses it, and only
`MISSING_REPORTING` is raised. -/
theorem c8_counterexample :
    receiptVisibleToSuser [("type", Value.str "decision_receipt"), ("receipt_id", Value.int 1),
      ("decision_id", Value.str "d1"), ("suser_id", Value.str "alice"),
      ("authority_chain", Value.list [Value.str "g1", Value.str "alice"]),
      ("redacted_fields", Value.list [Value.str "authority_chain",
        Value.str "decision_id"])] "alice" = Except.ok true ∧
    pyInE (Value.str "authority_chain") (vGetD [("type", Value.str "decision_receipt"), ("receipt_id", Value.int 1),
      ("decision_id", Value.str "d1"), ("suser_id", Value.str "alice"),
      ("authority_chain", Value.list [Value.str "g1", Value.str "alice"]),
      ("redacted_fields", Value.list [Value.str "authority_chain",
        Value.str "decision_id"])] "redacted_fields") =
      Except.ok true ∧
    evaluateTrustView { freshState with
      receipt_log := [[("type", Value.str "decision_receipt"), ("receipt_id", Value.int 1),
      ("decision_id", Value.str "d1"), ("suser_id", Value.str "alice"),
      ("authority_chain", Value.list [Value.str "g1", Value.str "alice"]),
      ("redacted_fields", Value.list [Value.str "authority_chain",
        Value.str "decision_id"])]],
      decisions := [[("decision_id", Value.str "d1"), ("suser_id", Value.str "alice")]] } "alice" =
      Except.ok (viewReportOr { freshState with
      receipt_log := [[("type", Value.str "decision_receipt"), ("receipt_id", Value.int 1),
      ("decision_id", Value.str "d1"), ("suser_id", Value.str "alice"),
      ("authority_chain", Value.list [Value.str "g1", Value.str "alice"]),
      ("redacted_fields", Value.list [Value.str "authority_chain",
        Value.str "decision_id"])]],
      decisions := [[("decision_id", Value.str "d1"), ("suser_id", Value.str "alice")]] } "alice") ∧
    TRUST_VIOLATION.ACCOUNTABILITY_BREAK ∉
      (viewReportOr { freshState with
      receipt_log := [[("type", Value.str "decision_receipt"), ("receipt_id", Value.int 1),
      ("decision_id", Value.str "d1"), ("suser_id", Value.str "alice"),
      ("authority_chain", Value.list [Value.str "g1", Value.str "alice"]),
      ("redacted_fields", Value.list [Value.str "authority_chain",
        Value.str "decision_id"])]],
      decisions := [[("decision_id", Value.str "d1"), ("suser_id", Value.str "alice")]] } "alice").labels :=
  ⟨rfl, rfl, rfl, by decide⟩

/-- Claim C8, amended: the break is reported provided the grouping
fields survive redaction.  For every receipt in the log that is visible
to the requester, whose `redacted_fields` set contains
`authority_chain`, and whose redacted copy still carries
`type == "decision_receipt"` and a string `decision_id`, and for every
recorded decision with that same `decision_id` that the requester owns
or is affected by, `evaluate_trust_view` reports
`TRUST_VIOLATION.ACCOUNTABILITY_BREAK`. -/
theorem c8_redacted_chain_break_amended (st : State) (u : String) (r rr dn : Dict)
    (rep : Report) (base : List Value) (sid : String)
    (hmem : r ∈ st.receipt_log)
    (hvis : receiptVisibleToSuser r u = Except.ok true)
    (hred : redactReceipt r = Except.ok rr)
    (hbase : pySetOfE (pyOr (vGetD r "redacted_fields") (Value.list [])) =
      Except.ok base)
    (hac : Value.str "authority_chain" ∈ base)
    (hty : vGetD rr "type" = Value.str "decision_receipt")
    (hsid : vGetD rr "decision_id" = Value.str sid)
    (hdn : dn ∈ st.decisions)
    (hdnid : vGetD dn "decision_id" = Value.str sid)
    (hnoskip : computeViewSkip u dn = Except.ok false)
    (hrep : evaluateTrustView st u = Except.ok rep) :
    TRUST_VIOLATION.ACCOUNTABILITY_BREAK ∈ rep.labels := by
  have hcvOpt : vGetDOpt rr "authority_chain" = Option.none :=
    redactReceipt_absent hbase hac (by decide) hred
  have hcv : vGetD rr "authority_chain" = Value.none := by
    simp [vGetD, hcvOpt]
  unfold evaluateTrustView at hrep
  rcases bindE_ok_iff.mp hrep with ⟨vrs, hvrs, hrep⟩
  rcases bindE_ok_iff.mp hrep with ⟨groups, hgr, hrep⟩
  have hrrv : rr ∈ vrs := viewReceipts_mem hmem hvis hred hvrs
  have hrrd : rr ∈ vrs.filter (fun r0 => isStrV (vGetD r0 "type") "decision_receipt") :=
    List.mem_filter.mpr ⟨hrrv, by rw [hty]; rfl⟩
  obtain ⟨b, hfg, hrrb⟩ := buildGroups_estab hsid hrrd hgr
  have hstep : ∀ (b1 : Report) (x : Dict) (b2 : Report),
      viewDecisionStep u groups b1 x = Except.ok b2 →
      (∃ v ∈ b1.violations, v.label = TRUST_VIOLATION.ACCOUNTABILITY_BREAK) →
      ∃ v ∈ b2.violations, v.label = TRUST_VIOLATION.ACCOUNTABILITY_BREAK := by
    intro b1 x b2 hs hp
    rcases hp with ⟨v, hv, hl⟩
    exact ⟨v, viewDecisionStep_pres hs hv, hl⟩
  have hx : ∀ (b1 b2 : Report), viewDecisionStep u groups b1 dn = Except.ok b2 →
      ∃ v ∈ b2.violations, v.label = TRUST_VIOLATION.ACCOUNTABILITY_BREAK :=
    fun b1 b2 hs => viewDecisionStep_estab hdnid hfg hrrb hcv hnoskip hs
  rcases foldME_estab hstep hx hdn hrep with ⟨v, hv, hl⟩
  rw [← hl]
  exact label_mem_of_record hv

/-- Witness for the amended C8: the same scenario as the counterexample
but with only `authority_chain` redacted; the break is reported. -/
theorem c8_redacted_chain_break_amended_witness :
    TRUST_VIOLATION.ACCOUNTABILITY_BREAK ∈ (viewReportOr { freshState with
      receipt_log := [[("type", Value.str "decision_receipt"), ("receipt_id", Value.int 1),
      ("decision_id", Value.str "d1"), ("suser_id", Value.str "alice"),
      ("authority_chain", Value.list [Value.str "g1", Value.str "alice"]),
      ("redacted_fields", Value.list [Value.str "authority_chain"])]],
      decisions := [[("decision_id", Value.str "d1"), ("suser_id", Value.str "alice")]] } "alice").labels :=
  c8_redacted_chain_break_amended { freshState with
      receipt_log := [[("type", Value.str "decision_receipt"), ("receipt_id", Value.int 1),
      ("decision_id", Value.str "d1"), ("suser_id", Value.str "alice"),
      ("authority_chain", Value.list [Value.str "g1", Value.str "alice"]),
      ("redacted_fields", Value.list [Value.str "authority_chain"])]],
      decisions := [[("decision_id", Value.str "d1"), ("suser_id", Value.str "alice")]] } "alice"
    [("type", Value.str "decision_receipt"), ("receipt_id", Value.int 1),
      ("decision_id", Value.str "d1"), ("suser_id", Value.str "alice"),
      ("authority_chain", Value.list [Value.str "g1", Value.str "alice"]),
      ("redacted_fields", Value.list [Value.str "authority_chain"])]
    (redactOr [("type", Value.str "decision_receipt"), ("receipt_id", Value.int 1),
      ("decision_id", Value.str "d1"), ("suser_id", Value.str "alice"),
      ("authority_chain", Value.list [Value.str "g1", Value.str "alice"]),
      ("redacted_fields", Value.list [Value.str "authority_chain"])])
    [("decision_id", Value.str "d1"), ("suser_id", Value.str "alice")]
    (viewReportOr { freshState with
      receipt_log := [[("type", Value.str "decision_receipt"), ("receipt_id", Value.int 1),
      ("decision_id", Value.str "d1"), ("suser_id", Value.str "alice"),
      ("authority_chain", Value.list [Value.str "g1", Value.str "alice"]),
      ("redacted_fields", Value.list [Value.str "authority_chain"])]],
      decisions := [[("decision_id", Value.str "d1"), ("suser_id", Value.str "alice")]] } "alice")
    [Value.str "authority_chain"] "d1"
    (List.mem_cons_self _ _) rfl rfl rfl (List.mem_cons_self _ _)
    rfl rfl (List.mem_cons_self _ _) rfl rfl rfl

end TrustSpec










